import Mathlib

/-!
# City strategy AI (CvCityStrategyAI.cpp)

A shallow embedding of the per-city decision engine of
`CvGameCoreDLL_Expansion2/CvCityStrategyAI.cpp`:

* the strategy catalog entry `CvAICityStrategyEntry`,
* the per-city state `CvCityStrategyAI` (flavor accumulator, active flags,
  turn-adopted values, yield statistics),
* `SetUsingCityStrategy`, `PrecalcYieldStats` and `DoTurn`,
* the weighted candidate list operations used by `ChooseProduction` and
  `ChooseHurry`, and these two functions over a record of the queries they make,
* the city-size and tile-improver trigger predicates of `CityStrategyAIHelpers`,
* sequences of `SetUsingCityStrategy` and `DoTurn` calls started from `Reset`.

C++ `int` is modelled by `Int` (no wrap-around), arrays by lists read with
`getD` and written with `set`, and the `for` loops by folds over
`List.range`.  Logging calls have no effect on the modelled state and are
left out; `FlavorUpdate` only rebuilds the weight tables of the four
production-AI sub-objects, which are not part of the modelled state.
-/

namespace CvGameCoreDLL

/-! ## Constants -/

/-- The enum value `NO_TECH`. -/
def NO_TECH : Int := -1

/-- The enum value `NO_AICITYSTRATEGY`. -/
def NO_AICITYSTRATEGY : Int := -1

/-- The enum value `NO_YIELD`. -/
def NO_YIELD : Int := -1

/-- The enum value `NO_CITY_SPECIALIZATION`. -/
def NO_CITY_SPECIALIZATION : Int := -1

/-- The enum value `YIELD_FAITH` (food, production, gold, science, culture, faith). -/
def YIELD_FAITH : Nat := 5

/-! ## Strategy catalog -/

/-- One row of the strategy catalog (`CvAICityStrategyEntry`); the flavor array is
`none` when `m_piFlavorValue` is `NULL`. -/
structure CvAICityStrategyEntry where
  m_strType : String
  m_piFlavorValue : Option (List Int)
  m_iWeightThreshold : Int
  m_iTechPrereq : Int
  m_iTechObsolete : Int
  m_iMinimumNumTurnsExecuted : Int
  m_iCheckTriggerTurnCount : Int
  m_bNoMinorCivs : Bool
  m_bPermanent : Bool
  deriving DecidableEq, Repr

namespace CvAICityStrategyEntry

/-- What flavors will be added by adopting this strategy
(`m_piFlavorValue ? m_piFlavorValue[i] : -1`). -/
def GetFlavorValue (e : CvAICityStrategyEntry) (i : Nat) : Int :=
  match e.m_piFlavorValue with
  | some a => a.getD i 0
  | none => -1

/-- Technology prerequisite of the strategy. -/
def GetTechPrereq (e : CvAICityStrategyEntry) : Int := e.m_iTechPrereq

/-- Technology that obsoletes the strategy. -/
def GetTechObsolete (e : CvAICityStrategyEntry) : Int := e.m_iTechObsolete

/-- Minimum number of turns the strategy must be executed for. -/
def GetMinimumNumTurnsExecuted (e : CvAICityStrategyEntry) : Int :=
  e.m_iMinimumNumTurnsExecuted

/-- Once adopted, the trigger conditions are checked every that many turns. -/
def GetCheckTriggerTurnCount (e : CvAICityStrategyEntry) : Int :=
  e.m_iCheckTriggerTurnCount

/-- Is the strategy barred for minor civs? -/
def IsNoMinorCivs (e : CvAICityStrategyEntry) : Bool := e.m_bNoMinorCivs

/-- Will the strategy run forever after being adopted? -/
def IsPermanent (e : CvAICityStrategyEntry) : Bool := e.m_bPermanent

end CvAICityStrategyEntry

/-- The global database `GC`: number of flavors, the strategy catalog (with holes) and
the tuning constants read through `GD_INT_GET` / `GD_FLOAT_GET`.  The field
`expectedYieldPerPop100` holds the six values `(int)(100 * GD_FLOAT_GET(..))` of
`PrecalcYieldStats`, already converted to integers. -/
structure CvGlobals where
  numFlavorTypes : Nat
  m_paAICityStrategyEntries : List (Option CvAICityStrategyEntry)
  NUM_YIELD_TYPES : Nat
  expectedYieldPerPop100 : List Int
  AI_CITYSTRATEGY_SMALL_CITY_POP_THRESHOLD : Int
  AI_CITYSTRATEGY_MEDIUM_CITY_POP_THRESHOLD : Int
  AI_CITYSTRATEGY_LARGE_CITY_POP_THRESHOLD : Int

namespace CvGlobals

/-- Number of defined strategies (`CvAICityStrategies::GetNumAICityStrategies`). -/
def GetNumAICityStrategies (gc : CvGlobals) : Nat :=
  gc.m_paAICityStrategyEntries.length

/-- A specific catalog entry (`CvAICityStrategies::GetEntry`); `none` is a hole. -/
def GetEntry (gc : CvGlobals) (index : Nat) : Option CvAICityStrategyEntry :=
  gc.m_paAICityStrategyEntries.getD index none

end CvGlobals

/-! ## Per-city state -/

/-- The mutable members of `CvCityStrategyAI`. -/
structure CvCityStrategyAI where
  m_piLatestFlavorValues : List Int
  m_pabUsingCityStrategy : List Bool
  m_paiTurnCityStrategyAdopted : List Int
  m_eSpecialization : Int
  m_eDefaultSpecialization : Int
  m_aiYieldModifier : List Int
  m_eMostDeficientYield : Int
  m_eMostAbundantYield : Int
  deriving DecidableEq, Repr

/-- What the engine reads from the city, its owner, its team, the game and the
scripting system during one pass.  `IsTestCityStrategy name e ai` is the result of the
helper predicate that `DoTurn` dispatches to for the strategy named `name`
(those other than the four city-size predicates, which are modelled below);
`luaCityStrategyCanActivate e` is `none` when there is no script system or no
registered listener and `some b` when the listeners answered `b`. -/
structure CvCity where
  m_iID : Int
  m_iPopulation : Int
  ownerIsMinorCiv : Bool
  ownerIsBarbarian : Bool
  teamHasTech : Int → Bool
  gameTurn : Int
  yieldRateTimes100 : Nat → Int
  IsTestCityStrategy : String → Nat → CvCityStrategyAI → Bool
  luaCityStrategyCanActivate : Nat → Option Bool

namespace CvCityStrategyAI

/-- Returns whether the city has adopted this strategy.  Strategy identifiers are
natural numbers here, so the `NO_AICITYSTRATEGY` guard of the source never fires. -/
def IsUsingCityStrategy (ai : CvCityStrategyAI) (eStrategy : Nat) : Bool :=
  ai.m_pabUsingCityStrategy.getD eStrategy false

/-- Returns the turn on which a strategy was adopted (-1 if it has not been). -/
def GetTurnCityStrategyAdopted (ai : CvCityStrategyAI) (eStrategy : Nat) : Int :=
  ai.m_paiTurnCityStrategyAdopted.getD eStrategy NO_AICITYSTRATEGY

/-- Sets the turn number the strategy was most recently adopted. -/
def SetTurnCityStrategyAdopted (ai : CvCityStrategyAI) (eStrategy : Nat) (iValue : Int) :
    CvCityStrategyAI :=
  if ai.m_paiTurnCityStrategyAdopted.getD eStrategy NO_AICITYSTRATEGY ≠ iValue then
    { ai with m_paiTurnCityStrategyAdopted := ai.m_paiTurnCityStrategyAdopted.set eStrategy iValue }
  else ai

/-- Signifies that the strategy is now (not) being utilized; `iGameTurn` is
`GC.getGame().getGameTurn()`. -/
def SetUsingCityStrategy (iGameTurn : Int) (ai : CvCityStrategyAI) (eStrategy : Nat)
    (bValue : Bool) : CvCityStrategyAI :=
  if ai.m_pabUsingCityStrategy.getD eStrategy false ≠ bValue then
    let ai1 := { ai with m_pabUsingCityStrategy := ai.m_pabUsingCityStrategy.set eStrategy bValue }
    if bValue then SetTurnCityStrategyAdopted ai1 eStrategy iGameTurn
    else SetTurnCityStrategyAdopted ai1 eStrategy (-1)
  else ai

/-- Reset member variables: every strategy inactive with turn-adopted
`NO_AICITYSTRATEGY`, no specialization, no yield statistics.  The two strategy arrays
were sized by `init()` to the number of strategies; the flavor array belongs to the base
class and is not touched. -/
def Reset (gc : CvGlobals) (ai : CvCityStrategyAI) : CvCityStrategyAI :=
  { ai with
    m_pabUsingCityStrategy := List.replicate gc.GetNumAICityStrategies false
    m_paiTurnCityStrategyAdopted := List.replicate gc.GetNumAICityStrategies NO_AICITYSTRATEGY
    m_eSpecialization := NO_CITY_SPECIALIZATION
    m_eDefaultSpecialization := NO_CITY_SPECIALIZATION
    m_eMostDeficientYield := NO_YIELD
    m_eMostAbundantYield := NO_YIELD
    m_aiYieldModifier := List.replicate gc.NUM_YIELD_TYPES 0 }

end CvCityStrategyAI

/-! ## Stable descending sort -/

/-- Modelled from the spec: `CvWeightedVector::StableSortItems` and the `operator<` of
`OptionWithScore` live in headers that are not part of the sources at hand.  The spec
says the sort is by weight descending and ties preserve insertion order; this is the
stable insertion sort on the relation "weight of the left item is at least the weight of
the right item". -/
def stableSortDescending {α : Type} (key : α → Int) (l : List α) : List α :=
  l.insertionSort (fun a b => key b ≤ key a)

/-! ## Helper predicates of the city-size strategies -/

namespace CityStrategyAIHelpers

/-- "Tiny City" city strategy: size 1. -/
def IsTestCityStrategy_TinyCity (gc : CvGlobals) (pCity : CvCity) : Bool :=
  decide (pCity.m_iPopulation < gc.AI_CITYSTRATEGY_SMALL_CITY_POP_THRESHOLD)

/-- "Small City" city strategy: sizes 2 to 6. -/
def IsTestCityStrategy_SmallCity (gc : CvGlobals) (pCity : CvCity) : Bool :=
  if pCity.m_iPopulation ≥ gc.AI_CITYSTRATEGY_SMALL_CITY_POP_THRESHOLD ∧
      pCity.m_iPopulation < gc.AI_CITYSTRATEGY_MEDIUM_CITY_POP_THRESHOLD then
    true
  else
    false

/-- "Medium City" city strategy: sizes 7 to 14. -/
def IsTestCityStrategy_MediumCity (gc : CvGlobals) (pCity : CvCity) : Bool :=
  if pCity.m_iPopulation ≥ gc.AI_CITYSTRATEGY_MEDIUM_CITY_POP_THRESHOLD ∧
      pCity.m_iPopulation < gc.AI_CITYSTRATEGY_LARGE_CITY_POP_THRESHOLD then
    true
  else
    false

/-- "Large City" city strategy: sizes 15+. -/
def IsTestCityStrategy_LargeCity (gc : CvGlobals) (pCity : CvCity) : Bool :=
  decide (pCity.m_iPopulation ≥ gc.AI_CITYSTRATEGY_LARGE_CITY_POP_THRESHOLD)

end CityStrategyAIHelpers

/-! ## DoTurn -/

namespace CvCityStrategyAI

/-- The strategy names, other than the four city-size ones, that the trigger dispatch of
`DoTurn` knows (with `MOD_BALANCE_CORE` defined). -/
def helperStrategyNames : List String :=
  ["AICITYSTRATEGY_LANDLOCKED", "AICITYSTRATEGY_LAKEBOUND",
   "AICITYSTRATEGY_NEED_TILE_IMPROVERS", "AICITYSTRATEGY_WANT_TILE_IMPROVERS",
   "AICITYSTRATEGY_ENOUGH_TILE_IMPROVERS", "AICITYSTRATEGY_NEED_NAVAL_GROWTH",
   "AICITYSTRATEGY_NEED_NAVAL_TILE_IMPROVEMENT",
   "AICITYSTRATEGY_ENOUGH_NAVAL_TILE_IMPROVEMENT", "AICITYSTRATEGY_ENOUGH_SETTLERS",
   "AICITYSTRATEGY_NEW_CONTINENT_FEEDER", "AICITYSTRATEGY_POCKET_CITY",
   "AICITYSTRATEGY_NEED_IMPROVEMENT_FOOD", "AICITYSTRATEGY_NEED_IMPROVEMENT_PRODUCTION",
   "AICITYSTRATEGY_HAVE_TRAINING_FACILITY", "AICITYSTRATEGY_CAPITAL_NEED_SETTLER",
   "AICITYSTRATEGY_CAPITAL_UNDER_THREAT",
   "AICITYSTRATEGY_FIRST_CULTURE_BUILDING_EMERGENCY",
   "AICITYSTRATEGY_FIRST_CULTURE_BUILDING", "AICITYSTRATEGY_FIRST_SCIENCE_BUILDING",
   "AICITYSTRATEGY_FIRST_GOLD_BUILDING", "AICITYSTRATEGY_FIRST_FAITH_BUILDING",
   "AICITYSTRATEGY_FIRST_PRODUCTION_BUILDING", "AICITYSTRATEGY_UNDER_BLOCKADE",
   "AICITYSTRATEGY_IS_PUPPET", "AICITYSTRATEGY_MEDIUM_CITY_HIGH_DIFFICULTY",
   "AICITYSTRATEGY_ORIGINAL_CAPITAL", "AICITYSTRATEGY_RIVER_CITY",
   "AICITYSTRATEGY_MOUNTAIN_CITY", "AICITYSTRATEGY_FOREST_CITY",
   "AICITYSTRATEGY_HILL_CITY", "AICITYSTRATEGY_JUNGLE_CITY", "AICITYSTRATEGY_COAST_CITY",
   "AICITYSTRATEGY_MANY_TECHS_STOLEN", "AICITYSTRATEGY_KEY_SCIENCE_CITY",
   "AICITYSTRATEGY_GOOD_GP_CITY", "AICITYSTRATEGY_NEED_INTERNATIONAL_LAND_TRADE_ROUTE",
   "AICITYSTRATEGY_NO_NEED_INTERNATIONAL_LAND_TRADE_ROUTE",
   "AICITYSTRATEGY_NEED_INTERNATIONAL_SEA_TRADE_ROUTE",
   "AICITYSTRATEGY_NO_NEED_INTERNATIONAL_SEA_TRADE_ROUTE",
   "AICITYSTRATEGY_INTERNATIONAL_TRADE_DESTINATION",
   "AICITYSTRATEGY_INTERNATIONAL_TRADE_ORIGIN", "AICITYSTRATEGY_NEED_CULTURE_BUILDING",
   "AICITYSTRATEGY_NEED_TOURISM_BUILDING", "AICITYSTRATEGY_GOOD_AIRLIFT_CITY",
   "AICITYSTRATEGY_NEED_DIPLOMATS", "AICITYSTRATEGY_NEED_DIPLOMATS_CRITICAL",
   "AICITYSTRATEGY_NEED_HAPPINESS_CULTURE", "AICITYSTRATEGY_NEED_HAPPINESS_SCIENCE",
   "AICITYSTRATEGY_NEED_HAPPINESS_DEFENSE", "AICITYSTRATEGY_NEED_HAPPINESS_GOLD",
   "AICITYSTRATEGY_NEED_HAPPINESS_CONNECTION", "AICITYSTRATEGY_NEED_HAPPINESS_PILLAGE",
   "AICITYSTRATEGY_NEED_HAPPINESS_RELIGION", "AICITYSTRATEGY_NEED_HAPPINESS_STARVE"]

/-- The local `bTestCityStrategyStart` of `DoTurn`: should the strategy be tested for
being turned on? -/
def bTestCityStrategyStart (pCity : CvCity) (pCityStrategy : CvAICityStrategyEntry)
    (bUsing : Bool) : Bool :=
  if bUsing then false
  else
    let b1 : Bool :=
      if pCityStrategy.GetTechPrereq ≠ NO_TECH ∧
          pCity.teamHasTech pCityStrategy.GetTechPrereq = false then false
      else true
    if b1 = true ∧ pCityStrategy.GetTechObsolete ≠ NO_TECH ∧
        pCity.teamHasTech pCityStrategy.GetTechObsolete = true then false
    else b1

/-- The local `bTestCityStrategyEnd` of `DoTurn`: should the strategy be tested for
being turned off?  The C++ `%` is `Int.tmod`. -/
def bTestCityStrategyEnd (iGameTurn : Int) (pCityStrategy : CvAICityStrategyEntry)
    (bUsing : Bool) (iTurnAdopted : Int) : Bool :=
  if bUsing then
    if pCityStrategy.IsPermanent = false then
      let b1 : Bool :=
        if pCityStrategy.GetCheckTriggerTurnCount > 0 then
          if (iGameTurn - iTurnAdopted).tmod pCityStrategy.GetCheckTriggerTurnCount = 0 then true
          else false
        else false
      if b1 = true ∧ pCityStrategy.GetMinimumNumTurnsExecuted > 0 then
        if iGameTurn < iTurnAdopted + pCityStrategy.GetMinimumNumTurnsExecuted then false
        else b1
      else b1
    else false
  else false

/-- The chain of string comparisons of `DoTurn` that picks the trigger predicate; a
name that matches none of the branches leaves `bStrategyShouldBeActive` at `false`. -/
def checkTriggers (gc : CvGlobals) (pCity : CvCity) (ai : CvCityStrategyAI)
    (eCityStrategy : Nat) (pCityStrategy : CvAICityStrategyEntry) : Bool :=
  let strStrategyName := pCityStrategy.m_strType
  if strStrategyName = "AICITYSTRATEGY_TINY_CITY" then
    CityStrategyAIHelpers.IsTestCityStrategy_TinyCity gc pCity
  else if strStrategyName = "AICITYSTRATEGY_SMALL_CITY" then
    CityStrategyAIHelpers.IsTestCityStrategy_SmallCity gc pCity
  else if strStrategyName = "AICITYSTRATEGY_MEDIUM_CITY" then
    CityStrategyAIHelpers.IsTestCityStrategy_MediumCity gc pCity
  else if strStrategyName = "AICITYSTRATEGY_LARGE_CITY" then
    CityStrategyAIHelpers.IsTestCityStrategy_LargeCity gc pCity
  else if strStrategyName ∈ helperStrategyNames then
    pCity.IsTestCityStrategy strStrategyName eCityStrategy ai
  else false

/-- The local `bStrategyShouldBeActive` of `DoTurn`: forced to `false` by a known
obsoleting tech, otherwise the trigger predicate, overridden by a Lua veto. -/
def bStrategyShouldBeActive (gc : CvGlobals) (pCity : CvCity) (ai : CvCityStrategyAI)
    (eCityStrategy : Nat) (pCityStrategy : CvAICityStrategyEntry) : Bool :=
  if pCityStrategy.GetTechObsolete ≠ NO_TECH ∧
      pCity.teamHasTech pCityStrategy.GetTechObsolete = true then false
  else
    let b := checkTriggers gc pCity ai eCityStrategy pCityStrategy
    if b = true then
      match pCity.luaCityStrategyCanActivate eCityStrategy with
      | some false => false
      | _ => b
    else b

/-- The local `bAdoptOrEndStrategy` of `DoTurn`. -/
def bAdoptOrEndStrategy (bShouldBeActive bTestStart bTestEnd : Bool) : Bool :=
  if bShouldBeActive then
    if bTestStart then true
    else if bTestEnd then false
    else false
  else
    if bTestStart then false
    else if bTestEnd then true
    else false

/-- The flavor propagation loop of `DoTurn`, iterations `0 .. n-1`: every non-zero flavor
value of the strategy is added to (`bAdd`) or subtracted from the accumulator. -/
def propagateFlavors (pCityStrategy : CvAICityStrategyEntry) (bAdd : Bool) :
    Nat → List Int → List Int
  | 0, fl => fl
  | n + 1, fl =>
    let fl1 := propagateFlavors pCityStrategy bAdd n fl
    if pCityStrategy.GetFlavorValue n ≠ 0 then
      if bAdd then fl1.set n (fl1.getD n 0 + pCityStrategy.GetFlavorValue n)
      else fl1.set n (fl1.getD n 0 - pCityStrategy.GetFlavorValue n)
    else fl1

/-- The "adopt" arm of `DoTurn`: `SetUsingCityStrategy(e, true)` and the flavor
additions. -/
def adoptCityStrategy (gc : CvGlobals) (pCity : CvCity) (ai : CvCityStrategyAI)
    (eCityStrategy : Nat) (pCityStrategy : CvAICityStrategyEntry) : CvCityStrategyAI :=
  let ai1 := SetUsingCityStrategy pCity.gameTurn ai eCityStrategy true
  { ai1 with m_piLatestFlavorValues :=
      propagateFlavors pCityStrategy true gc.numFlavorTypes ai1.m_piLatestFlavorValues }

/-- The "end" arm of `DoTurn`: `SetUsingCityStrategy(e, false)` and the flavor
subtractions. -/
def endCityStrategy (gc : CvGlobals) (pCity : CvCity) (ai : CvCityStrategyAI)
    (eCityStrategy : Nat) (pCityStrategy : CvAICityStrategyEntry) : CvCityStrategyAI :=
  let ai1 := SetUsingCityStrategy pCity.gameTurn ai eCityStrategy false
  { ai1 with m_piLatestFlavorValues :=
      propagateFlavors pCityStrategy false gc.numFlavorTypes ai1.m_piLatestFlavorValues }

/-- Is the strategy skipped because the owner is a minor civ or the barbarians and the
definition forbids minor civs? -/
def skipForMinorCiv (pCity : CvCity) (pCityStrategy : CvAICityStrategyEntry) : Bool :=
  (pCity.ownerIsMinorCiv || pCity.ownerIsBarbarian) && pCityStrategy.IsNoMinorCivs

/-- The body of the strategy loop of `DoTurn` for the strategy `eCityStrategy`. -/
def DoTurnStrategy (gc : CvGlobals) (pCity : CvCity) (ai : CvCityStrategyAI)
    (eCityStrategy : Nat) : CvCityStrategyAI :=
  match gc.GetEntry eCityStrategy with
  | none => ai
  | some pCityStrategy =>
    if skipForMinorCiv pCity pCityStrategy then ai
    else
      let bTestStart :=
        bTestCityStrategyStart pCity pCityStrategy (ai.IsUsingCityStrategy eCityStrategy)
      let bTestEnd :=
        bTestCityStrategyEnd pCity.gameTurn pCityStrategy (ai.IsUsingCityStrategy eCityStrategy)
          (ai.GetTurnCityStrategyAdopted eCityStrategy)
      if bTestStart || bTestEnd then
        let bShould := bStrategyShouldBeActive gc pCity ai eCityStrategy pCityStrategy
        if bAdoptOrEndStrategy bShould bTestStart bTestEnd then
          if bTestStart then adoptCityStrategy gc pCity ai eCityStrategy pCityStrategy
          else if bTestEnd then endCityStrategy gc pCity ai eCityStrategy pCityStrategy
          else ai
        else ai
      else ai

/-- The per-capita deviation `iDelta` of `PrecalcYieldStats` for the yield `iI`; C++
integer division is `Int.tdiv`. -/
def yieldDelta (gc : CvGlobals) (pCity : CvCity) (iI : Nat) : Int :=
  let iYieldTimes100 := pCity.yieldRateTimes100 iI
  let iYieldPerPop100 := iYieldTimes100.tdiv (max 1 pCity.m_iPopulation)
  let iExpectedYield100 := if iI ≤ YIELD_FAITH then gc.expectedYieldPerPop100.getD iI 0 else 100
  iExpectedYield100 - iYieldPerPop100

/-- The vector `deviations` of `PrecalcYieldStats` after the stable sort: the pairs
(yield, `-iDelta`) of the baseline-bearing yields, best score first. -/
def sortedDeviations (gc : CvGlobals) (pCity : CvCity) : List (Int × Int) :=
  stableSortDescending (fun d => d.2)
    (((List.range gc.NUM_YIELD_TYPES).filter (fun iI => iI ≤ YIELD_FAITH)).map
      (fun iI => (Int.ofNat iI, -yieldDelta gc pCity iI)))

/-- Check whether certain yields are below or above expectations. -/
def PrecalcYieldStats (gc : CvGlobals) (pCity : CvCity) (ai : CvCityStrategyAI) :
    CvCityStrategyAI :=
  let deviations := sortedDeviations gc pCity
  { ai with
    m_aiYieldModifier :=
      (List.range gc.NUM_YIELD_TYPES).foldl
        (fun m iI => m.set iI (if yieldDelta gc pCity iI > 0 then yieldDelta gc pCity iI else 0))
        ai.m_aiYieldModifier
    m_eMostAbundantYield :=
      match deviations.head? with
      | some d => if d.2 > 0 then d.1 else NO_YIELD
      | none => NO_YIELD
    m_eMostDeficientYield :=
      match deviations.getLast? with
      | some d => if d.2 < 0 then d.1 else NO_YIELD
      | none => NO_YIELD }

/-- Called every turn to see what city strategies this city should be using (or not). -/
def DoTurn (gc : CvGlobals) (pCity : CvCity) (ai : CvCityStrategyAI) : CvCityStrategyAI :=
  (List.range gc.GetNumAICityStrategies).foldl (DoTurnStrategy gc pCity)
    (PrecalcYieldStats gc pCity ai)

end CvCityStrategyAI

/-! ## Weighted candidate lists -/

/-- The kind tag of a city buildable (`CityAIBuildableType`). -/
inductive CityAIBuildableType where
  | NOT_A_CITY_BUILDABLE
  | CITY_BUILDABLE_UNIT
  | CITY_BUILDABLE_UNIT_FOR_ARMY
  | CITY_BUILDABLE_UNIT_FOR_OPERATION
  | CITY_BUILDABLE_BUILDING
  | CITY_BUILDABLE_PROJECT
  | CITY_BUILDABLE_PROCESS
  deriving DecidableEq, Repr

/-- A candidate of the production and hurry pipelines (`CvCityBuildable`). -/
structure CvCityBuildable where
  m_eBuildableType : CityAIBuildableType
  m_iIndex : Int
  m_iTurnsToConstruct : Int
  m_iValue : Int
  deriving DecidableEq, Repr

/-- A weighted vector: the (item, weight) pairs in push order. -/
abbrev CvWeightedVector (α : Type) := List (α × Int)

namespace CvWeightedVector

/-- Append an item with its weight. -/
def push_back {α : Type} (v : CvWeightedVector α) (item : α) (iWeight : Int) :
    CvWeightedVector α :=
  v ++ [(item, iWeight)]

/-- Sum of all weights. -/
def GetTotalWeight {α : Type} (v : CvWeightedVector α) : Int :=
  (v.map Prod.snd).sum

/-- Modelled from the spec: `CvWeightedVector::StableSortItems` is declared in a header that
is not among the sources; the spec says it sorts by weight descending and that ties
preserve insertion order. -/
def StableSortItems {α : Type} (v : CvWeightedVector α) : CvWeightedVector α :=
  stableSortDescending Prod.snd v

/-- The largest weight of the list (0 for the empty list). -/
def maxWeight {α : Type} (v : CvWeightedVector α) : Int :=
  match v.map Prod.snd with
  | [] => 0
  | w :: ws => ws.foldl max w

/-- Walk the list and return the item in whose weight interval the drawn number falls. -/
def pickByWeight {α : Type} : CvWeightedVector α → Int → Option α
  | [], _ => none
  | (x, w) :: rest, r => if r < w then some x else pickByWeight rest (r - w)

/-- Modelled from the spec: the weighted-random draw of `CvWeightedVector`, declared in a
header that is not among the sources.  `urand limit seed` is the seeded random source of
the game (a number below `limit` determined by the seed); a list whose total weight is
not positive yields no item. -/
def ChooseByWeight {α σ : Type} (urand : Nat → σ → Nat) (v : CvWeightedVector α) (seed : σ) :
    Option α :=
  if GetTotalWeight v > 0 then
    pickByWeight v (Int.ofNat (urand (GetTotalWeight v).toNat seed))
  else none

/-- Modelled from the spec: `CvWeightedVector::ChooseAbovePercentThreshold`, declared in a
header that is not among the sources.  The spec says it computes a weight cutoff of
`iPercent` percent of the maximum weight in the list, discards the items strictly below
the cutoff, and then performs a weighted-random draw keyed by the seed. -/
def ChooseAbovePercentThreshold {α σ : Type} (urand : Nat → σ → Nat)
    (v : CvWeightedVector α) (iPercent : Int) (seed : σ) : Option α :=
  let iCutoff := (maxWeight v * iPercent).tdiv 100
  ChooseByWeight urand (v.filter (fun x => decide (iCutoff ≤ x.2))) seed

end CvWeightedVector

/-- The two operations of `CvSeeder` that the selection code uses; the class is declared
in a header that is not among the sources, so they are parameters. -/
structure CvSeederOps (σ : Type) where
  fromRaw : Nat → σ
  mix : σ → Int → σ

namespace CvCityStrategyAI

/-- The seed of the weighted draw of `ChooseProduction`:
`CvSeeder::fromRaw(0x0e36d18b).mix(m_pCity->GetID())`. -/
def ChooseProduction_seed {σ : Type} (S : CvSeederOps σ) (pCity : CvCity) : σ :=
  S.mix (S.fromRaw 0x0e36d18b) pCity.m_iID

/-- The seed of the weighted draw of `ChooseHurry`:
`CvSeeder::fromRaw(0xe362f42a).mix(m_pCity->GetID())`. -/
def ChooseHurry_seed {σ : Type} (S : CvSeederOps σ) (pCity : CvCity) : σ :=
  S.mix (S.fromRaw 0xe362f42a) pCity.m_iID

/-- The weighted draw of `ChooseProduction` over the final list `m_Buildables`;
`iCutoffThreshold` is `getCityProductionChoiceCutoffThreshold()` of the handicap. -/
def ChooseProduction_draw {σ : Type} (S : CvSeederOps σ) (urand : Nat → σ → Nat)
    (iCutoffThreshold : Int) (pCity : CvCity) (m_Buildables : CvWeightedVector CvCityBuildable) :
    Option CvCityBuildable :=
  CvWeightedVector.ChooseAbovePercentThreshold urand m_Buildables iCutoffThreshold
    (ChooseProduction_seed S pCity)

/-- The weighted draw of `ChooseHurry` over the final list `m_Buildables`. -/
def ChooseHurry_draw {σ : Type} (S : CvSeederOps σ) (urand : Nat → σ → Nat)
    (iCutoffThreshold : Int) (pCity : CvCity) (m_Buildables : CvWeightedVector CvCityBuildable) :
    Option CvCityBuildable :=
  CvWeightedVector.ChooseAbovePercentThreshold urand m_Buildables iCutoffThreshold
    (ChooseHurry_seed S pCity)

end CvCityStrategyAI

/-! ## City specialization -/

/-- The part of `CvCitySpecializationXMLEntry` that the engine reads: the flavor value of
the specialization for a flavor.  The class is declared outside this file, so the accessor
is a parameter. -/
structure CvCitySpecializationXMLEntry where
  GetFlavorValue : Nat → Int

namespace CvCityStrategyAI

/-- The flavor loop of `SpecializationFlavorChange`, iterations `0 .. n-1`: every non-zero
flavor value of the specialization is added to (`bTurnOn`) or subtracted from the
accumulator. -/
def specializationFlavorLoop (pSpecialization : CvCitySpecializationXMLEntry) (bTurnOn : Bool) :
    Nat → List Int → List Int
  | 0, fl => fl
  | n + 1, fl =>
    let fl1 := specializationFlavorLoop pSpecialization bTurnOn n fl
    if pSpecialization.GetFlavorValue n ≠ 0 then
      if bTurnOn then fl1.set n (fl1.getD n 0 + pSpecialization.GetFlavorValue n)
      else fl1.set n (fl1.getD n 0 - pSpecialization.GetFlavorValue n)
    else fl1

/-- Turn on or off the flavors for a city specialization;
`getCitySpecializationInfo` is `GC.getCitySpecializationInfo` (`none` is `NULL`). -/
def SpecializationFlavorChange (gc : CvGlobals)
    (getCitySpecializationInfo : Int → Option CvCitySpecializationXMLEntry)
    (ai : CvCityStrategyAI) (bTurnOn : Bool) (eSpecialization : Int) : CvCityStrategyAI :=
  if eSpecialization ≠ NO_CITY_SPECIALIZATION then
    match getCitySpecializationInfo eSpecialization with
    | some pSpecialization =>
      { ai with m_piLatestFlavorValues :=
          (specializationFlavorLoop pSpecialization bTurnOn gc.numFlavorTypes
            ai.m_piLatestFlavorValues) }
    | none => ai
  else ai

/-- Set special production emphasis for this city.  The returned flag is the function's
result; it is `true` exactly when the city was also told to reconsider its production
(`AI_setChooseProductionDirty(true)`). -/
def SetSpecialization (gc : CvGlobals)
    (getCitySpecializationInfo : Int → Option CvCitySpecializationXMLEntry)
    (ai : CvCityStrategyAI) (eSpecialization : Int) : Bool × CvCityStrategyAI :=
  if eSpecialization ≠ ai.m_eSpecialization then
    let ai1 := SpecializationFlavorChange gc getCitySpecializationInfo ai false ai.m_eSpecialization
    let ai2 := { ai1 with m_eSpecialization := eSpecialization }
    let ai3 := SpecializationFlavorChange gc getCitySpecializationInfo ai2 true ai2.m_eSpecialization
    (true, ai3)
  else (false, ai)

/-- The flavor contribution of a specialization: its flavor value, and zero for
`NO_CITY_SPECIALIZATION` and for a specialization without a catalog entry. -/
def specializationFlavor (getCitySpecializationInfo : Int → Option CvCitySpecializationXMLEntry)
    (eSpecialization : Int) (iFlavor : Nat) : Int :=
  if eSpecialization = NO_CITY_SPECIALIZATION then 0
  else
    match getCitySpecializationInfo eSpecialization with
    | some pSpecialization => pSpecialization.GetFlavorValue iFlavor
    | none => 0

/-- The score that `PrecalcYieldStats` ranks a baseline-bearing yield by: actual minus
expected per-capita rate (`-iDelta`). -/
def yieldScore (gc : CvGlobals) (pCity : CvCity) (iI : Nat) : Int :=
  -yieldDelta gc pCity iI

/-- The strategy names that the trigger dispatch of `DoTurn` compares against. -/
def knownStrategyNames : List String :=
  ["AICITYSTRATEGY_TINY_CITY", "AICITYSTRATEGY_SMALL_CITY", "AICITYSTRATEGY_MEDIUM_CITY",
   "AICITYSTRATEGY_LARGE_CITY"] ++ helperStrategyNames

end CvCityStrategyAI

/-! ## Production choice: data -/

/-- The enum value `NO_UNIT`. -/
def NO_UNIT : Int := -1

/-- The enum value `NO_VICTORY`. -/
def NO_VICTORY : Int := -1

/-- The enum value `NO_SPECIALUNIT`. -/
def NO_SPECIALUNIT : Int := -1

/-- The attributes of a unit definition (`CvUnitEntry`) that the engine reads. -/
structure CvUnitEntry where
  GetCombat : Int
  GetRangedCombat : Int
  GetWorkRate : Int
  IsFound : Bool
  GetDefaultUnitAIType : Int
  IsMilitarySupport : Bool
  IsNoSupply : Bool
  IsSpreadReligion : Bool
  IsRemoveHeresy : Bool
  GetFaithCost : Int
  GetSpecialUnitType : Int
  deriving DecidableEq, Repr

/-- The attributes of a building definition (`CvBuildingEntry`) that the engine reads;
`isWonderClass` is the disjunction of the world, team, national and limited wonder tests
on its building class. -/
structure CvBuildingEntry where
  GetEra : Int
  GetDefenseModifier : Int
  GetGoldMaintenance : Int
  isWonderClass : Bool
  deriving DecidableEq, Repr

/-- The attribute of a project definition that the engine reads. -/
structure CvProjectEntry where
  GetVictoryPrereq : Int
  deriving DecidableEq, Repr

/-- The attribute of a process definition that the engine reads. -/
structure CvProcessInfo where
  getDefenseValue : Int
  deriving DecidableEq, Repr

/-- The kind of a production order (`OrderTypes`). -/
inductive OrderTypes where
  | ORDER_TRAIN
  | ORDER_CONSTRUCT
  | ORDER_CREATE
  | ORDER_MAINTAIN
  deriving DecidableEq, Repr

/-- The arguments of one call of `CvCity::pushOrder`. -/
structure CvOrderCall where
  eOrder : OrderTypes
  iData1 : Int
  iData2 : Int
  bSave : Bool
  bPop : Bool
  bAppend : Bool
  bRush : Bool
  deriving DecidableEq, Repr

/-- What `ChooseProduction` and `ChooseHurry` read from the database, the game, the city,
its owner and the four production-AI sub-objects during one call.  A catalog lookup gives
`none` for `NULL`.  `canTrain`, `canConstruct`, `canCreate` and `canMaintain` take the
identifier and the "continue" flag; `CheckUnitBuildSanity` takes the unit, the
"for operation" flag, the weight and the "for purchase" flag.  `ReweightByTurnsLeft` is the
helper of that name, a double-precision computation whose integer result is taken as
given.  `operationSlotValidAtMuster` is the result of
`PeekAtNextUnitToBuildForOperationSlot`: the slot is valid and the city is the muster
city. -/
structure CvProductionContext where
  GetNumUnits : Nat
  GetNumBuildings : Nat
  GetNumProjects : Nat
  getNumProcessInfos : Nat
  getUnitInfo : Int → Option CvUnitEntry
  getBuildingInfo : Int → Option CvBuildingEntry
  getProjectInfo : Int → Option CvProjectEntry
  getProcessInfo : Int → Option CvProcessInfo
  AI_CITYSTRATEGY_OPERATION_UNIT_BASE_WEIGHT : Int
  AI_CITYSTRATEGY_OPERATION_UNIT_FLAVOR_MULTIPLIER : Int
  AI_CITYSTRATEGY_ARMY_UNIT_BASE_WEIGHT : Int
  AI_ATTEMPT_RUSH_OVER_X_TURNS_TO_BUILD : Int
  MOD_BALANCE_VP : Bool
  MOD_BALANCE_CORE_PUPPETS_LIMITED_BUILDINGS : Bool
  getTrainPercent : Int
  getCityProductionChoiceCutoffThreshold : Int
  isVictoryValid : Int → Bool
  ReweightByTurnsLeft : Int → Int → Int
  getProductionUnit : Int
  getProductionBuilding : Int
  getProductionProject : Int
  getProductionProcess : Int
  isProductionUnit : Bool
  isProductionBuilding : Bool
  isProductionProject : Bool
  isProductionProcess : Bool
  IsBuildingWorldWonder : Bool
  GetUnitForOperation : Int
  getProductionTurnsLeftUnit : Int → Int
  getProductionTurnsLeftBuilding : Int → Int
  getProductionTurnsLeftProject : Int → Int
  canTrain : Int → Bool → Bool
  canConstruct : Int → Bool → Bool
  canCreate : Int → Bool → Bool
  canMaintain : Int → Bool → Bool
  isHumanAutomated : Bool
  getRawProductionPerTurnTimes100 : Int
  IsPuppetAndAnnexable : Bool
  IsCanPurchaseUnit : Int → Bool → Bool
  IsCanPurchaseBuilding : Int → Bool → Bool
  GetBuildingProductionTimes100 : Int → Int
  getProductionNeeded : Int → Int
  offenseFlavor : Int
  GetUnitTypeForArmy : Int
  GetCurrentEra : Int
  IsLosingMoney : Bool
  operationSlotValidAtMuster : Bool
  IsEarlyExpansionPhase : Bool
  GetNumUnitsToSupply : Int
  GetNumUnitsSupplied : Int
  unitWeight : Int → Int
  buildingWeight : Int → Int
  projectWeight : Int → Int
  processWeight : Int → Int
  CheckUnitBuildSanity : Int → Bool → Int → Bool → Int
  CheckBuildingBuildSanity : Int → Int → Int
  CheckProcessBuildSanity : Int → Int → Int
  CheckProjectBuildSanity : Int → Int → Int

/-- What `ChooseProduction` and `ChooseHurry` write: the two candidate lists of the
strategy AI, the calls of `pushOrder` on the city (oldest first) and the two counters of
the owner's military AI. -/
structure CvProductionState where
  m_Buildables : CvWeightedVector CvCityBuildable
  m_BuildablesPrecheck : CvWeightedVector CvCityBuildable
  pushOrderCalls : List CvOrderCall
  m_iNumberOfTimesOpsBuildSkippedOver : Int
  m_iNumberOfTimesSettlerBuildSkippedOver : Int
  deriving DecidableEq, Repr

/-- The locals that the candidate generation threads through its loops: the precheck
list, the scratch variable `buildable` and the owner's operation-skipped counter. -/
structure CvGeneration where
  m_BuildablesPrecheck : CvWeightedVector CvCityBuildable
  buildable : CvCityBuildable
  iOpsSkipped : Int
  deriving DecidableEq, Repr

namespace CvCityBuildable

/-- Modelled from the spec: the default constructor of `CvCityBuildable` is declared in a
header that is not among the sources; a fresh buildable is the "no buildable" sentinel
with zero index, duration and value. -/
def fresh : CvCityBuildable :=
  ⟨CityAIBuildableType.NOT_A_CITY_BUILDABLE, 0, 0, 0⟩

/-- Is the kind one of the three unit kinds? -/
def isUnitKind (b : CvCityBuildable) : Bool :=
  match b.m_eBuildableType with
  | CityAIBuildableType.CITY_BUILDABLE_UNIT => true
  | CityAIBuildableType.CITY_BUILDABLE_UNIT_FOR_ARMY => true
  | CityAIBuildableType.CITY_BUILDABLE_UNIT_FOR_OPERATION => true
  | _ => false

end CvCityBuildable

namespace CvProductionContext

/-- The unit definition behind a pointer that the source reads without a `NULL` test; a
`NULL` pointer (undefined behaviour in C++) reads as the all-zero definition here. -/
def unitInfo (ctx : CvProductionContext) (eUnit : Int) : CvUnitEntry :=
  (ctx.getUnitInfo eUnit).getD ⟨0, 0, 0, false, 0, false, false, false, false, 0, 0⟩

/-- The process definition behind a pointer that the source reads without a `NULL` test;
a `NULL` pointer reads as the all-zero definition here. -/
def processInfo (ctx : CvProductionContext) (eProcess : Int) : CvProcessInfo :=
  (ctx.getProcessInfo eProcess).getD ⟨0⟩

end CvProductionContext

/-! ## Production choice: ChooseProduction -/

/-- Is a settler-capable unit among the candidates? -/
def HaveSettlerInBuildables (ctx : CvProductionContext)
    (choices : CvWeightedVector CvCityBuildable) : Bool :=
  choices.any (fun x => x.1.isUnitKind && (ctx.unitInfo x.1.m_iIndex).IsFound)

namespace CvCityStrategyAI

open CityAIBuildableType

/-- The first guard of `ChooseProduction`: `bInterruptBuildings` is set and the city is
producing a unit with combat or ranged-combat strength above zero. -/
def ChooseProduction_alreadyBuildingMilitaryUnit (ctx : CvProductionContext)
    (bInterruptBuildings : Bool) : Bool :=
  if bInterruptBuildings then
    let eUnit := ctx.getProductionUnit
    if eUnit ≠ NO_UNIT then
      if (ctx.unitInfo eUnit).GetCombat > 0 ∨ (ctx.unitInfo eUnit).GetRangedCombat > 0 then true
      else false
    else false
  else false

/-- The second guard of `ChooseProduction`: wonders may not be interrupted and the city
is building a world wonder. -/
def ChooseProduction_buildingWonder (ctx : CvProductionContext) (bInterruptWonders : Bool) :
    Bool :=
  !bInterruptWonders && ctx.IsBuildingWorldWonder

/-- Check units for operations first. -/
def ChooseProduction_operationUnit (ctx : CvProductionContext) (g : CvGeneration) :
    CvGeneration :=
  let eUnitForOperation := ctx.GetUnitForOperation
  if eUnitForOperation ≠ NO_UNIT then
    let buildable : CvCityBuildable :=
      { g.buildable with
        m_eBuildableType := CITY_BUILDABLE_UNIT_FOR_OPERATION
        m_iIndex := eUnitForOperation
        m_iTurnsToConstruct := ctx.getProductionTurnsLeftUnit eUnitForOperation }
    let iOffenseFlavor := ctx.offenseFlavor + g.iOpsSkipped
    let iTempWeight := ctx.AI_CITYSTRATEGY_OPERATION_UNIT_BASE_WEIGHT +
      iOffenseFlavor * ctx.AI_CITYSTRATEGY_OPERATION_UNIT_FLAVOR_MULTIPLIER +
      ctx.unitWeight eUnitForOperation
    if iTempWeight > 0 then
      { m_BuildablesPrecheck := g.m_BuildablesPrecheck.push_back buildable iTempWeight
        buildable := buildable
        iOpsSkipped := g.iOpsSkipped + 1 }
    else { g with buildable := buildable }
  else g

/-- Next units for sneak attack armies. -/
def ChooseProduction_armyUnit (ctx : CvProductionContext) (g : CvGeneration) : CvGeneration :=
  let eUnitForArmy := ctx.GetUnitTypeForArmy
  if eUnitForArmy ≠ NO_UNIT then
    let buildable : CvCityBuildable :=
      { g.buildable with
        m_eBuildableType := CITY_BUILDABLE_UNIT_FOR_ARMY
        m_iIndex := eUnitForArmy
        m_iTurnsToConstruct := ctx.getProductionTurnsLeftUnit eUnitForArmy }
    let iTempWeight := ctx.AI_CITYSTRATEGY_ARMY_UNIT_BASE_WEIGHT +
      ctx.offenseFlavor * ctx.AI_CITYSTRATEGY_OPERATION_UNIT_FLAVOR_MULTIPLIER
    if iTempWeight > 0 then
      let buildable1 : CvCityBuildable := { buildable with m_iValue := iTempWeight }
      { g with
        m_BuildablesPrecheck := g.m_BuildablesPrecheck.push_back buildable1 iTempWeight
        buildable := buildable1 }
    else { g with buildable := buildable }
  else g

/-- The body of the loop over the unit types. -/
def ChooseProduction_unitStep (ctx : CvProductionContext) (eIgnoreUnit : Int)
    (g : CvGeneration) (iUnitLoop : Nat) : CvGeneration :=
  let eUnit := Int.ofNat iUnitLoop
  if eUnit ≠ eIgnoreUnit ∧
      ctx.canTrain eUnit (ctx.isProductionUnit && decide (eUnit = ctx.getProductionUnit)) = true
  then
    if ctx.isHumanAutomated = true ∧
        (ctx.MOD_BALANCE_VP = false ∨ (ctx.unitInfo eUnit).GetWorkRate = 0 ∨
          (ctx.unitInfo eUnit).GetCombat > 0 ∨ (ctx.unitInfo eUnit).GetRangedCombat > 0) then g
    else
      let buildable : CvCityBuildable :=
        { g.buildable with
          m_eBuildableType := CITY_BUILDABLE_UNIT
          m_iIndex := eUnit
          m_iTurnsToConstruct := ctx.getProductionTurnsLeftUnit eUnit }
      let iTempWeight := ctx.unitWeight eUnit
      if iTempWeight > 0 then
        { g with
          m_BuildablesPrecheck := g.m_BuildablesPrecheck.push_back buildable iTempWeight
          buildable := { buildable with m_iValue := iTempWeight } }
      else { g with buildable := buildable }
  else g

/-- Does the deficit rule drop the building: it has no defense modifier, it costs
maintenance and the owner runs the losing-money strategy? -/
def ChooseProduction_deficitSkip (ctx : CvProductionContext) (pkBuildingInfo : CvBuildingEntry) :
    Bool :=
  decide (pkBuildingInfo.GetDefenseModifier ≤ 0) &&
    (decide (pkBuildingInfo.GetGoldMaintenance > 0) && ctx.IsLosingMoney)

/-- The body of the loop over the building types. -/
def ChooseProduction_buildingStep (ctx : CvProductionContext) (eIgnoreBldg : Int)
    (g : CvGeneration) (iBldgLoop : Nat) : CvGeneration :=
  let eLoopBuilding := Int.ofNat iBldgLoop
  match ctx.getBuildingInfo eLoopBuilding with
  | none => g
  | some pkBuildingInfo =>
    if ctx.MOD_BALANCE_CORE_PUPPETS_LIMITED_BUILDINGS = true ∧ ctx.IsPuppetAndAnnexable = true ∧
        (pkBuildingInfo.GetEra > ctx.GetCurrentEra - 1 ∨
          ChooseProduction_deficitSkip ctx pkBuildingInfo = true) then g
    else if ctx.isHumanAutomated = true ∧
        (ChooseProduction_deficitSkip ctx pkBuildingInfo = true ∨
          pkBuildingInfo.isWonderClass = true) then g
    else if eLoopBuilding ≠ eIgnoreBldg ∧
        ctx.canConstruct eLoopBuilding
          (ctx.isProductionBuilding && decide (eLoopBuilding = ctx.getProductionBuilding)) = true
    then
      let buildable : CvCityBuildable :=
        { g.buildable with
          m_eBuildableType := CITY_BUILDABLE_BUILDING
          m_iIndex := eLoopBuilding
          m_iTurnsToConstruct := ctx.getProductionTurnsLeftBuilding eLoopBuilding }
      let iTempWeight := ctx.buildingWeight eLoopBuilding
      if iTempWeight > 0 then
        let buildable1 : CvCityBuildable := { buildable with m_iValue := iTempWeight }
        { g with
          m_BuildablesPrecheck := g.m_BuildablesPrecheck.push_back buildable1 iTempWeight
          buildable := buildable1 }
      else { g with buildable := buildable }
    else g

/-- The body of the loop over the project types. -/
def ChooseProduction_projectStep (ctx : CvProductionContext) (g : CvGeneration)
    (iProjectLoop : Nat) : CvGeneration :=
  let eProject := Int.ofNat iProjectLoop
  if ctx.canCreate eProject
      (ctx.isProductionProject && decide (eProject = ctx.getProductionProject)) = true then
    let iTempWeight := ctx.projectWeight eProject
    if iTempWeight > 0 then
      let buildable : CvCityBuildable :=
        { m_eBuildableType := CITY_BUILDABLE_PROJECT
          m_iIndex := eProject
          m_iTurnsToConstruct := ctx.getProductionTurnsLeftProject eProject
          m_iValue := iTempWeight }
      { g with
        m_BuildablesPrecheck :=
          g.m_BuildablesPrecheck.push_back buildable (ctx.projectWeight eProject)
        buildable := buildable }
    else g
  else g

/-- The body of the loop over the process types. -/
def ChooseProduction_processStep (ctx : CvProductionContext) (g : CvGeneration)
    (iProcessLoop : Nat) : CvGeneration :=
  let eProcess := Int.ofNat iProcessLoop
  if ctx.canMaintain eProcess
      (ctx.isProductionProcess && decide (eProcess = ctx.getProductionProcess)) = true then
    let iTempWeight :=
      if (ctx.processInfo eProcess).getDefenseValue > 0 then 100 else ctx.processWeight eProcess
    if iTempWeight > 0 then
      let buildable : CvCityBuildable :=
        { m_eBuildableType := CITY_BUILDABLE_PROCESS
          m_iIndex := eProcess
          m_iTurnsToConstruct := 1
          m_iValue := iTempWeight }
      { g with
        m_BuildablesPrecheck := g.m_BuildablesPrecheck.push_back buildable iTempWeight
        buildable := buildable }
    else g
  else g

/-- The generation phase of `ChooseProduction`: the precheck list before it is sorted,
with the scratch variable and the operation-skipped counter. -/
def ChooseProduction_generate (ctx : CvProductionContext) (eIgnoreBldg eIgnoreUnit : Int)
    (iOpsSkipped : Int) : CvGeneration :=
  let g0 : CvGeneration :=
    { m_BuildablesPrecheck := [], buildable := CvCityBuildable.fresh, iOpsSkipped := iOpsSkipped }
  let g1 := ChooseProduction_operationUnit ctx g0
  let g2 := ChooseProduction_armyUnit ctx g1
  let g3 := (List.range ctx.GetNumUnits).foldl (ChooseProduction_unitStep ctx eIgnoreUnit) g2
  let g4 := (List.range ctx.GetNumBuildings).foldl (ChooseProduction_buildingStep ctx eIgnoreBldg) g3
  let g5 := (List.range ctx.GetNumProjects).foldl (ChooseProduction_projectStep ctx) g4
  if ctx.getRawProductionPerTurnTimes100 ≥ 500 ∨ g5.m_BuildablesPrecheck.length ≤ 0 then
    (List.range ctx.getNumProcessInfos).foldl (ChooseProduction_processStep ctx) g5
  else g5

/-- The sanity check of one precheck candidate in `ChooseProduction`: the candidate to
push into the final list with its new weight, or `none` when it is dropped. -/
def ChooseProduction_sanity (ctx : CvProductionContext) (selection : CvCityBuildable)
    (iWeight : Int) : Option (CvCityBuildable × Int) :=
  match selection.m_eBuildableType with
  | NOT_A_CITY_BUILDABLE => none
  | CITY_BUILDABLE_UNIT_FOR_OPERATION | CITY_BUILDABLE_UNIT_FOR_ARMY =>
    if ctx.operationSlotValidAtMuster then
      let iNewWeight := ctx.CheckUnitBuildSanity selection.m_iIndex true iWeight false
      if iNewWeight > 0 then
        let iNewWeight1 := if ctx.IsEarlyExpansionPhase then iNewWeight * 3 else iNewWeight
        some ({ selection with m_iValue := iNewWeight1 }, iNewWeight1)
      else none
    else none
  | CITY_BUILDABLE_UNIT =>
    let iNewWeight := ctx.CheckUnitBuildSanity selection.m_iIndex false iWeight false
    if iNewWeight > 0 then some ({ selection with m_iValue := iNewWeight }, iNewWeight)
    else none
  | CITY_BUILDABLE_BUILDING =>
    let iNewWeight := ctx.CheckBuildingBuildSanity selection.m_iIndex iWeight
    if iNewWeight > 0 then some ({ selection with m_iValue := iNewWeight }, iNewWeight)
    else none
  | CITY_BUILDABLE_PROCESS =>
    let iNewWeight := ctx.CheckProcessBuildSanity selection.m_iIndex iWeight
    if iNewWeight > 0 then some ({ selection with m_iValue := iNewWeight }, iNewWeight)
    else none
  | CITY_BUILDABLE_PROJECT =>
    let iNewWeight := ctx.CheckProjectBuildSanity selection.m_iIndex iWeight
    if iNewWeight > 0 then some ({ selection with m_iValue := iNewWeight }, iNewWeight)
    else none

/-- Recompute weights taking into account production cost. -/
def ReweightByDuration (ctx : CvProductionContext) (options : CvWeightedVector CvCityBuildable) :
    CvWeightedVector CvCityBuildable :=
  options.map (fun x => (x.1, ctx.ReweightByTurnsLeft x.2 x.1.m_iTurnsToConstruct))

/-- The final list of `ChooseProduction` before the empty-list fallback: the sorted
precheck list, sanity-filtered, reweighted by duration and sorted again. -/
def ChooseProduction_sanitized (ctx : CvProductionContext)
    (m_BuildablesPrecheck : CvWeightedVector CvCityBuildable) :
    CvWeightedVector CvCityBuildable :=
  CvWeightedVector.StableSortItems
    (ReweightByDuration ctx
      (m_BuildablesPrecheck.filterMap (fun x => ChooseProduction_sanity ctx x.1 x.2)))

/-- The final list of `ChooseProduction` after the empty-list fallback. -/
def ChooseProduction_final (ctx : CvProductionContext)
    (m_BuildablesPrecheck : CvWeightedVector CvCityBuildable) :
    CvWeightedVector CvCityBuildable :=
  if (ChooseProduction_sanitized ctx m_BuildablesPrecheck).length ≤ 0 then m_BuildablesPrecheck
  else ChooseProduction_sanitized ctx m_BuildablesPrecheck

/-- Does the inertia scan of `ChooseProduction` stop at this candidate and set
`bContinueWithCurrentBuild`? -/
def ChooseProduction_continues (ctx : CvProductionContext) (bInterruptBuildings : Bool)
    (b : CvCityBuildable) : Bool :=
  match b.m_eBuildableType with
  | NOT_A_CITY_BUILDABLE => false
  | CITY_BUILDABLE_UNIT | CITY_BUILDABLE_UNIT_FOR_ARMY | CITY_BUILDABLE_UNIT_FOR_OPERATION =>
    ctx.isProductionUnit && decide (ctx.getProductionUnit = b.m_iIndex)
  | CITY_BUILDABLE_BUILDING =>
    ctx.isProductionBuilding && !bInterruptBuildings &&
      decide (ctx.getProductionBuilding = b.m_iIndex)
  | CITY_BUILDABLE_PROJECT =>
    (match ctx.getProjectInfo b.m_iIndex with
      | some pkProjectInfo =>
        decide (pkProjectInfo.GetVictoryPrereq ≠ NO_VICTORY) &&
          ctx.isVictoryValid pkProjectInfo.GetVictoryPrereq
      | none => false) ||
    (ctx.isProductionProject && decide (ctx.getProductionProject = b.m_iIndex))
  | CITY_BUILDABLE_PROCESS => false

/-- The inertia scan of `ChooseProduction` from the top of the final list: the candidate
to continue with, if any.  The scan ends at the first candidate whose weight is below
half of the top weight (C++ integer division). -/
def ChooseProduction_inertia (ctx : CvProductionContext) (bInterruptBuildings : Bool)
    (iTopWeight : Int) : CvWeightedVector CvCityBuildable → Option CvCityBuildable
  | [] => none
  | (b, w) :: rest =>
    if w < iTopWeight.tdiv 2 then none
    else if ChooseProduction_continues ctx bInterruptBuildings b then some b
    else ChooseProduction_inertia ctx bInterruptBuildings iTopWeight rest

/-- Is the top choice a defense process (tested under `MOD_BALANCE_VP` only)? -/
def ChooseProduction_topIsDefenseProcess (ctx : CvProductionContext)
    (m_Buildables : CvWeightedVector CvCityBuildable) : Bool :=
  match m_Buildables.head? with
  | some top =>
    ctx.MOD_BALANCE_VP && decide (top.1.m_eBuildableType = CITY_BUILDABLE_PROCESS) &&
      decide ((ctx.processInfo top.1.m_iIndex).getDefenseValue > 0)
  | none => false

/-- The "pick something new" step of `ChooseProduction`: the top choice when it is a
defense process, otherwise the weighted draw (a draw that yields no item leaves the fresh
`selection` variable). -/
def ChooseProduction_pickNew {σ : Type} (S : CvSeederOps σ) (urand : Nat → σ → Nat)
    (ctx : CvProductionContext) (pCity : CvCity)
    (m_Buildables : CvWeightedVector CvCityBuildable) : CvCityBuildable :=
  if ChooseProduction_topIsDefenseProcess ctx m_Buildables then
    (m_Buildables.head?.map Prod.fst).getD CvCityBuildable.fresh
  else
    (ChooseProduction_draw S urand ctx.getCityProductionChoiceCutoffThreshold pCity
      m_Buildables).getD CvCityBuildable.fresh

/-- The selection of `ChooseProduction` on a non-empty final list. -/
def ChooseProduction_selection {σ : Type} (S : CvSeederOps σ) (urand : Nat → σ → Nat)
    (ctx : CvProductionContext) (pCity : CvCity) (bInterruptBuildings : Bool)
    (m_Buildables : CvWeightedVector CvCityBuildable) : CvCityBuildable :=
  match ChooseProduction_inertia ctx bInterruptBuildings
      ((m_Buildables.head?.map Prod.snd).getD 0) m_Buildables with
  | some selection => selection
  | none => ChooseProduction_pickNew S urand ctx pCity m_Buildables

/-- The local `bRush` of `ChooseProduction`. -/
def ChooseProduction_bRush (ctx : CvProductionContext) (selection : CvCityBuildable) : Bool :=
  decide (selection.m_iTurnsToConstruct >
    (ctx.AI_ATTEMPT_RUSH_OVER_X_TURNS_TO_BUILD * ctx.getTrainPercent).tdiv 100)

/-- The `pushOrder` call that `ChooseProduction` makes for its selection, if any: none
for the "no buildable" kind and for a unit without a definition. -/
def ChooseProduction_order (ctx : CvProductionContext) (selection : CvCityBuildable) :
    Option CvOrderCall :=
  let bRush := ChooseProduction_bRush ctx selection
  match selection.m_eBuildableType with
  | NOT_A_CITY_BUILDABLE => none
  | CITY_BUILDABLE_UNIT | CITY_BUILDABLE_UNIT_FOR_ARMY | CITY_BUILDABLE_UNIT_FOR_OPERATION =>
    match ctx.getUnitInfo selection.m_iIndex with
    | some pkUnitInfo =>
      some ⟨OrderTypes.ORDER_TRAIN, selection.m_iIndex, pkUnitInfo.GetDefaultUnitAIType,
        false, true, false, bRush⟩
    | none => none
  | CITY_BUILDABLE_BUILDING =>
    some ⟨OrderTypes.ORDER_CONSTRUCT, selection.m_iIndex, -1, false, true, false, bRush⟩
  | CITY_BUILDABLE_PROJECT =>
    some ⟨OrderTypes.ORDER_CREATE, selection.m_iIndex, -1, false, true, false, bRush⟩
  | CITY_BUILDABLE_PROCESS =>
    some ⟨OrderTypes.ORDER_MAINTAIN, selection.m_iIndex, -1, false, true, false, false⟩

/-- The local `bPushedOrderForSettler` of `ChooseProduction` after the order switch. -/
def ChooseProduction_bPushedOrderForSettler (ctx : CvProductionContext)
    (selection : CvCityBuildable) : Bool :=
  if selection.isUnitKind then
    match ctx.getUnitInfo selection.m_iIndex with
    | some pkUnitInfo => pkUnitInfo.IsFound
    | none => false
  else false

/-- Pick the next build for a city (unit, building or wonder).  The two counters of the
military AI are modelled from their names: "bump" adds one, "reset" sets to zero. -/
def ChooseProduction {σ : Type} (S : CvSeederOps σ) (urand : Nat → σ → Nat)
    (ctx : CvProductionContext) (pCity : CvCity) (eIgnoreBldg eIgnoreUnit : Int)
    (bInterruptBuildings bInterruptWonders : Bool) (st : CvProductionState) :
    CvProductionState :=
  if ChooseProduction_alreadyBuildingMilitaryUnit ctx bInterruptBuildings then st
  else if ChooseProduction_buildingWonder ctx bInterruptWonders then st
  else
    let g := ChooseProduction_generate ctx eIgnoreBldg eIgnoreUnit
      st.m_iNumberOfTimesOpsBuildSkippedOver
    let m_BuildablesPrecheck := CvWeightedVector.StableSortItems g.m_BuildablesPrecheck
    let m_Buildables := ChooseProduction_final ctx m_BuildablesPrecheck
    let st1 : CvProductionState :=
      { st with
        m_Buildables := m_Buildables
        m_BuildablesPrecheck := m_BuildablesPrecheck
        m_iNumberOfTimesOpsBuildSkippedOver := g.iOpsSkipped }
    let selection := ChooseProduction_selection S urand ctx pCity bInterruptBuildings m_Buildables
    let st2 : CvProductionState :=
      if m_Buildables.length > 0 then
        { st1 with
          pushOrderCalls :=
            (match ChooseProduction_order ctx selection with
              | some order => st1.pushOrderCalls ++ [order]
              | none => st1.pushOrderCalls)
          m_iNumberOfTimesOpsBuildSkippedOver :=
            (if selection.m_eBuildableType = CITY_BUILDABLE_UNIT_FOR_OPERATION then 0
              else st1.m_iNumberOfTimesOpsBuildSkippedOver) }
      else st1
    let bPushedOrderForSettler :=
      decide (m_Buildables.length > 0) && ChooseProduction_bPushedOrderForSettler ctx selection
    if bPushedOrderForSettler = true ∨ HaveSettlerInBuildables ctx m_Buildables = false then
      { st2 with m_iNumberOfTimesSettlerBuildSkippedOver := 0 }
    else
      { st2 with
        m_iNumberOfTimesSettlerBuildSkippedOver :=
          st2.m_iNumberOfTimesSettlerBuildSkippedOver + 1 }

end CvCityStrategyAI

namespace CvCityStrategyAI

/-- The sorted precheck list of a call of `ChooseProduction` that passes the two guards. -/
def ChooseProduction_precheck (ctx : CvProductionContext) (eIgnoreBldg eIgnoreUnit : Int)
    (st : CvProductionState) : CvWeightedVector CvCityBuildable :=
  CvWeightedVector.StableSortItems
    (ChooseProduction_generate ctx eIgnoreBldg eIgnoreUnit
      st.m_iNumberOfTimesOpsBuildSkippedOver).m_BuildablesPrecheck

/-- The final list `m_Buildables` that the selection phase of such a call works on. -/
def ChooseProduction_buildables (ctx : CvProductionContext) (eIgnoreBldg eIgnoreUnit : Int)
    (st : CvProductionState) : CvWeightedVector CvCityBuildable :=
  ChooseProduction_final ctx (ChooseProduction_precheck ctx eIgnoreBldg eIgnoreUnit st)

end CvCityStrategyAI

/-! ## Purchase choice: ChooseHurry -/

namespace CvCityStrategyAI

open CityAIBuildableType

/-- The local `bOoS` of `ChooseHurry`: the owner cannot supply another unit and the unit
needs supply. -/
def ChooseHurry_outOfSupply (ctx : CvProductionContext) (pUnitEntry : CvUnitEntry) : Bool :=
  let bCanSupply := decide (ctx.GetNumUnitsToSupply < ctx.GetNumUnitsSupplied)
  !bCanSupply && pUnitEntry.IsMilitarySupport && !pUnitEntry.IsNoSupply

/-- Check units for operations first (gold purchases only). -/
def ChooseHurry_operationUnit (ctx : CvProductionContext) (g : CvGeneration) : CvGeneration :=
  let eUnitForOperation := ctx.GetUnitForOperation
  if eUnitForOperation ≠ NO_UNIT then
    match ctx.getUnitInfo eUnitForOperation with
    | some pUnitEntry =>
      if ChooseHurry_outOfSupply ctx pUnitEntry then g
      else
        let buildable : CvCityBuildable :=
          { g.buildable with
            m_eBuildableType := CITY_BUILDABLE_UNIT_FOR_OPERATION
            m_iIndex := eUnitForOperation
            m_iTurnsToConstruct := ctx.getProductionTurnsLeftUnit eUnitForOperation }
        let iOffenseFlavor := ctx.offenseFlavor + g.iOpsSkipped
        let iTempWeight := ctx.AI_CITYSTRATEGY_OPERATION_UNIT_BASE_WEIGHT +
          iOffenseFlavor * ctx.AI_CITYSTRATEGY_OPERATION_UNIT_FLAVOR_MULTIPLIER +
          ctx.unitWeight eUnitForOperation
        if iTempWeight > 0 then
          let buildable1 : CvCityBuildable := { buildable with m_iValue := iTempWeight }
          { m_BuildablesPrecheck := g.m_BuildablesPrecheck.push_back buildable1 iTempWeight
            buildable := buildable1
            iOpsSkipped := g.iOpsSkipped + 1 }
        else { g with buildable := buildable }
    | none => g
  else g

/-- Next units for sneak attack armies (gold purchases only). -/
def ChooseHurry_armyUnit (ctx : CvProductionContext) (g : CvGeneration) : CvGeneration :=
  let eUnitForArmy := ctx.GetUnitTypeForArmy
  if eUnitForArmy ≠ NO_UNIT then
    match ctx.getUnitInfo eUnitForArmy with
    | some pUnitEntry =>
      if ChooseHurry_outOfSupply ctx pUnitEntry then g
      else
        let buildable : CvCityBuildable :=
          { g.buildable with
            m_eBuildableType := CITY_BUILDABLE_UNIT_FOR_ARMY
            m_iIndex := eUnitForArmy
            m_iTurnsToConstruct := ctx.getProductionTurnsLeftUnit eUnitForArmy }
        let iTempWeight := ctx.AI_CITYSTRATEGY_ARMY_UNIT_BASE_WEIGHT +
          ctx.offenseFlavor * ctx.AI_CITYSTRATEGY_OPERATION_UNIT_FLAVOR_MULTIPLIER
        if iTempWeight > 0 then
          let buildable1 : CvCityBuildable := { buildable with m_iValue := iTempWeight }
          { g with
            m_BuildablesPrecheck := g.m_BuildablesPrecheck.push_back buildable1 iTempWeight
            buildable := buildable1 }
        else { g with buildable := buildable }
    | none => g
  else g

/-- The body of the loop over the unit types in `ChooseHurry`. -/
def ChooseHurry_unitStep (ctx : CvProductionContext) (bFaithPurchase : Bool)
    (g : CvGeneration) (iUnitLoop : Nat) : CvGeneration :=
  let eUnit := Int.ofNat iUnitLoop
  match ctx.getUnitInfo eUnit with
  | some pUnitEntry =>
    if bFaithPurchase = true ∧
        (pUnitEntry.IsSpreadReligion = true ∨ pUnitEntry.IsRemoveHeresy = true ∨
          pUnitEntry.GetFaithCost ≤ 0 ∨ pUnitEntry.GetSpecialUnitType ≠ NO_SPECIALUNIT) then g
    else if ChooseHurry_outOfSupply ctx pUnitEntry then g
    else if ctx.IsCanPurchaseUnit eUnit bFaithPurchase then
      let buildable : CvCityBuildable :=
        { g.buildable with
          m_eBuildableType := CITY_BUILDABLE_UNIT
          m_iIndex := eUnit
          m_iTurnsToConstruct := ctx.getProductionTurnsLeftUnit eUnit }
      let iTempWeight := ctx.unitWeight eUnit
      if iTempWeight > 0 then
        let buildable1 : CvCityBuildable := { buildable with m_iValue := iTempWeight }
        { g with
          m_BuildablesPrecheck := g.m_BuildablesPrecheck.push_back buildable1 iTempWeight
          buildable := buildable1 }
      else { g with buildable := buildable }
    else g
  | none => g

/-- The body of the loop over the building types in `ChooseHurry`. -/
def ChooseHurry_buildingStep (ctx : CvProductionContext) (bFaithPurchase : Bool)
    (g : CvGeneration) (iBldgLoop : Nat) : CvGeneration :=
  let eLoopBuilding := Int.ofNat iBldgLoop
  match ctx.getBuildingInfo eLoopBuilding with
  | none => g
  | some _ =>
    if ctx.IsCanPurchaseBuilding eLoopBuilding bFaithPurchase then
      let buildable : CvCityBuildable :=
        { g.buildable with
          m_eBuildableType := CITY_BUILDABLE_BUILDING
          m_iIndex := eLoopBuilding
          m_iTurnsToConstruct := ctx.getProductionTurnsLeftBuilding eLoopBuilding }
      let iTempWeight := ctx.buildingWeight eLoopBuilding
      if iTempWeight > 0 then
        let buildable1 : CvCityBuildable := { buildable with m_iValue := iTempWeight }
        { g with
          m_BuildablesPrecheck := g.m_BuildablesPrecheck.push_back buildable1 iTempWeight
          buildable := buildable1 }
      else { g with buildable := buildable }
    else g

/-- The generation phase of `ChooseHurry`. -/
def ChooseHurry_generate (ctx : CvProductionContext) (bUnitOnly bFaithPurchase : Bool)
    (iOpsSkipped : Int) : CvGeneration :=
  let g0 : CvGeneration :=
    { m_BuildablesPrecheck := [], buildable := CvCityBuildable.fresh, iOpsSkipped := iOpsSkipped }
  let g2 :=
    if bFaithPurchase then g0
    else ChooseHurry_armyUnit ctx (ChooseHurry_operationUnit ctx g0)
  let g3 := (List.range ctx.GetNumUnits).foldl (ChooseHurry_unitStep ctx bFaithPurchase) g2
  if bUnitOnly then g3
  else (List.range ctx.GetNumBuildings).foldl (ChooseHurry_buildingStep ctx bFaithPurchase) g3

/-- The boost of `ChooseHurry` for a building with invested production: the percentage
`p` of the needed production that is already in, and, when `p < 50`, the weight times
`100 + p` divided by `max(1, p)`. -/
def ChooseHurry_buildingBoost (ctx : CvProductionContext) (eBuildingType : Int)
    (iNewWeight : Int) : Int :=
  let AmountComplete := ctx.GetBuildingProductionTimes100 eBuildingType
  if AmountComplete > 0 then
    let AmountNeeded := max 1 (ctx.getProductionNeeded eBuildingType)
    let AmountComplete1 := AmountComplete.tdiv AmountNeeded
    if AmountComplete1 < 50 then
      (iNewWeight * (100 + AmountComplete1)).tdiv (max 1 AmountComplete1)
    else iNewWeight
  else iNewWeight

/-- The sanity check of one precheck candidate in `ChooseHurry`: the candidate to push
into the final list with its new weight, or `none` when it is dropped.  The kinds that
are not purchasable are marked unreachable in the source and are dropped here. -/
def ChooseHurry_sanity (ctx : CvProductionContext) (selection : CvCityBuildable)
    (iWeight : Int) : Option (CvCityBuildable × Int) :=
  match selection.m_eBuildableType with
  | NOT_A_CITY_BUILDABLE | CITY_BUILDABLE_PROJECT | CITY_BUILDABLE_PROCESS => none
  | CITY_BUILDABLE_UNIT_FOR_OPERATION =>
    if ctx.operationSlotValidAtMuster then
      let iNewWeight := ctx.CheckUnitBuildSanity selection.m_iIndex true iWeight true
      if iNewWeight > 0 then some ({ selection with m_iValue := iNewWeight }, iNewWeight)
      else none
    else none
  | CITY_BUILDABLE_UNIT_FOR_ARMY | CITY_BUILDABLE_UNIT =>
    let iNewWeight := ctx.CheckUnitBuildSanity selection.m_iIndex false iWeight true
    if iNewWeight > 0 then some ({ selection with m_iValue := iNewWeight }, iNewWeight)
    else none
  | CITY_BUILDABLE_BUILDING =>
    let iNewWeight := ChooseHurry_buildingBoost ctx selection.m_iIndex
      (ctx.CheckBuildingBuildSanity selection.m_iIndex iWeight)
    if iNewWeight > 0 then some ({ selection with m_iValue := iNewWeight }, iNewWeight)
    else none

/-- The precheck list of `ChooseHurry` as the sanity loop sees it: sorted, then
reweighted by duration. -/
def ChooseHurry_precheck (ctx : CvProductionContext) (bUnitOnly bFaithPurchase : Bool)
    (iOpsSkipped : Int) : CvWeightedVector CvCityBuildable :=
  ReweightByDuration ctx
    (CvWeightedVector.StableSortItems
      (ChooseHurry_generate ctx bUnitOnly bFaithPurchase iOpsSkipped).m_BuildablesPrecheck)

/-- The final list of `ChooseHurry`: the candidates that pass the sanity check, sorted. -/
def ChooseHurry_final (ctx : CvProductionContext) (bUnitOnly bFaithPurchase : Bool)
    (iOpsSkipped : Int) : CvWeightedVector CvCityBuildable :=
  CvWeightedVector.StableSortItems
    ((ChooseHurry_precheck ctx bUnitOnly bFaithPurchase iOpsSkipped).filterMap
      (fun x => ChooseHurry_sanity ctx x.1 x.2))

/-- Pick the next purchase for a city (unit, building): the function's result and the
state it leaves.  A draw that yields no item leaves the fresh buildable. -/
def ChooseHurry {σ : Type} (S : CvSeederOps σ) (urand : Nat → σ → Nat)
    (ctx : CvProductionContext) (pCity : CvCity) (bUnitOnly bFaithPurchase : Bool)
    (st : CvProductionState) : CvCityBuildable × CvProductionState :=
  let g := ChooseHurry_generate ctx bUnitOnly bFaithPurchase
    st.m_iNumberOfTimesOpsBuildSkippedOver
  let m_Buildables := ChooseHurry_final ctx bUnitOnly bFaithPurchase
    st.m_iNumberOfTimesOpsBuildSkippedOver
  let st1 : CvProductionState :=
    { st with
      m_Buildables := m_Buildables
      m_BuildablesPrecheck := ChooseHurry_precheck ctx bUnitOnly bFaithPurchase
        st.m_iNumberOfTimesOpsBuildSkippedOver
      m_iNumberOfTimesOpsBuildSkippedOver := g.iOpsSkipped }
  if CvWeightedVector.GetTotalWeight m_Buildables > 0 then
    ((ChooseHurry_draw S urand ctx.getCityProductionChoiceCutoffThreshold pCity
      m_Buildables).getD CvCityBuildable.fresh, st1)
  else ({ g.buildable with m_eBuildableType := NOT_A_CITY_BUILDABLE }, st1)

end CvCityStrategyAI

/-! ## Sample data -/

namespace Sample

/-- A catalog entry for the small-city strategy with three flavor deltas, a recheck every
2 turns and a minimum duration of 4 turns. -/
def smallCity : CvAICityStrategyEntry :=
  { m_strType := "AICITYSTRATEGY_SMALL_CITY"
    m_piFlavorValue := some [3, 0, -2]
    m_iWeightThreshold := 0
    m_iTechPrereq := NO_TECH
    m_iTechObsolete := NO_TECH
    m_iMinimumNumTurnsExecuted := 4
    m_iCheckTriggerTurnCount := 2
    m_bNoMinorCivs := false
    m_bPermanent := false }

/-- The small-city entry marked permanent and obsoleted by tech 7. -/
def smallCityPermanentObsolete : CvAICityStrategyEntry :=
  { smallCity with m_iTechObsolete := 7, m_bPermanent := true }

/-- The small-city entry obsoleted by tech 7. -/
def smallCityObsolete : CvAICityStrategyEntry :=
  { smallCity with m_iTechObsolete := 7 }

/-- The small-city entry barred for minor civs. -/
def smallCityNoMinor : CvAICityStrategyEntry :=
  { smallCity with m_bNoMinorCivs := true }

/-- A database with three flavors, the given one-entry catalog and the default
city-size thresholds 2, 7 and 15. -/
def globals (entry : CvAICityStrategyEntry) : CvGlobals :=
  { numFlavorTypes := 3
    m_paAICityStrategyEntries := [some entry]
    NUM_YIELD_TYPES := 6
    expectedYieldPerPop100 := [50, 100, 150, 250, 250, 250]
    AI_CITYSTRATEGY_SMALL_CITY_POP_THRESHOLD := 2
    AI_CITYSTRATEGY_MEDIUM_CITY_POP_THRESHOLD := 7
    AI_CITYSTRATEGY_LARGE_CITY_POP_THRESHOLD := 15 }

/-- A city of a major civ at the given turn with the given population, whose team knows
exactly the techs in `techs`; no Lua listener. -/
def city (iTurn iPopulation : Int) (techs : List Int) : CvCity :=
  { m_iID := 8192
    m_iPopulation := iPopulation
    ownerIsMinorCiv := false
    ownerIsBarbarian := false
    teamHasTech := fun t => decide (t ∈ techs)
    gameTurn := iTurn
    yieldRateTimes100 := fun _ => 0
    IsTestCityStrategy := fun _ _ _ => false
    luaCityStrategyCanActivate := fun _ => none }

/-- The same city owned by a minor civ. -/
def minorCity (iTurn iPopulation : Int) (techs : List Int) : CvCity :=
  { city iTurn iPopulation techs with ownerIsMinorCiv := true }

/-- A city state with one inactive strategy and flavors 10, 20, 30. -/
def inactive : CvCityStrategyAI :=
  { m_piLatestFlavorValues := [10, 20, 30]
    m_pabUsingCityStrategy := [false]
    m_paiTurnCityStrategyAdopted := [-1]
    m_eSpecialization := NO_CITY_SPECIALIZATION
    m_eDefaultSpecialization := NO_CITY_SPECIALIZATION
    m_aiYieldModifier := [0, 0, 0, 0, 0, 0]
    m_eMostDeficientYield := NO_YIELD
    m_eMostAbundantYield := NO_YIELD }

/-- A city state whose one strategy was adopted at turn 10. -/
def active : CvCityStrategyAI :=
  { inactive with
    m_piLatestFlavorValues := [13, 20, 28]
    m_pabUsingCityStrategy := [true]
    m_paiTurnCityStrategyAdopted := [10] }

/-- Seeder operations on natural numbers, for evaluation. -/
def seeder : CvSeederOps Nat :=
  { fromRaw := fun r => r
    mix := fun s i => s + 31 * i.toNat }

/-- A seeded random source, for evaluation. -/
def urand (limit : Nat) (seed : Nat) : Nat := seed % limit

/-- A three-candidate list with a tie between the first two. -/
def candidates : CvWeightedVector CvCityBuildable :=
  [(⟨CityAIBuildableType.CITY_BUILDABLE_UNIT, 4, 6, 40⟩, 40),
   (⟨CityAIBuildableType.CITY_BUILDABLE_BUILDING, 9, 12, 40⟩, 40),
   (⟨CityAIBuildableType.CITY_BUILDABLE_PROJECT, 1, 30, 75⟩, 75)]

end Sample

namespace Sample

/-- A city of a major civ at turn 10 with population 4 whose yield rates (times 100) are
the given list, in the order of the yield enum. -/
def cityWithYields (rates : List Int) : CvCity :=
  { city 10 4 [] with yieldRateTimes100 := fun i => rates.getD i 0 }

/-- A catalog entry whose type name the trigger dispatch does not know. -/
def unknownStrategy : CvAICityStrategyEntry :=
  { smallCity with m_strType := "AICITYSTRATEGY_SPACEPORT_CITY" }

/-- The sample city with every helper predicate answering `true`. -/
def eagerCity (iTurn iPopulation : Int) : CvCity :=
  { city iTurn iPopulation [] with IsTestCityStrategy := fun _ _ _ => true }

/-- Two specializations: 0 with flavor values 5, 0, 1 and 1 with flavor values 0, 2, -4;
every other identifier has no entry. -/
def specializationInfo (e : Int) : Option CvCitySpecializationXMLEntry :=
  if e = 0 then some ⟨fun k => [5, 0, 1].getD k 0⟩
  else if e = 1 then some ⟨fun k => [0, 2, -4].getD k 0⟩
  else none

/-- A city state with specialization 0 and flavors 10, 20, 30. -/
def specialized : CvCityStrategyAI :=
  { inactive with m_eSpecialization := 0 }

end Sample

namespace Sample

/-- A warrior: combat strength 8, needs supply. -/
def warrior : CvUnitEntry :=
  ⟨8, 0, 0, false, 1, true, false, false, false, 0, NO_SPECIALUNIT⟩

/-- A worker: work rate 100, no combat strength. -/
def worker : CvUnitEntry :=
  ⟨0, 0, 100, false, 2, false, false, false, false, 0, NO_SPECIALUNIT⟩

/-- A settler: founds cities. -/
def settler : CvUnitEntry :=
  ⟨0, 0, 0, true, 3, false, false, false, false, 0, NO_SPECIALUNIT⟩

/-- A calm city of a major civ: units 0 (warrior), 1 (worker) and 2 (settler) and
buildings 0 and 1 are defined; nothing is in production, nothing can be built or bought;
every sanity check hands the weight back; the duration reweighting is the identity. -/
def context : CvProductionContext :=
  { GetNumUnits := 3
    GetNumBuildings := 2
    GetNumProjects := 1
    getNumProcessInfos := 1
    getUnitInfo := fun e =>
      if e = 0 then some warrior else if e = 1 then some worker
      else if e = 2 then some settler else none
    getBuildingInfo := fun e => if e = 0 ∨ e = 1 then some ⟨0, 0, 1, false⟩ else none
    getProjectInfo := fun e => if e = 0 then some ⟨NO_VICTORY⟩ else none
    getProcessInfo := fun e => if e = 0 then some ⟨0⟩ else none
    AI_CITYSTRATEGY_OPERATION_UNIT_BASE_WEIGHT := 5000
    AI_CITYSTRATEGY_OPERATION_UNIT_FLAVOR_MULTIPLIER := 250
    AI_CITYSTRATEGY_ARMY_UNIT_BASE_WEIGHT := 750
    AI_ATTEMPT_RUSH_OVER_X_TURNS_TO_BUILD := 15
    MOD_BALANCE_VP := true
    MOD_BALANCE_CORE_PUPPETS_LIMITED_BUILDINGS := true
    getTrainPercent := 100
    getCityProductionChoiceCutoffThreshold := 50
    isVictoryValid := fun _ => false
    ReweightByTurnsLeft := fun w _ => w
    getProductionUnit := NO_UNIT
    getProductionBuilding := -1
    getProductionProject := -1
    getProductionProcess := -1
    isProductionUnit := false
    isProductionBuilding := false
    isProductionProject := false
    isProductionProcess := false
    IsBuildingWorldWonder := false
    GetUnitForOperation := NO_UNIT
    getProductionTurnsLeftUnit := fun _ => 5
    getProductionTurnsLeftBuilding := fun _ => 10
    getProductionTurnsLeftProject := fun _ => 20
    canTrain := fun _ _ => false
    canConstruct := fun _ _ => false
    canCreate := fun _ _ => false
    canMaintain := fun _ _ => false
    isHumanAutomated := false
    getRawProductionPerTurnTimes100 := 1000
    IsPuppetAndAnnexable := false
    IsCanPurchaseUnit := fun _ _ => false
    IsCanPurchaseBuilding := fun _ _ => false
    GetBuildingProductionTimes100 := fun _ => 0
    getProductionNeeded := fun _ => 100
    offenseFlavor := 5
    GetUnitTypeForArmy := NO_UNIT
    GetCurrentEra := 1
    IsLosingMoney := false
    operationSlotValidAtMuster := false
    IsEarlyExpansionPhase := false
    GetNumUnitsToSupply := 3
    GetNumUnitsSupplied := 10
    unitWeight := fun _ => 0
    buildingWeight := fun _ => 0
    projectWeight := fun _ => 0
    processWeight := fun _ => 0
    CheckUnitBuildSanity := fun _ _ w _ => w
    CheckBuildingBuildSanity := fun _ w => w
    CheckProcessBuildSanity := fun _ w => w
    CheckProjectBuildSanity := fun _ w => w }

/-- The calm city producing a warrior, able to train the warrior (weight 60) and the
worker (weight 100) and to construct building 0 (weight 80). -/
def contextTrainingWarrior : CvProductionContext :=
  { context with
    getProductionUnit := 0
    isProductionUnit := true
    canTrain := fun e _ => decide (e = 0 ∨ e = 1)
    canConstruct := fun e _ => decide (e = 0)
    unitWeight := fun e => if e = 0 then 60 else if e = 1 then 100 else 0
    buildingWeight := fun e => if e = 0 then 80 else 0 }

/-- The same city with every unit and building rejected by the sanity checks. -/
def contextAllRejected : CvProductionContext :=
  { contextTrainingWarrior with
    CheckUnitBuildSanity := fun _ _ _ _ => 0
    CheckBuildingBuildSanity := fun _ _ => 0 }

/-- The calm city able to construct building 0 (weight 80) only. -/
def contextBuildingOnly : CvProductionContext :=
  { context with
    canConstruct := fun e _ => decide (e = 0)
    buildingWeight := fun e => if e = 0 then 80 else 0 }

/-- The calm city able to buy the worker (weight 100) and building 1 (weight 70). -/
def contextPurchase : CvProductionContext :=
  { context with
    IsCanPurchaseUnit := fun e _ => decide (e = 1)
    IsCanPurchaseBuilding := fun e _ => decide (e = 1)
    unitWeight := fun e => if e = 1 then 100 else 0
    buildingWeight := fun e => if e = 1 then 70 else 0 }

/-- A production state with empty lists, no order pushed and both counters at 3. -/
def production : CvProductionState :=
  { m_Buildables := []
    m_BuildablesPrecheck := []
    pushOrderCalls := []
    m_iNumberOfTimesOpsBuildSkippedOver := 3
    m_iNumberOfTimesSettlerBuildSkippedOver := 3 }

end Sample

/-! ## Helper predicates of the tile-improver strategies -/

/-- The define `NO_WORKER_AFTER_DISBAND_DURATION`. -/
def NO_WORKER_AFTER_DISBAND_DURATION : Int := 12

namespace CvAICityStrategyEntry

/-- The amount of weight a strategy must accumulate to be adopted (if applicable). -/
def GetWeightThreshold (e : CvAICityStrategyEntry) : Int := e.m_iWeightThreshold

/-- The entry as the constructor `CvAICityStrategyEntry::CvAICityStrategyEntry` leaves it,
before the database row is read: no flavor array, no techs, no minimum duration, no
recheck interval, not permanent.  The type name belongs to the base class and starts
empty. -/
def constructed : CvAICityStrategyEntry :=
  { m_strType := ""
    m_piFlavorValue := none
    m_iWeightThreshold := 0
    m_iTechPrereq := NO_TECH
    m_iTechObsolete := NO_TECH
    m_iMinimumNumTurnsExecuted := 0
    m_iCheckTriggerTurnCount := 0
    m_bNoMinorCivs := false
    m_bPermanent := false }

end CvAICityStrategyEntry

/-- What the two tile-improver predicates read from the owner, the game and the database:
`numWorkers` is `GetNumUnitsWithUnitAI(UNITAI_WORKER, true)`, `eNeedImproversStrategy`
is `GC.getInfoTypeForString("AICITYSTRATEGY_NEED_TILE_IMPROVERS")`,
`GetWeightThresholdModifier e` is the result of the helper of that name (a sum over the
owner's personality flavors), and `MOD_MINOR_CIV_EXTENDED` tells whether that compile-time
option is defined. -/
structure CvTileImproverQueries where
  getCitiesNeedingTerrainImprovements : Int
  GetLastTurnWorkerDisbanded : Int
  numWorkers : Int
  MOD_MINOR_CIV_EXTENDED : Bool
  getElapsedGameTurns : Int
  getTrainPercent : Int
  stateAllWarsLosing : Bool
  isUsingEradicateBarbarians : Bool
  getNumMilitaryUnits : Int
  getNumCities : Int
  AI_CITYSTRATEGY_NEED_TILE_IMPROVERS_DESPERATE_TURN : Int
  eNeedImproversStrategy : Int
  GetWeightThresholdModifier : Nat → Int

namespace CvCityStrategyAI

/-- Returns whether the city has adopted this strategy, for an identifier that may be
`NO_AICITYSTRATEGY` (the guard of `IsUsingCityStrategy`). -/
def IsUsingCityStrategyByType (ai : CvCityStrategyAI) (eStrategy : Int) : Bool :=
  if eStrategy = NO_AICITYSTRATEGY then false
  else ai.IsUsingCityStrategy eStrategy.toNat

end CvCityStrategyAI

namespace CityStrategyAIHelpers

/-- "Need Tile Improvers" city strategy: do we REALLY need to train some workers?  A
`NULL` catalog entry (undefined behaviour in C++) reads as `false`. -/
def IsTestCityStrategy_NeedTileImprovers (gc : CvGlobals) (q : CvTileImproverQueries)
    (pCity : CvCity) (eStrategy : Nat) : Bool :=
  let iCurrentNumCities := q.getCitiesNeedingTerrainImprovements
  let iLastTurnWorkerDisbanded := q.GetLastTurnWorkerDisbanded
  if iLastTurnWorkerDisbanded ≥ 0 ∧
      pCity.gameTurn - iLastTurnWorkerDisbanded ≤ NO_WORKER_AFTER_DISBAND_DURATION then false
  else
    let iNumWorkers := q.numWorkers
    if pCity.ownerIsMinorCiv = true ∧ iNumWorkers ≥ iCurrentNumCities then false
    else if pCity.ownerIsMinorCiv = true ∧ q.MOD_MINOR_CIV_EXTENDED = true ∧ iNumWorkers = 0 ∧
        q.getElapsedGameTurns > q.getTrainPercent.tdiv 2 then true
    else if pCity.ownerIsMinorCiv = false ∧ iNumWorkers > iCurrentNumCities + 1 then false
    else if pCity.ownerIsMinorCiv = false ∧ q.stateAllWarsLosing = true then false
    else if iCurrentNumCities ≤ 4 ∧ q.isUsingEradicateBarbarians = true ∧
        iNumWorkers * 6 ≥ q.getNumMilitaryUnits then false
    else
      match gc.GetEntry eStrategy with
      | none => false
      | some pCityStrategy =>
        let iModdedNumWorkers := (iNumWorkers * pCityStrategy.GetWeightThreshold).tdiv 100
        if iModdedNumWorkers ≤ iCurrentNumCities ∨ iModdedNumWorkers = 0 then
          let iDesperateTurn :=
            (q.AI_CITYSTRATEGY_NEED_TILE_IMPROVERS_DESPERATE_TURN * q.getTrainPercent).tdiv 100
          if q.getElapsedGameTurns > iDesperateTurn then true else false
        else false

/-- "Enough Tile Improvers" city strategy: prevents the training of new builders.  It
reads the active flag of the "Need Tile Improvers" strategy of the same city.  A `NULL`
catalog entry (undefined behaviour in C++) reads as `false`. -/
def IsTestCityStrategy_EnoughTileImprovers (gc : CvGlobals) (q : CvTileImproverQueries)
    (pCity : CvCity) (eStrategy : Nat) (ai : CvCityStrategyAI) : Bool :=
  let iLastTurnWorkerDisbanded := q.GetLastTurnWorkerDisbanded
  if iLastTurnWorkerDisbanded ≥ 0 ∧
      pCity.gameTurn - iLastTurnWorkerDisbanded ≤ NO_WORKER_AFTER_DISBAND_DURATION then true
  else
    let iNumBuilders := q.numWorkers
    if iNumBuilders ≤ 0 then false
    else if ai.IsUsingCityStrategyByType q.eNeedImproversStrategy then false
    else if pCity.ownerIsMinorCiv = true ∧ iNumBuilders ≥ q.getNumCities then true
    else if pCity.ownerIsMinorCiv = true ∧ q.MOD_MINOR_CIV_EXTENDED = true ∧
        iNumBuilders = 0 ∧ q.getElapsedGameTurns > q.getTrainPercent.tdiv 2 then false
    else
      match gc.GetEntry eStrategy with
      | none => false
      | some pCityStrategy =>
        let iWeightThresholdModifier := q.GetWeightThresholdModifier eStrategy
        let iPerCityThreshold := pCityStrategy.GetWeightThreshold + iWeightThresholdModifier
        let iNumCities := q.getCitiesNeedingTerrainImprovements
        decide (iNumBuilders * 100 ≥ iPerCityThreshold * iNumCities)

end CityStrategyAIHelpers

/-! ## States that a trigger predicate cannot tell apart -/

namespace CvCityStrategyAI

/-- Stated for the hypotheses of the theorems, not from the code: the engine states `ai1`
and `ai2` differ at most in the flavor accumulator, in the turn-adopted values and in the
active flags of the strategies from `e` on.  A trigger predicate that reads, of the
engine's own state, only the yield statistics, the specialization and the flags of the
strategies before `e` returns the same on both. -/
def sameBelow (e : Nat) (ai1 ai2 : CvCityStrategyAI) : Prop :=
  (∀ j : Nat, j < e → ai1.IsUsingCityStrategy j = ai2.IsUsingCityStrategy j) ∧
  ai1.m_eSpecialization = ai2.m_eSpecialization ∧
  ai1.m_eDefaultSpecialization = ai2.m_eDefaultSpecialization ∧
  ai1.m_aiYieldModifier = ai2.m_aiYieldModifier ∧
  ai1.m_eMostDeficientYield = ai2.m_eMostDeficientYield ∧
  ai1.m_eMostAbundantYield = ai2.m_eMostAbundantYield

end CvCityStrategyAI

/-! ## Call sequences -/

/-- One call, from outside, of a function of the engine that writes the strategy flags:
`SetUsingCityStrategy(eStrategy, bValue)` while the game is at turn `iGameTurn`, or
`DoTurn()` in the situation `pCity`. -/
inductive CvCall where
  | SetUsingCityStrategy (iGameTurn : Int) (eStrategy : Nat) (bValue : Bool)
  | DoTurn (pCity : CvCity)

namespace CvCall

/-- The game turn at which the call is made. -/
def gameTurn : CvCall → Int
  | SetUsingCityStrategy iGameTurn _ _ => iGameTurn
  | DoTurn pCity => pCity.gameTurn

/-- The state after the call. -/
def apply (gc : CvGlobals) (ai : CvCityStrategyAI) : CvCall → CvCityStrategyAI
  | SetUsingCityStrategy iGameTurn eStrategy bValue =>
    CvCityStrategyAI.SetUsingCityStrategy iGameTurn ai eStrategy bValue
  | DoTurn pCity => CvCityStrategyAI.DoTurn gc pCity ai

/-- The state after a sequence of calls, oldest first. -/
def run (gc : CvGlobals) (ai : CvCityStrategyAI) (calls : List CvCall) : CvCityStrategyAI :=
  calls.foldl (apply gc) ai

/-- Stated from the words of the property, not from the code: the game turn of the call
that last switched strategy `e` from inactive to active in a sequence of calls started in
the state `ai`; `acc` is the value for the calls already made (`none`: no such call). -/
def turnLastSwitchedOn (gc : CvGlobals) (e : Nat) :
    CvCityStrategyAI → List CvCall → Option Int → Option Int
  | _, [], acc => acc
  | ai, call :: rest, acc =>
    turnLastSwitchedOn gc e (apply gc ai call) rest
      (if ai.IsUsingCityStrategy e = false ∧ (apply gc ai call).IsUsingCityStrategy e = true
        then some call.gameTurn else acc)

end CvCall

/-! ## Sample data: tile-improver strategies, inertia edge, partly built buildings -/

namespace Sample

/-- The "Need Tile Improvers" entry: weight threshold 67, rechecked every turn, no minimum
duration. -/
def needTileImprovers : CvAICityStrategyEntry :=
  { smallCity with
    m_strType := "AICITYSTRATEGY_NEED_TILE_IMPROVERS"
    m_piFlavorValue := some [0, 4, 0]
    m_iWeightThreshold := 67
    m_iMinimumNumTurnsExecuted := 0
    m_iCheckTriggerTurnCount := 1 }

/-- The "Enough Tile Improvers" entry: weight threshold 100, rechecked every turn, no
minimum duration. -/
def enoughTileImprovers : CvAICityStrategyEntry :=
  { smallCity with
    m_strType := "AICITYSTRATEGY_ENOUGH_TILE_IMPROVERS"
    m_piFlavorValue := some [0, -6, 0]
    m_iWeightThreshold := 100
    m_iMinimumNumTurnsExecuted := 0
    m_iCheckTriggerTurnCount := 1 }

/-- A database with three flavors and the given catalog. -/
def globalsOf (entries : List CvAICityStrategyEntry) : CvGlobals :=
  { globals smallCity with m_paAICityStrategyEntries := entries.map some }

/-- An owner with one worker and one city needing improvements, 40 turns into the game at
normal speed, at peace; `eNeed` is the catalog index of "Need Tile Improvers". -/
def tileImproverQueries (eNeed : Int) : CvTileImproverQueries :=
  { getCitiesNeedingTerrainImprovements := 1
    GetLastTurnWorkerDisbanded := -1
    numWorkers := 1
    MOD_MINOR_CIV_EXTENDED := false
    getElapsedGameTurns := 40
    getTrainPercent := 100
    stateAllWarsLosing := false
    isUsingEradicateBarbarians := false
    getNumMilitaryUnits := 5
    getNumCities := 1
    AI_CITYSTRATEGY_NEED_TILE_IMPROVERS_DESPERATE_TURN := 30
    eNeedImproversStrategy := eNeed
    GetWeightThresholdModifier := fun _ => 0 }

/-- The sample city at turn 40 with population 5 whose two tile-improver predicates are
the helper functions above, on the given database and owner data. -/
def tileImproverCity (gc : CvGlobals) (q : CvTileImproverQueries) : CvCity :=
  { city 40 5 [] with
    IsTestCityStrategy := fun strStrategyName eCityStrategy ai =>
      if strStrategyName = "AICITYSTRATEGY_NEED_TILE_IMPROVERS" then
        CityStrategyAIHelpers.IsTestCityStrategy_NeedTileImprovers gc q (city 40 5 [])
          eCityStrategy
      else if strStrategyName = "AICITYSTRATEGY_ENOUGH_TILE_IMPROVERS" then
        CityStrategyAIHelpers.IsTestCityStrategy_EnoughTileImprovers gc q (city 40 5 [])
          eCityStrategy ai
      else false }

/-- A catalog with "Enough Tile Improvers" before "Need Tile Improvers". -/
def enoughFirst : CvGlobals := globalsOf [enoughTileImprovers, needTileImprovers]

/-- The tile-improver city on the catalog `enoughFirst`. -/
def enoughFirstCity : CvCity := tileImproverCity enoughFirst (tileImproverQueries 1)

/-- A catalog with "Need Tile Improvers" before "Enough Tile Improvers". -/
def needFirst : CvGlobals := globalsOf [needTileImprovers, enoughTileImprovers]

/-- The tile-improver city on the catalog `needFirst`. -/
def needFirstCity : CvCity := tileImproverCity needFirst (tileImproverQueries 0)

/-- A city state with two inactive strategies and flavors 10, 20, 30. -/
def twoInactive : CvCityStrategyAI :=
  { inactive with
    m_pabUsingCityStrategy := [false, false]
    m_paiTurnCityStrategyAdopted := [-1, -1] }

/-- The small-city entry obsoleted by tech 7, without a recheck interval. -/
def smallCityNoRecheck : CvAICityStrategyEntry :=
  { smallCityObsolete with m_iCheckTriggerTurnCount := 0 }

/-- The calm city producing a warrior, able to train the warrior (weight 50) and the
worker (weight 101). -/
def contextInertiaEdge : CvProductionContext :=
  { context with
    getProductionUnit := 0
    isProductionUnit := true
    canTrain := fun e _ => decide (e = 0 ∨ e = 1)
    unitWeight := fun e => if e = 0 then 50 else if e = 1 then 101 else 0 }

/-- The calm city able to buy buildings 0 and 1, both of weight 10 and needing 100
production; 1 production (1 percent) is invested in building 0 and 2 production
(2 percent) in building 1. -/
def contextPartlyBuilt : CvProductionContext :=
  { context with
    IsCanPurchaseBuilding := fun e _ => decide (e = 0 ∨ e = 1)
    buildingWeight := fun e => if e = 0 ∨ e = 1 then 10 else 0
    GetBuildingProductionTimes100 := fun e => if e = 0 then 100 else if e = 1 then 200 else 0 }

end Sample

/-! ## Duration reweighting -/

/-- The conversion `int(x)` of a `double` to `int`: truncation toward zero, on the exact
rational that stands for the `double`. -/
def truncateToInt (x : ℚ) : Int := x.num.tdiv x.den

namespace CityStrategyAIHelpers

/-- Routine to reweight a city buildable based on time to build.  The `double` values are
modelled by exact rationals (no rounding); `pow` is the power function of the C library,
which is not part of the sources and is a parameter; the two factors are the values of
`GD_FLOAT_GET(AI_PRODUCTION_WEIGHT_BASE_MOD)` and
`GD_FLOAT_GET(AI_PRODUCTION_WEIGHT_MOD_PER_TURN_LEFT)`. -/
def ReweightByTurnsLeft (pow : ℚ → ℚ → ℚ)
    (AI_PRODUCTION_WEIGHT_BASE_MOD AI_PRODUCTION_WEIGHT_MOD_PER_TURN_LEFT : ℚ)
    (iOriginalWeight iTurnsLeft : Int) : Int :=
  let fTotalCostFactor : ℚ :=
    AI_PRODUCTION_WEIGHT_BASE_MOD + (iTurnsLeft : ℚ) * AI_PRODUCTION_WEIGHT_MOD_PER_TURN_LEFT
  let fWeightDivisor : ℚ := pow (iTurnsLeft : ℚ) fTotalCostFactor
  truncateToInt ((iOriginalWeight : ℚ) / fWeightDivisor)

end CityStrategyAIHelpers

namespace Sample

/-- A power function for evaluation: `x` to the power of `y` rounded up to a natural
number.  It is the power function itself on the exponents that are natural numbers, the
only ones the sample calls use, and it is positive and monotone in both arguments for
`x ≥ 1` like the power function. -/
def pow (x y : ℚ) : ℚ := x ^ ⌈y⌉.toNat

/-- The calm city with nothing in production, able to train the warrior (weight 60) and
the worker (weight 100) and to construct building 0 (weight 80), and to buy the same. -/
def contextIdle : CvProductionContext :=
  { context with
    canTrain := fun e _ => decide (e = 0 ∨ e = 1)
    canConstruct := fun e _ => decide (e = 0)
    IsCanPurchaseUnit := fun e _ => decide (e = 0 ∨ e = 1)
    IsCanPurchaseBuilding := fun e _ => decide (e = 0)
    unitWeight := fun e => if e = 0 then 60 else if e = 1 then 100 else 0
    buildingWeight := fun e => if e = 0 then 80 else 0 }

/-- The sample city with another identifier. -/
def cityWithID (iID : Int) : CvCity := { city 10 3 [] with m_iID := iID }

end Sample

/-! ## Lemmas on the state accessors -/

namespace CvCityStrategyAI

theorem getElem?_propagateFlavors (p : CvAICityStrategyEntry) (b : Bool) (n : Nat)
    (fl : List Int) (k : Nat) :
    (propagateFlavors p b n fl)[k]? =
      if k < n then
        fl[k]?.map (fun x => if b then x + p.GetFlavorValue k else x - p.GetFlavorValue k)
      else fl[k]? := by
  induction n with
  | zero => simp [propagateFlavors]
  | succ n ih =>
    simp only [propagateFlavors]
    by_cases hv : p.GetFlavorValue n = 0
    · simp only [hv, ne_eq, not_true_eq_false, if_false, ih]
      by_cases hk : k < n
      · simp [hk, Nat.lt_succ_of_lt hk]
      · by_cases hkn : k = n
        · subst hkn
          cases b <;> cases fl[k]? <;> simp [hv]
        · have : ¬ k < n + 1 := by omega
          simp [hk, this]
    · simp only [ne_eq, hv, not_false_eq_true, if_true]
      by_cases hkn : n = k
      · subst hkn
        have h1 : (propagateFlavors p b n fl)[n]? = fl[n]? := by simp [ih]
        cases b <;> simp [List.getElem?_set_self', h1] <;> cases fl[n]? <;> simp
      · have hkn2 : k ≠ n := fun h => hkn h.symm
        cases b <;> simp only [List.getElem?_set_ne hkn, ih, Bool.false_eq_true, if_false, if_true]
        all_goals
          by_cases hk : k < n
          · simp [hk, Nat.lt_succ_of_lt hk]
          · have : ¬ k < n + 1 := by omega
            simp [hk, this]

theorem length_propagateFlavors (p : CvAICityStrategyEntry) (b : Bool) (n : Nat)
    (fl : List Int) : (propagateFlavors p b n fl).length = fl.length := by
  induction n with
  | zero => simp [propagateFlavors]
  | succ n ih =>
    simp only [propagateFlavors]
    split_ifs <;> simp [ih]

/-- Subtracting the flavors of a strategy after adding them gives back the accumulator. -/
theorem propagateFlavors_sub_add (p : CvAICityStrategyEntry) (n : Nat) (fl : List Int) :
    propagateFlavors p false n (propagateFlavors p true n fl) = fl := by
  apply List.ext_getElem?
  intro k
  rw [getElem?_propagateFlavors, getElem?_propagateFlavors]
  by_cases hk : k < n
  · simp only [hk, if_true]
    cases fl[k]? <;> simp
  · simp [hk]

theorem getD_set_same {α : Type} (l : List α) (e : Nat) (a d : α) (h : e < l.length) :
    (l.set e a).getD e d = a := by
  simp [List.getElem?_set_self h]

theorem getD_set_other {α : Type} (l : List α) (e j : Nat) (a d : α) (h : e ≠ j) :
    (l.set e a).getD j d = l.getD j d := by
  simp [List.getElem?_set_ne h]

theorem SetUsingCityStrategy_flags (t : Int) (ai : CvCityStrategyAI) (e : Nat) (b : Bool) :
    (SetUsingCityStrategy t ai e b).m_pabUsingCityStrategy =
      if ai.m_pabUsingCityStrategy.getD e false = b then ai.m_pabUsingCityStrategy
      else ai.m_pabUsingCityStrategy.set e b := by
  unfold SetUsingCityStrategy SetTurnCityStrategyAdopted
  by_cases hb : ai.m_pabUsingCityStrategy.getD e false = b
  · simp only [hb, ne_eq, not_true_eq_false, if_false, if_true]
  · simp only [hb, ne_eq, not_false_eq_true, if_true, if_false]
    cases b <;> simp only [Bool.false_eq_true, if_false, if_true] <;> split_ifs <;> rfl

theorem SetUsingCityStrategy_turns (t : Int) (ai : CvCityStrategyAI) (e : Nat) (b : Bool) :
    (SetUsingCityStrategy t ai e b).m_paiTurnCityStrategyAdopted =
      if ai.m_pabUsingCityStrategy.getD e false = b then ai.m_paiTurnCityStrategyAdopted
      else if ai.m_paiTurnCityStrategyAdopted.getD e NO_AICITYSTRATEGY = (if b then t else -1)
        then ai.m_paiTurnCityStrategyAdopted
      else ai.m_paiTurnCityStrategyAdopted.set e (if b then t else -1) := by
  unfold SetUsingCityStrategy SetTurnCityStrategyAdopted
  by_cases hb : ai.m_pabUsingCityStrategy.getD e false = b
  · simp only [hb, ne_eq, not_true_eq_false, if_false, if_true]
  · simp only [hb, ne_eq, not_false_eq_true, if_true, if_false]
    cases b <;> simp only [Bool.false_eq_true, if_false, if_true] <;> split_ifs <;> rfl

theorem SetUsingCityStrategy_flavors (t : Int) (ai : CvCityStrategyAI) (e : Nat) (b : Bool) :
    (SetUsingCityStrategy t ai e b).m_piLatestFlavorValues = ai.m_piLatestFlavorValues := by
  unfold SetUsingCityStrategy SetTurnCityStrategyAdopted
  cases b <;> simp only [] <;> split_ifs <;> rfl

theorem IsUsing_SetUsing_self (t : Int) (ai : CvCityStrategyAI) (e : Nat) (b : Bool)
    (h : e < ai.m_pabUsingCityStrategy.length) :
    (SetUsingCityStrategy t ai e b).IsUsingCityStrategy e = b := by
  unfold IsUsingCityStrategy
  rw [SetUsingCityStrategy_flags]
  split_ifs with hb
  · exact hb
  · exact getD_set_same _ _ _ _ h

theorem IsUsing_SetUsing_ne (t : Int) (ai : CvCityStrategyAI) (e j : Nat) (b : Bool)
    (h : j ≠ e) :
    (SetUsingCityStrategy t ai e b).IsUsingCityStrategy j = ai.IsUsingCityStrategy j := by
  have h2 : e ≠ j := fun h3 => h h3.symm
  unfold IsUsingCityStrategy
  rw [SetUsingCityStrategy_flags]
  split_ifs with hb
  · rfl
  · exact getD_set_other _ _ _ _ _ h2

theorem GetTurn_SetUsing_ne (t : Int) (ai : CvCityStrategyAI) (e j : Nat) (b : Bool)
    (h : j ≠ e) :
    (SetUsingCityStrategy t ai e b).GetTurnCityStrategyAdopted j =
      ai.GetTurnCityStrategyAdopted j := by
  have h2 : e ≠ j := fun h3 => h h3.symm
  unfold GetTurnCityStrategyAdopted
  rw [SetUsingCityStrategy_turns]
  split_ifs <;> first | rfl | exact getD_set_other _ _ _ _ _ h2

theorem GetTurn_SetUsing_true (t : Int) (ai : CvCityStrategyAI) (e : Nat)
    (hu : ai.IsUsingCityStrategy e = false)
    (h : e < ai.m_paiTurnCityStrategyAdopted.length) :
    (SetUsingCityStrategy t ai e true).GetTurnCityStrategyAdopted e = t := by
  unfold IsUsingCityStrategy at hu
  unfold GetTurnCityStrategyAdopted
  rw [SetUsingCityStrategy_turns, hu]
  simp only [Bool.false_eq_true, if_false, if_true]
  split_ifs with h1
  · exact h1
  · exact getD_set_same _ _ _ _ h

theorem GetTurn_SetUsing_false (t : Int) (ai : CvCityStrategyAI) (e : Nat)
    (hu : ai.IsUsingCityStrategy e = true) :
    (SetUsingCityStrategy t ai e false).GetTurnCityStrategyAdopted e = -1 := by
  unfold IsUsingCityStrategy at hu
  unfold GetTurnCityStrategyAdopted
  rw [SetUsingCityStrategy_turns, hu]
  simp only [Bool.true_eq_false, Bool.false_eq_true, if_false]
  split_ifs with h1
  · exact h1
  · by_cases hl : e < ai.m_paiTurnCityStrategyAdopted.length
    · exact getD_set_same _ _ _ _ hl
    · have hle : ai.m_paiTurnCityStrategyAdopted.length ≤ e := by omega
      rw [List.set_eq_of_length_le hle]
      have : ai.m_paiTurnCityStrategyAdopted[e]? = none := List.getElem?_eq_none hle
      simp [this, NO_AICITYSTRATEGY]

/-! ## Lemmas on the loop body of DoTurn -/

theorem using_of_testStart {c : CvCity} {p : CvAICityStrategyEntry} {u : Bool}
    (h : bTestCityStrategyStart c p u = true) : u = false := by
  cases u
  · rfl
  · simp [bTestCityStrategyStart] at h

theorem using_of_testEnd {t : Int} {p : CvAICityStrategyEntry} {u : Bool} {a : Int}
    (h : bTestCityStrategyEnd t p u a = true) : u = true := by
  cases u
  · simp [bTestCityStrategyEnd] at h
  · rfl

theorem DoTurnStrategy_hole (gc : CvGlobals) (c : CvCity) (ai : CvCityStrategyAI) (e : Nat)
    (hentry : gc.GetEntry e = none) : DoTurnStrategy gc c ai e = ai := by
  simp [DoTurnStrategy, hentry]

theorem DoTurnStrategy_skip (gc : CvGlobals) (c : CvCity) (ai : CvCityStrategyAI) (e : Nat)
    (p : CvAICityStrategyEntry) (hentry : gc.GetEntry e = some p)
    (hskip : skipForMinorCiv c p = true) : DoTurnStrategy gc c ai e = ai := by
  simp [DoTurnStrategy, hentry, hskip]

theorem DoTurnStrategy_adopt (gc : CvGlobals) (c : CvCity) (ai : CvCityStrategyAI) (e : Nat)
    (p : CvAICityStrategyEntry) (hentry : gc.GetEntry e = some p)
    (hskip : skipForMinorCiv c p = false)
    (hs : bStrategyShouldBeActive gc c ai e p = true)
    (hst : bTestCityStrategyStart c p (ai.IsUsingCityStrategy e) = true) :
    DoTurnStrategy gc c ai e = adoptCityStrategy gc c ai e p := by
  simp [DoTurnStrategy, hentry, hskip, hs, hst, bAdoptOrEndStrategy]

theorem DoTurnStrategy_end (gc : CvGlobals) (c : CvCity) (ai : CvCityStrategyAI) (e : Nat)
    (p : CvAICityStrategyEntry) (hentry : gc.GetEntry e = some p)
    (hskip : skipForMinorCiv c p = false)
    (hs : bStrategyShouldBeActive gc c ai e p = false)
    (hend : bTestCityStrategyEnd c.gameTurn p (ai.IsUsingCityStrategy e)
      (ai.GetTurnCityStrategyAdopted e) = true) :
    DoTurnStrategy gc c ai e = endCityStrategy gc c ai e p := by
  have hu := using_of_testEnd hend
  have hst : bTestCityStrategyStart c p (ai.IsUsingCityStrategy e) = false := by
    rw [hu]; simp [bTestCityStrategyStart]
  simp [DoTurnStrategy, hentry, hskip, hs, hst, hend, bAdoptOrEndStrategy]

theorem DoTurnStrategy_unchanged (gc : CvGlobals) (c : CvCity) (ai : CvCityStrategyAI)
    (e : Nat) (p : CvAICityStrategyEntry) (hentry : gc.GetEntry e = some p)
    (h1 : ¬ (bStrategyShouldBeActive gc c ai e p = true ∧
      bTestCityStrategyStart c p (ai.IsUsingCityStrategy e) = true))
    (h2 : ¬ (bStrategyShouldBeActive gc c ai e p = false ∧
      bTestCityStrategyEnd c.gameTurn p (ai.IsUsingCityStrategy e)
        (ai.GetTurnCityStrategyAdopted e) = true)) :
    DoTurnStrategy gc c ai e = ai := by
  simp only [DoTurnStrategy, hentry]
  cases hs : bStrategyShouldBeActive gc c ai e p <;>
    cases hst : bTestCityStrategyStart c p (ai.IsUsingCityStrategy e) <;>
    cases hend : bTestCityStrategyEnd c.gameTurn p (ai.IsUsingCityStrategy e)
      (ai.GetTurnCityStrategyAdopted e) <;>
    simp_all [bAdoptOrEndStrategy]

/-- The loop body either leaves the state alone, or runs the adopt arm on an inactive
strategy, or runs the end arm on an active one. -/
theorem DoTurnStrategy_cases (gc : CvGlobals) (c : CvCity) (ai : CvCityStrategyAI) (e : Nat) :
    DoTurnStrategy gc c ai e = ai ∨
    (∃ p, gc.GetEntry e = some p ∧ ai.IsUsingCityStrategy e = false ∧
      DoTurnStrategy gc c ai e = adoptCityStrategy gc c ai e p) ∨
    (∃ p, gc.GetEntry e = some p ∧ ai.IsUsingCityStrategy e = true ∧
      DoTurnStrategy gc c ai e = endCityStrategy gc c ai e p) := by
  cases hentry : gc.GetEntry e with
  | none => exact Or.inl (DoTurnStrategy_hole gc c ai e hentry)
  | some p =>
    cases hskip : skipForMinorCiv c p with
    | true => exact Or.inl (DoTurnStrategy_skip gc c ai e p hentry hskip)
    | false =>
      by_cases h1 : bStrategyShouldBeActive gc c ai e p = true ∧
          bTestCityStrategyStart c p (ai.IsUsingCityStrategy e) = true
      · exact Or.inr (Or.inl ⟨p, rfl, using_of_testStart h1.2,
          DoTurnStrategy_adopt gc c ai e p hentry hskip h1.1 h1.2⟩)
      · by_cases h2 : bStrategyShouldBeActive gc c ai e p = false ∧
            bTestCityStrategyEnd c.gameTurn p (ai.IsUsingCityStrategy e)
              (ai.GetTurnCityStrategyAdopted e) = true
        · exact Or.inr (Or.inr ⟨p, rfl, using_of_testEnd h2.2,
            DoTurnStrategy_end gc c ai e p hentry hskip h2.1 h2.2⟩)
        · exact Or.inl (DoTurnStrategy_unchanged gc c ai e p hentry h1 h2)

theorem adoptCityStrategy_IsUsing_ne (gc : CvGlobals) (c : CvCity) (ai : CvCityStrategyAI)
    (e j : Nat) (p : CvAICityStrategyEntry) (h : j ≠ e) :
    (adoptCityStrategy gc c ai e p).IsUsingCityStrategy j = ai.IsUsingCityStrategy j ∧
    (adoptCityStrategy gc c ai e p).GetTurnCityStrategyAdopted j =
      ai.GetTurnCityStrategyAdopted j :=
  ⟨IsUsing_SetUsing_ne c.gameTurn ai e j true h, GetTurn_SetUsing_ne c.gameTurn ai e j true h⟩

theorem endCityStrategy_IsUsing_ne (gc : CvGlobals) (c : CvCity) (ai : CvCityStrategyAI)
    (e j : Nat) (p : CvAICityStrategyEntry) (h : j ≠ e) :
    (endCityStrategy gc c ai e p).IsUsingCityStrategy j = ai.IsUsingCityStrategy j ∧
    (endCityStrategy gc c ai e p).GetTurnCityStrategyAdopted j =
      ai.GetTurnCityStrategyAdopted j :=
  ⟨IsUsing_SetUsing_ne c.gameTurn ai e j false h, GetTurn_SetUsing_ne c.gameTurn ai e j false h⟩

/-- The loop body for strategy `e` does not touch the flag or the turn-adopted value of
another strategy `j`. -/
theorem DoTurnStrategy_frame (gc : CvGlobals) (c : CvCity) (ai : CvCityStrategyAI)
    (e j : Nat) (h : j ≠ e) :
    (DoTurnStrategy gc c ai e).IsUsingCityStrategy j = ai.IsUsingCityStrategy j ∧
    (DoTurnStrategy gc c ai e).GetTurnCityStrategyAdopted j =
      ai.GetTurnCityStrategyAdopted j := by
  rcases DoTurnStrategy_cases gc c ai e with h1 | ⟨p, _, _, h1⟩ | ⟨p, _, _, h1⟩
  · rw [h1]; exact ⟨rfl, rfl⟩
  · rw [h1]; exact adoptCityStrategy_IsUsing_ne gc c ai e j p h
  · rw [h1]; exact endCityStrategy_IsUsing_ne gc c ai e j p h

/-- Loop invariant rule for the strategy loop: a property `P` of the state that the bodies
of the other strategies preserve and that the body of strategy `e` turns into `Q` (itself
preserved by the other bodies) gives `Q` after the loop when `e` is in range. -/
theorem strategyLoop_rule (gc : CvGlobals) (c : CvCity) (e : Nat)
    (P Q : CvCityStrategyAI → Prop)
    (hP : ∀ j ai, j ≠ e → P ai → P (DoTurnStrategy gc c ai j))
    (hQ : ∀ j ai, j ≠ e → Q ai → Q (DoTurnStrategy gc c ai j))
    (hPQ : ∀ ai, P ai → Q (DoTurnStrategy gc c ai e)) :
    ∀ (n : Nat) (ai : CvCityStrategyAI), P ai →
      (e < n → Q ((List.range n).foldl (DoTurnStrategy gc c) ai)) ∧
      (n ≤ e → P ((List.range n).foldl (DoTurnStrategy gc c) ai)) := by
  intro n
  induction n with
  | zero =>
    intro ai h
    exact ⟨fun h0 => absurd h0 (Nat.not_lt_zero e), fun _ => by simpa using h⟩
  | succ n ih =>
    intro ai h
    rw [List.range_succ, List.foldl_append]
    simp only [List.foldl_cons, List.foldl_nil]
    obtain ⟨ih1, ih2⟩ := ih ai h
    constructor
    · intro hlt
      by_cases hen : e = n
      · subst hen
        exact hPQ _ (ih2 (Nat.le_refl _))
      · exact hQ n _ (fun h3 => hen h3.symm) (ih1 (by omega))
    · intro hle
      exact hP n _ (by omega) (ih2 (by omega))

theorem PrecalcYieldStats_IsUsing (gc : CvGlobals) (c : CvCity) (ai : CvCityStrategyAI)
    (e : Nat) :
    (PrecalcYieldStats gc c ai).IsUsingCityStrategy e = ai.IsUsingCityStrategy e ∧
    (PrecalcYieldStats gc c ai).GetTurnCityStrategyAdopted e =
      ai.GetTurnCityStrategyAdopted e ∧
    (PrecalcYieldStats gc c ai).m_pabUsingCityStrategy = ai.m_pabUsingCityStrategy ∧
    (PrecalcYieldStats gc c ai).m_paiTurnCityStrategyAdopted =
      ai.m_paiTurnCityStrategyAdopted ∧
    (PrecalcYieldStats gc c ai).m_piLatestFlavorValues = ai.m_piLatestFlavorValues :=
  ⟨rfl, rfl, rfl, rfl, rfl⟩

theorem GetEntry_lt (gc : CvGlobals) (e : Nat) (p : CvAICityStrategyEntry)
    (h : gc.GetEntry e = some p) : e < gc.GetNumAICityStrategies := by
  unfold CvGlobals.GetEntry at h
  unfold CvGlobals.GetNumAICityStrategies
  by_contra hlt
  have hle : gc.m_paAICityStrategyEntries.length ≤ e := by omega
  have : gc.m_paAICityStrategyEntries[e]? = none := List.getElem?_eq_none hle
  simp [this] at h

theorem flavors_adoptCityStrategy (gc : CvGlobals) (c : CvCity) (ai : CvCityStrategyAI)
    (e : Nat) (p : CvAICityStrategyEntry) :
    (adoptCityStrategy gc c ai e p).m_piLatestFlavorValues =
      propagateFlavors p true gc.numFlavorTypes ai.m_piLatestFlavorValues := by
  simp only [adoptCityStrategy, SetUsingCityStrategy_flavors]

theorem flavors_endCityStrategy (gc : CvGlobals) (c : CvCity) (ai : CvCityStrategyAI)
    (e : Nat) (p : CvAICityStrategyEntry) :
    (endCityStrategy gc c ai e p).m_piLatestFlavorValues =
      propagateFlavors p false gc.numFlavorTypes ai.m_piLatestFlavorValues := by
  simp only [endCityStrategy, SetUsingCityStrategy_flavors]

theorem IsUsing_adoptCityStrategy (gc : CvGlobals) (c : CvCity) (ai : CvCityStrategyAI)
    (e : Nat) (p : CvAICityStrategyEntry) (h : e < ai.m_pabUsingCityStrategy.length) :
    (adoptCityStrategy gc c ai e p).IsUsingCityStrategy e = true :=
  IsUsing_SetUsing_self c.gameTurn ai e true h

theorem GetTurn_adoptCityStrategy (gc : CvGlobals) (c : CvCity) (ai : CvCityStrategyAI)
    (e : Nat) (p : CvAICityStrategyEntry) (hu : ai.IsUsingCityStrategy e = false)
    (h : e < ai.m_paiTurnCityStrategyAdopted.length) :
    (adoptCityStrategy gc c ai e p).GetTurnCityStrategyAdopted e = c.gameTurn :=
  GetTurn_SetUsing_true c.gameTurn ai e hu h

theorem IsUsing_endCityStrategy (gc : CvGlobals) (c : CvCity) (ai : CvCityStrategyAI)
    (e : Nat) (p : CvAICityStrategyEntry) :
    (endCityStrategy gc c ai e p).IsUsingCityStrategy e = false := by
  show (SetUsingCityStrategy c.gameTurn ai e false).m_pabUsingCityStrategy.getD e false = false
  rw [SetUsingCityStrategy_flags]
  split_ifs with hb
  · exact hb
  · by_cases hl : e < ai.m_pabUsingCityStrategy.length
    · exact getD_set_same _ _ _ _ hl
    · have hle : ai.m_pabUsingCityStrategy.length ≤ e := by omega
      rw [List.set_eq_of_length_le hle]
      have : ai.m_pabUsingCityStrategy[e]? = none := List.getElem?_eq_none hle
      simp [this]

theorem GetTurn_endCityStrategy (gc : CvGlobals) (c : CvCity) (ai : CvCityStrategyAI)
    (e : Nat) (p : CvAICityStrategyEntry) (hu : ai.IsUsingCityStrategy e = true) :
    (endCityStrategy gc c ai e p).GetTurnCityStrategyAdopted e = -1 :=
  GetTurn_SetUsing_false c.gameTurn ai e hu

theorem SetUsingCityStrategy_lengths (t : Int) (ai : CvCityStrategyAI) (e : Nat) (b : Bool) :
    (SetUsingCityStrategy t ai e b).m_pabUsingCityStrategy.length =
      ai.m_pabUsingCityStrategy.length ∧
    (SetUsingCityStrategy t ai e b).m_paiTurnCityStrategyAdopted.length =
      ai.m_paiTurnCityStrategyAdopted.length := by
  rw [SetUsingCityStrategy_flags, SetUsingCityStrategy_turns]
  constructor
  · split_ifs <;> simp
  · split_ifs <;> simp

theorem DoTurnStrategy_lengths (gc : CvGlobals) (c : CvCity) (ai : CvCityStrategyAI)
    (e : Nat) :
    (DoTurnStrategy gc c ai e).m_pabUsingCityStrategy.length =
      ai.m_pabUsingCityStrategy.length ∧
    (DoTurnStrategy gc c ai e).m_paiTurnCityStrategyAdopted.length =
      ai.m_paiTurnCityStrategyAdopted.length := by
  rcases DoTurnStrategy_cases gc c ai e with h1 | ⟨p, _, _, h1⟩ | ⟨p, _, _, h1⟩
  · rw [h1]; exact ⟨rfl, rfl⟩
  · rw [h1]; exact SetUsingCityStrategy_lengths c.gameTurn ai e true
  · rw [h1]; exact SetUsingCityStrategy_lengths c.gameTurn ai e false

/-- The loop body leaves an active strategy alone when its end test is not due. -/
theorem DoTurnStrategy_active_noEnd (gc : CvGlobals) (c : CvCity) (ai : CvCityStrategyAI)
    (e : Nat) (hact : ai.IsUsingCityStrategy e = true)
    (hend : ∀ p, gc.GetEntry e = some p →
      bTestCityStrategyEnd c.gameTurn p true (ai.GetTurnCityStrategyAdopted e) = false) :
    DoTurnStrategy gc c ai e = ai := by
  cases hentry : gc.GetEntry e with
  | none => exact DoTurnStrategy_hole gc c ai e hentry
  | some p =>
    apply DoTurnStrategy_unchanged gc c ai e p hentry
    · rintro ⟨_, h2⟩
      have := using_of_testStart h2
      rw [hact] at this
      exact Bool.noConfusion this
    · rintro ⟨_, h2⟩
      rw [hact, hend p hentry] at h2
      exact Bool.noConfusion h2

/-- A whole `DoTurn` keeps an active strategy active, with its turn-adopted value, when
its end test is not due. -/
theorem DoTurn_keeps_active (gc : CvGlobals) (c : CvCity) (ai : CvCityStrategyAI) (e : Nat)
    (hact : ai.IsUsingCityStrategy e = true)
    (hend : ∀ p, gc.GetEntry e = some p →
      bTestCityStrategyEnd c.gameTurn p true (ai.GetTurnCityStrategyAdopted e) = false) :
    (DoTurn gc c ai).IsUsingCityStrategy e = true ∧
    (DoTurn gc c ai).GetTurnCityStrategyAdopted e = ai.GetTurnCityStrategyAdopted e := by
  have key := strategyLoop_rule gc c e
    (fun s => s.IsUsingCityStrategy e = true ∧
      s.GetTurnCityStrategyAdopted e = ai.GetTurnCityStrategyAdopted e)
    (fun s => s.IsUsingCityStrategy e = true ∧
      s.GetTurnCityStrategyAdopted e = ai.GetTurnCityStrategyAdopted e)
    (fun j s hj hs => by
      obtain ⟨f1, f2⟩ := DoTurnStrategy_frame gc c s j e (fun h => hj h.symm)
      exact ⟨f1.trans hs.1, f2.trans hs.2⟩)
    (fun j s hj hs => by
      obtain ⟨f1, f2⟩ := DoTurnStrategy_frame gc c s j e (fun h => hj h.symm)
      exact ⟨f1.trans hs.1, f2.trans hs.2⟩)
    (fun s hs => by
      have : DoTurnStrategy gc c s e = s :=
        DoTurnStrategy_active_noEnd gc c s e hs.1 (fun p hp => by rw [hs.2]; exact hend p hp)
      rw [this]; exact hs)
    gc.GetNumAICityStrategies (PrecalcYieldStats gc c ai) ⟨hact, rfl⟩
  unfold DoTurn
  by_cases hlt : e < gc.GetNumAICityStrategies
  · exact key.1 hlt
  · exact key.2 (by omega)

/-- The loop body either leaves the state alone, or runs the adopt arm (the strategy
is inactive and should be active), or runs the end arm (it is active and should not be). -/
theorem DoTurnStrategy_cases_full (gc : CvGlobals) (c : CvCity) (ai : CvCityStrategyAI)
    (e : Nat) :
    DoTurnStrategy gc c ai e = ai ∨
    (∃ p, gc.GetEntry e = some p ∧ ai.IsUsingCityStrategy e = false ∧
      bStrategyShouldBeActive gc c ai e p = true ∧
      DoTurnStrategy gc c ai e = adoptCityStrategy gc c ai e p) ∨
    (∃ p, gc.GetEntry e = some p ∧ ai.IsUsingCityStrategy e = true ∧
      bStrategyShouldBeActive gc c ai e p = false ∧
      DoTurnStrategy gc c ai e = endCityStrategy gc c ai e p) := by
  cases hentry : gc.GetEntry e with
  | none => exact Or.inl (DoTurnStrategy_hole gc c ai e hentry)
  | some p =>
    cases hskip : skipForMinorCiv c p with
    | true => exact Or.inl (DoTurnStrategy_skip gc c ai e p hentry hskip)
    | false =>
      by_cases h1 : bStrategyShouldBeActive gc c ai e p = true ∧
          bTestCityStrategyStart c p (ai.IsUsingCityStrategy e) = true
      · exact Or.inr (Or.inl ⟨p, rfl, using_of_testStart h1.2, h1.1,
          DoTurnStrategy_adopt gc c ai e p hentry hskip h1.1 h1.2⟩)
      · by_cases h2 : bStrategyShouldBeActive gc c ai e p = false ∧
            bTestCityStrategyEnd c.gameTurn p (ai.IsUsingCityStrategy e)
              (ai.GetTurnCityStrategyAdopted e) = true
        · exact Or.inr (Or.inr ⟨p, rfl, using_of_testEnd h2.2, h2.1,
            DoTurnStrategy_end gc c ai e p hentry hskip h2.1 h2.2⟩)
        · exact Or.inl (DoTurnStrategy_unchanged gc c ai e p hentry h1 h2)

theorem bStrategyShouldBeActive_obsolete (gc : CvGlobals) (c : CvCity) (ai : CvCityStrategyAI)
    (e : Nat) (p : CvAICityStrategyEntry) (hobs : p.GetTechObsolete ≠ NO_TECH)
    (hknown : c.teamHasTech p.GetTechObsolete = true) :
    bStrategyShouldBeActive gc c ai e p = false := by
  simp [bStrategyShouldBeActive, hobs, hknown]

theorem checkTriggers_smallCity (gc : CvGlobals) (c : CvCity) (ai : CvCityStrategyAI)
    (e : Nat) (p : CvAICityStrategyEntry)
    (hname : p.m_strType = "AICITYSTRATEGY_SMALL_CITY") :
    checkTriggers gc c ai e p = CityStrategyAIHelpers.IsTestCityStrategy_SmallCity gc c := by
  simp [checkTriggers, hname]

theorem flavor_entry_propagate (p : CvAICityStrategyEntry) (b : Bool) (n : Nat)
    (fl : List Int) (k : Nat) (x : Int) (hk : k < n) (hx : fl[k]? = some x) :
    (propagateFlavors p b n fl)[k]? =
      some (if b then x + p.GetFlavorValue k else x - p.GetFlavorValue k) := by
  rw [getElem?_propagateFlavors, if_pos hk, hx]
  rfl

end CvCityStrategyAI

/-! ## Lemmas on the stable sort -/

theorem filter_orderedInsert_weight {α : Type} (key : α → Int) (w : Int) (a : α)
    (l : List α) :
    (List.orderedInsert (fun x y => key y ≤ key x) a l).filter (fun x => decide (key x = w)) =
      (a :: l).filter (fun x => decide (key x = w)) := by
  induction l with
  | nil => simp
  | cons b l ih =>
    by_cases hr : key b ≤ key a
    · simp [List.orderedInsert, hr]
    · have hlt : key a < key b := by omega
      simp only [List.orderedInsert, hr, if_false, List.filter_cons, ih]
      by_cases hb : key b = w
      · have ha : key a ≠ w := by omega
        simp [hb, ha]
      · simp [hb]

/-- The stable sort keeps, for every weight, the items of that weight in their input
order. -/
theorem filter_stableSortDescending {α : Type} (key : α → Int) (w : Int) (l : List α) :
    (stableSortDescending key l).filter (fun x => decide (key x = w)) =
      l.filter (fun x => decide (key x = w)) := by
  unfold stableSortDescending
  induction l with
  | nil => simp
  | cons a l ih =>
    rw [List.insertionSort, filter_orderedInsert_weight, List.filter_cons, List.filter_cons, ih]

theorem sorted_stableSortDescending {α : Type} (key : α → Int) (l : List α) :
    (stableSortDescending key l).Sorted (fun x y => key y ≤ key x) := by
  haveI : IsTotal α (fun x y => key y ≤ key x) := ⟨fun x y => le_total (key y) (key x)⟩
  haveI : IsTrans α (fun x y => key y ≤ key x) := ⟨fun _ _ _ h1 h2 => le_trans h2 h1⟩
  exact List.sorted_insertionSort (fun x y => key y ≤ key x) l

theorem perm_stableSortDescending {α : Type} (key : α → Int) (l : List α) :
    (stableSortDescending key l).Perm l :=
  List.perm_insertionSort (fun x y => key y ≤ key x) l

theorem pair_stableSortDescending {α : Type} (key : α → Int) (l : List α) (a b : α)
    (hab : key a = key b) (h : [a, b].Sublist l) :
    [a, b].Sublist (stableSortDescending key l) :=
  List.pair_sublist_insertionSort (r := fun x y => key y ≤ key x) (le_of_eq hab.symm) h

/-! ## The claims -/

open CvCityStrategyAI

/-- C1 (flavor conservation): for every strategy definition and every flavor accumulator
state, a `DoTurn` transition that activates the strategy followed by a `DoTurn`
transition (possibly at another turn and in another city situation) that deactivates the
same strategy leaves the flavor accumulator equal to what it was before the activation. -/
theorem C1_flavor_conservation (gc : CvGlobals) (c1 c2 : CvCity) (ai : CvCityStrategyAI)
    (e : Nat)
    (h0 : ai.IsUsingCityStrategy e = false)
    (h1 : (DoTurnStrategy gc c1 ai e).IsUsingCityStrategy e = true)
    (h2 : (DoTurnStrategy gc c2 (DoTurnStrategy gc c1 ai e) e).IsUsingCityStrategy e = false) :
    (DoTurnStrategy gc c2 (DoTurnStrategy gc c1 ai e) e).m_piLatestFlavorValues =
      ai.m_piLatestFlavorValues := by
  rcases DoTurnStrategy_cases gc c1 ai e with a1 | ⟨p, hp, _, a1⟩ | ⟨p, _, hu, _⟩
  · rw [a1, h0] at h1; exact Bool.noConfusion h1
  · rcases DoTurnStrategy_cases gc c2 (DoTurnStrategy gc c1 ai e) e with
      b1 | ⟨q, _, hu, _⟩ | ⟨q, hq, _, b1⟩
    · rw [b1, h1] at h2; exact Bool.noConfusion h2
    · rw [h1] at hu; exact Bool.noConfusion hu
    · have hpq : q = p := by
        rw [hp] at hq
        exact (Option.some.inj hq).symm
      rw [b1, flavors_endCityStrategy, a1, flavors_adoptCityStrategy, hpq]
      exact propagateFlavors_sub_add p gc.numFlavorTypes ai.m_piLatestFlavorValues
  · rw [h0] at hu; exact Bool.noConfusion hu

/-- Witness of C1: the small-city strategy is adopted at turn 10 (population 3) and ended
at turn 14 (population 8); the flavors are 10, 20, 30 again. -/
theorem C1_flavor_conservation_witness :
    (DoTurnStrategy (Sample.globals Sample.smallCity) (Sample.city 14 8 [])
      (DoTurnStrategy (Sample.globals Sample.smallCity) (Sample.city 10 3 [])
        Sample.inactive 0) 0).m_piLatestFlavorValues = [10, 20, 30] :=
  C1_flavor_conservation (Sample.globals Sample.smallCity) (Sample.city 10 3 [])
    (Sample.city 14 8 []) Sample.inactive 0 (by decide) (by decide) (by decide)

/-- C2 (hysteresis): a strategy with `MinimumNumTurnsExecuted = N` and
`CheckTriggerTurnCount = K` that became active at turn `T` is not tested for
deactivation by a `DoTurn` run at a turn `t ≥ T` with `t < T + N` or `(t - T) mod K ≠ 0`,
and `DoTurn` leaves it active with its turn-adopted value `T`. -/
theorem C2_hysteresis (gc : CvGlobals) (c : CvCity) (ai : CvCityStrategyAI) (e : Nat)
    (p : CvAICityStrategyEntry) (T : Int)
    (hentry : gc.GetEntry e = some p)
    (hact : ai.IsUsingCityStrategy e = true)
    (hT : ai.GetTurnCityStrategyAdopted e = T)
    (hle : T ≤ c.gameTurn)
    (h : c.gameTurn < T + p.GetMinimumNumTurnsExecuted ∨
      (c.gameTurn - T) % p.GetCheckTriggerTurnCount ≠ 0) :
    bTestCityStrategyEnd c.gameTurn p true T = false ∧
    (DoTurn gc c ai).IsUsingCityStrategy e = true ∧
    (DoTurn gc c ai).GetTurnCityStrategyAdopted e = T := by
  have hend : bTestCityStrategyEnd c.gameTurn p true T = false := by
    unfold bTestCityStrategyEnd
    simp only [if_true]
    by_cases hperm : p.IsPermanent = false
    · simp only [hperm, if_true]
      by_cases hK : p.GetCheckTriggerTurnCount > 0
      · have hmod : (c.gameTurn - T).tmod p.GetCheckTriggerTurnCount =
            (c.gameTurn - T) % p.GetCheckTriggerTurnCount :=
          Int.tmod_eq_emod (by omega) (by omega)
        by_cases hm : (c.gameTurn - T) % p.GetCheckTriggerTurnCount = 0
        · have hlt : c.gameTurn < T + p.GetMinimumNumTurnsExecuted := by
            rcases h with h | h
            · exact h
            · exact absurd hm h
          have hN : p.GetMinimumNumTurnsExecuted > 0 := by omega
          simp [hK, hmod, hm, hN, hlt]
        · simp [hK, hmod, hm]
      · simp [hK]
    · simp [hperm]
  have hkeep := DoTurn_keeps_active gc c ai e hact (fun q hq => by
    have hpq : q = p := by
      rw [hentry] at hq
      exact (Option.some.inj hq).symm
    rw [hpq, hT]; exact hend)
  exact ⟨hend, hkeep.1, hT ▸ hkeep.2⟩

/-- Witness of C2: adopted at turn 10 with `N = 4`, `K = 2`; at turn 12 the minimum
duration has not elapsed. -/
theorem C2_hysteresis_witness :
    bTestCityStrategyEnd 12 Sample.smallCity true 10 = false ∧
    (DoTurn (Sample.globals Sample.smallCity) (Sample.city 12 9 []) Sample.active).IsUsingCityStrategy 0
      = true ∧
    (DoTurn (Sample.globals Sample.smallCity) (Sample.city 12 9 []) Sample.active).GetTurnCityStrategyAdopted 0
      = 10 :=
  C2_hysteresis (Sample.globals Sample.smallCity) (Sample.city 12 9 []) Sample.active 0
    Sample.smallCity 10 (by decide) (by decide) (by decide) (by decide) (Or.inl (by decide))

/-- C3 (permanent strategies never deactivate): a strategy whose definition is permanent
and that is active before `DoTurn` is still active after it, with the same turn-adopted
value, whatever the predicates, the techs and the turn are; and the loop body of that
strategy changes nothing at all (so its flavor contribution stays in the accumulator) in
any state in which the strategy is active. -/
theorem C3_permanent_never_deactivates (gc : CvGlobals) (c : CvCity) (ai : CvCityStrategyAI)
    (e : Nat) (p : CvAICityStrategyEntry)
    (hentry : gc.GetEntry e = some p)
    (hperm : p.IsPermanent = true)
    (hact : ai.IsUsingCityStrategy e = true) :
    (DoTurn gc c ai).IsUsingCityStrategy e = true ∧
    (DoTurn gc c ai).GetTurnCityStrategyAdopted e = ai.GetTurnCityStrategyAdopted e ∧
    (∀ s : CvCityStrategyAI, s.IsUsingCityStrategy e = true → DoTurnStrategy gc c s e = s) := by
  have hend : ∀ (a : Int) (q : CvAICityStrategyEntry), gc.GetEntry e = some q →
      bTestCityStrategyEnd c.gameTurn q true a = false := by
    intro a q hq
    have hpq : q = p := by
      rw [hentry] at hq
      exact (Option.some.inj hq).symm
    rw [hpq]
    simp [bTestCityStrategyEnd, hperm]
  have hkeep := DoTurn_keeps_active gc c ai e hact (hend _)
  exact ⟨hkeep.1, hkeep.2, fun s hs => DoTurnStrategy_active_noEnd gc c s e hs (hend _)⟩

/-- Witness of C3: a permanent strategy adopted at turn 10, evaluated at turn 12 with a
population outside the small-city range and the obsoleting tech known. -/
theorem C3_permanent_never_deactivates_witness :
    (DoTurn (Sample.globals Sample.smallCityPermanentObsolete) (Sample.city 12 9 [7])
      Sample.active).IsUsingCityStrategy 0 = true :=
  (C3_permanent_never_deactivates (Sample.globals Sample.smallCityPermanentObsolete)
    (Sample.city 12 9 [7]) Sample.active 0 Sample.smallCityPermanentObsolete
    (by decide) (by decide) (by decide)).1

/-- C4, as stated, fails: a permanent strategy adopted at turn 10 whose obsoleting tech 7
is known to the team is still active after `DoTurn` at turn 12. -/
theorem C4_counterexample :
    (Sample.globals Sample.smallCityPermanentObsolete).GetEntry 0 =
      some Sample.smallCityPermanentObsolete ∧
    Sample.smallCityPermanentObsolete.GetTechObsolete = 7 ∧
    (Sample.city 12 3 [7]).teamHasTech 7 = true ∧
    (DoTurn (Sample.globals Sample.smallCityPermanentObsolete) (Sample.city 12 3 [7])
      Sample.active).IsUsingCityStrategy 0 = true := by
  decide

/-- C4, amended (obsolescence overrides the predicate where the strategy is evaluated):
for every strategy whose obsoleting tech is known to the city's team, the trigger result
is forced to "should not be active" whatever the predicate and the Lua hook say, and the
strategy is inactive after `DoTurn` provided it was inactive before, or it was active,
is not skipped for a minor-civ or barbarian owner, and is due for its end test this
turn. -/
theorem C4_obsolescence_overrides_predicate (gc : CvGlobals) (c : CvCity)
    (ai : CvCityStrategyAI) (e : Nat) (p : CvAICityStrategyEntry)
    (hentry : gc.GetEntry e = some p)
    (hobs : p.GetTechObsolete ≠ NO_TECH)
    (hknown : c.teamHasTech p.GetTechObsolete = true)
    (hdue : ai.IsUsingCityStrategy e = false ∨
      (skipForMinorCiv c p = false ∧
        bTestCityStrategyEnd c.gameTurn p true (ai.GetTurnCityStrategyAdopted e) = true)) :
    (∀ s : CvCityStrategyAI, bStrategyShouldBeActive gc c s e p = false) ∧
    (DoTurn gc c ai).IsUsingCityStrategy e = false := by
  have hshould : ∀ s : CvCityStrategyAI, bStrategyShouldBeActive gc c s e p = false :=
    fun s => bStrategyShouldBeActive_obsolete gc c s e p hobs hknown
  refine ⟨hshould, ?_⟩
  have key := strategyLoop_rule gc c e
    (fun s => s.IsUsingCityStrategy e = ai.IsUsingCityStrategy e ∧
      s.GetTurnCityStrategyAdopted e = ai.GetTurnCityStrategyAdopted e)
    (fun s => s.IsUsingCityStrategy e = false)
    (fun j s hj hs => by
      obtain ⟨f1, f2⟩ := DoTurnStrategy_frame gc c s j e (fun h => hj h.symm)
      exact ⟨f1.trans hs.1, f2.trans hs.2⟩)
    (fun j s hj hs => by
      obtain ⟨f1, _⟩ := DoTurnStrategy_frame gc c s j e (fun h => hj h.symm)
      exact f1.trans hs)
    (fun s hs => by
      cases hu : ai.IsUsingCityStrategy e with
      | false =>
        rcases DoTurnStrategy_cases_full gc c s e with a1 | ⟨q, hq, _, hsh, _⟩ | ⟨q, _, _, _, a1⟩
        · rw [a1, hs.1, hu]
        · have hpq : q = p := by
            rw [hentry] at hq
            exact (Option.some.inj hq).symm
          rw [hpq, hshould s] at hsh
          exact Bool.noConfusion hsh
        · rw [a1]; exact IsUsing_endCityStrategy gc c s e q
      | true =>
        rcases hdue with hin | ⟨hskip, hend⟩
        · rw [hu] at hin; exact Bool.noConfusion hin
        · have h1 : s.IsUsingCityStrategy e = true := hs.1.trans hu
          have h2 : bTestCityStrategyEnd c.gameTurn p (s.IsUsingCityStrategy e)
              (s.GetTurnCityStrategyAdopted e) = true := by
            rw [h1, hs.2]; exact hend
          rw [DoTurnStrategy_end gc c s e p hentry hskip (hshould s) h2]
          exact IsUsing_endCityStrategy gc c s e p)
    gc.GetNumAICityStrategies (PrecalcYieldStats gc c ai) ⟨rfl, rfl⟩
  unfold DoTurn
  exact key.1 (GetEntry_lt gc e p hentry)

/-- Witness of C4 (amended): the small-city strategy adopted at turn 10 is due for its
end test at turn 14; the obsoleting tech 7 is known and the population is in the
small-city range, yet the strategy is ended. -/
theorem C4_obsolescence_overrides_predicate_witness :
    CityStrategyAIHelpers.IsTestCityStrategy_SmallCity (Sample.globals Sample.smallCityObsolete)
      (Sample.city 14 3 [7]) = true ∧
    (DoTurn (Sample.globals Sample.smallCityObsolete) (Sample.city 14 3 [7])
      Sample.active).IsUsingCityStrategy 0 = false :=
  ⟨by decide,
   (C4_obsolescence_overrides_predicate (Sample.globals Sample.smallCityObsolete)
     (Sample.city 14 3 [7]) Sample.active 0 Sample.smallCityObsolete (by decide) (by decide)
     (by decide) (Or.inr ⟨by decide, by decide⟩)).2⟩

/-- C5 (transition table of `DoTurn`): for a strategy that the pass evaluates (it has a
catalog entry and is not skipped), the flag goes from inactive to active exactly when
`bStrategyShouldBeActive` and `bTestCityStrategyStart` hold (the adopt arm runs), it goes
from active to inactive exactly when `bStrategyShouldBeActive` is false and
`bTestCityStrategyEnd` holds (the end arm runs), and in every other combination the
whole state (flag, turn-adopted value, flavor accumulator) is left unchanged. -/
theorem C5_transition_table (gc : CvGlobals) (c : CvCity) (ai : CvCityStrategyAI) (e : Nat)
    (p : CvAICityStrategyEntry)
    (hentry : gc.GetEntry e = some p)
    (hskip : skipForMinorCiv c p = false)
    (hlen : e < ai.m_pabUsingCityStrategy.length) :
    ((ai.IsUsingCityStrategy e = false ∧
        (DoTurnStrategy gc c ai e).IsUsingCityStrategy e = true) ↔
      (bStrategyShouldBeActive gc c ai e p = true ∧
        bTestCityStrategyStart c p (ai.IsUsingCityStrategy e) = true)) ∧
    ((ai.IsUsingCityStrategy e = true ∧
        (DoTurnStrategy gc c ai e).IsUsingCityStrategy e = false) ↔
      (bStrategyShouldBeActive gc c ai e p = false ∧
        bTestCityStrategyEnd c.gameTurn p (ai.IsUsingCityStrategy e)
          (ai.GetTurnCityStrategyAdopted e) = true)) ∧
    ((bStrategyShouldBeActive gc c ai e p = true ∧
        bTestCityStrategyStart c p (ai.IsUsingCityStrategy e) = true) →
      DoTurnStrategy gc c ai e = adoptCityStrategy gc c ai e p) ∧
    ((bStrategyShouldBeActive gc c ai e p = false ∧
        bTestCityStrategyEnd c.gameTurn p (ai.IsUsingCityStrategy e)
          (ai.GetTurnCityStrategyAdopted e) = true) →
      DoTurnStrategy gc c ai e = endCityStrategy gc c ai e p) ∧
    (¬ (bStrategyShouldBeActive gc c ai e p = true ∧
        bTestCityStrategyStart c p (ai.IsUsingCityStrategy e) = true) →
      ¬ (bStrategyShouldBeActive gc c ai e p = false ∧
        bTestCityStrategyEnd c.gameTurn p (ai.IsUsingCityStrategy e)
          (ai.GetTurnCityStrategyAdopted e) = true) →
      DoTurnStrategy gc c ai e = ai) := by
  have hA := DoTurnStrategy_adopt gc c ai e p hentry hskip
  have hE := DoTurnStrategy_end gc c ai e p hentry hskip
  have hU := DoTurnStrategy_unchanged gc c ai e p hentry
  refine ⟨⟨?_, ?_⟩, ⟨?_, ?_⟩, fun h => hA h.1 h.2, fun h => hE h.1 h.2, hU⟩
  · rintro ⟨h0, h1⟩
    by_contra hn
    by_cases h2 : bStrategyShouldBeActive gc c ai e p = false ∧
        bTestCityStrategyEnd c.gameTurn p (ai.IsUsingCityStrategy e)
          (ai.GetTurnCityStrategyAdopted e) = true
    · have := using_of_testEnd h2.2
      rw [h0] at this
      exact Bool.noConfusion this
    · rw [hU hn h2, h0] at h1
      exact Bool.noConfusion h1
  · rintro ⟨hs, hst⟩
    refine ⟨using_of_testStart hst, ?_⟩
    rw [hA hs hst]
    exact IsUsing_adoptCityStrategy gc c ai e p hlen
  · rintro ⟨h0, h1⟩
    by_contra hn
    by_cases h2 : bStrategyShouldBeActive gc c ai e p = true ∧
        bTestCityStrategyStart c p (ai.IsUsingCityStrategy e) = true
    · have := using_of_testStart h2.2
      rw [h0] at this
      exact Bool.noConfusion this
    · rw [hU h2 hn, h0] at h1
      exact Bool.noConfusion h1
  · rintro ⟨hs, hend⟩
    refine ⟨using_of_testEnd hend, ?_⟩
    rw [hE hs hend]
    exact IsUsing_endCityStrategy gc c ai e p

/-- Witness of C5: the inactive small-city strategy at population 3 is adopted. -/
theorem C5_transition_table_witness :
    DoTurnStrategy (Sample.globals Sample.smallCity) (Sample.city 10 3 []) Sample.inactive 0 =
      adoptCityStrategy (Sample.globals Sample.smallCity) (Sample.city 10 3 []) Sample.inactive 0
        Sample.smallCity :=
  (C5_transition_table (Sample.globals Sample.smallCity) (Sample.city 10 3 []) Sample.inactive 0
    Sample.smallCity (by decide) (by decide) (by decide)).2.2.1 ⟨by decide, by decide⟩

/-- C6 (transition postconditions): when `DoTurn` activates a strategy (the adopt arm
fires), afterwards the strategy is active, its turn-adopted value is the current game
turn and every flavor entry has grown by exactly the definition's value for that
flavor; when `DoTurn` deactivates a strategy (the end arm fires), afterwards it is
inactive, its turn-adopted value is -1 and every flavor entry has shrunk by exactly
that value. -/
theorem C6_transition_postconditions (gc : CvGlobals) (c : CvCity) (ai : CvCityStrategyAI)
    (e : Nat) (p : CvAICityStrategyEntry)
    (hentry : gc.GetEntry e = some p)
    (hskip : skipForMinorCiv c p = false)
    (hlen1 : e < ai.m_pabUsingCityStrategy.length)
    (hlen2 : e < ai.m_paiTurnCityStrategyAdopted.length) :
    ((bStrategyShouldBeActive gc c ai e p = true ∧
        bTestCityStrategyStart c p (ai.IsUsingCityStrategy e) = true) →
      (DoTurnStrategy gc c ai e).IsUsingCityStrategy e = true ∧
      (DoTurnStrategy gc c ai e).GetTurnCityStrategyAdopted e = c.gameTurn ∧
      ∀ (k : Nat) (x : Int), k < gc.numFlavorTypes → ai.m_piLatestFlavorValues[k]? = some x →
        (DoTurnStrategy gc c ai e).m_piLatestFlavorValues[k]? =
          some (x + p.GetFlavorValue k)) ∧
    ((bStrategyShouldBeActive gc c ai e p = false ∧
        bTestCityStrategyEnd c.gameTurn p (ai.IsUsingCityStrategy e)
          (ai.GetTurnCityStrategyAdopted e) = true) →
      (DoTurnStrategy gc c ai e).IsUsingCityStrategy e = false ∧
      (DoTurnStrategy gc c ai e).GetTurnCityStrategyAdopted e = -1 ∧
      ∀ (k : Nat) (x : Int), k < gc.numFlavorTypes → ai.m_piLatestFlavorValues[k]? = some x →
        (DoTurnStrategy gc c ai e).m_piLatestFlavorValues[k]? =
          some (x - p.GetFlavorValue k)) := by
  constructor
  · rintro ⟨hs, hst⟩
    rw [DoTurnStrategy_adopt gc c ai e p hentry hskip hs hst]
    refine ⟨IsUsing_adoptCityStrategy gc c ai e p hlen1,
      GetTurn_adoptCityStrategy gc c ai e p (using_of_testStart hst) hlen2, ?_⟩
    intro k x hk hx
    rw [flavors_adoptCityStrategy, flavor_entry_propagate p true _ _ k x hk hx]
    rfl
  · rintro ⟨hs, hend⟩
    rw [DoTurnStrategy_end gc c ai e p hentry hskip hs hend]
    refine ⟨IsUsing_endCityStrategy gc c ai e p,
      GetTurn_endCityStrategy gc c ai e p (using_of_testEnd hend), ?_⟩
    intro k x hk hx
    rw [flavors_endCityStrategy, flavor_entry_propagate p false _ _ k x hk hx]
    rfl

/-- Witness of C6: adopting the small-city strategy at turn 10 makes it active with
turn-adopted 10 and turns the flavors 10, 20, 30 into 13, 20, 28. -/
theorem C6_transition_postconditions_witness :
    (DoTurnStrategy (Sample.globals Sample.smallCity) (Sample.city 10 3 [])
        Sample.inactive 0).IsUsingCityStrategy 0 = true ∧
    (DoTurnStrategy (Sample.globals Sample.smallCity) (Sample.city 10 3 [])
        Sample.inactive 0).GetTurnCityStrategyAdopted 0 = 10 ∧
    (DoTurnStrategy (Sample.globals Sample.smallCity) (Sample.city 10 3 [])
        Sample.inactive 0).m_piLatestFlavorValues[2]? = some (30 + (-2)) :=
  have h := (C6_transition_postconditions (Sample.globals Sample.smallCity)
    (Sample.city 10 3 []) Sample.inactive 0 Sample.smallCity (by decide) (by decide)
    (by decide) (by decide)).1 ⟨by decide, by decide⟩
  ⟨h.1, h.2.1, h.2.2 2 30 (by decide) (by decide)⟩

/-- C7, as stated, fails: the small-city strategy (thresholds 2 and 7) is inactive, has no
tech prerequisite, no obsoleting tech and no Lua veto, and the population is 3, but the
owner is a minor civ and the definition is flagged `NoMinorCivs`, so `DoTurn` skips the
strategy and leaves it inactive. -/
theorem C7_counterexample :
    Sample.smallCityNoMinor.m_strType = "AICITYSTRATEGY_SMALL_CITY" ∧
    (Sample.globals Sample.smallCityNoMinor).GetEntry 0 = some Sample.smallCityNoMinor ∧
    Sample.inactive.IsUsingCityStrategy 0 = false ∧
    Sample.smallCityNoMinor.GetTechPrereq = NO_TECH ∧
    Sample.smallCityNoMinor.GetTechObsolete = NO_TECH ∧
    (Sample.minorCity 10 3 []).luaCityStrategyCanActivate 0 = none ∧
    (Sample.globals Sample.smallCityNoMinor).AI_CITYSTRATEGY_SMALL_CITY_POP_THRESHOLD ≤
      (Sample.minorCity 10 3 []).m_iPopulation ∧
    (Sample.minorCity 10 3 []).m_iPopulation <
      (Sample.globals Sample.smallCityNoMinor).AI_CITYSTRATEGY_MEDIUM_CITY_POP_THRESHOLD ∧
    (DoTurn (Sample.globals Sample.smallCityNoMinor) (Sample.minorCity 10 3 [])
      Sample.inactive).IsUsingCityStrategy 0 = false := by
  decide

/-- C7, amended (small-city scenario, generalised): for the strategy
`AICITYSTRATEGY_SMALL_CITY` with population thresholds `[lo, hi)`, inactive before the
pass, with its tech prerequisite met, not obsolete, no Lua veto and not skipped for a
minor-civ or barbarian owner, `DoTurn` leaves it inactive when the population is below
`lo` or at least `hi`, and when `lo ≤ population < hi` it makes it active with
turn-adopted equal to the current turn, the loop body adding each flavor value exactly
once. -/
theorem C7_small_city_scenario (gc : CvGlobals) (c : CvCity) (ai : CvCityStrategyAI)
    (e : Nat) (p : CvAICityStrategyEntry)
    (hentry : gc.GetEntry e = some p)
    (hname : p.m_strType = "AICITYSTRATEGY_SMALL_CITY")
    (hinactive : ai.IsUsingCityStrategy e = false)
    (hprereq : p.GetTechPrereq = NO_TECH ∨ c.teamHasTech p.GetTechPrereq = true)
    (hobs : p.GetTechObsolete = NO_TECH ∨ c.teamHasTech p.GetTechObsolete = false)
    (hveto : c.luaCityStrategyCanActivate e ≠ some false)
    (hskip : skipForMinorCiv c p = false)
    (hlen1 : e < ai.m_pabUsingCityStrategy.length)
    (hlen2 : e < ai.m_paiTurnCityStrategyAdopted.length) :
    ((c.m_iPopulation < gc.AI_CITYSTRATEGY_SMALL_CITY_POP_THRESHOLD ∨
        gc.AI_CITYSTRATEGY_MEDIUM_CITY_POP_THRESHOLD ≤ c.m_iPopulation) →
      DoTurnStrategy gc c ai e = ai ∧
      (DoTurn gc c ai).IsUsingCityStrategy e = false) ∧
    ((gc.AI_CITYSTRATEGY_SMALL_CITY_POP_THRESHOLD ≤ c.m_iPopulation ∧
        c.m_iPopulation < gc.AI_CITYSTRATEGY_MEDIUM_CITY_POP_THRESHOLD) →
      (DoTurn gc c ai).IsUsingCityStrategy e = true ∧
      (DoTurn gc c ai).GetTurnCityStrategyAdopted e = c.gameTurn ∧
      DoTurnStrategy gc c ai e = adoptCityStrategy gc c ai e p ∧
      ∀ (k : Nat) (x : Int), k < gc.numFlavorTypes → ai.m_piLatestFlavorValues[k]? = some x →
        (DoTurnStrategy gc c ai e).m_piLatestFlavorValues[k]? =
          some (x + p.GetFlavorValue k)) := by
  have hstart : bTestCityStrategyStart c p false = true := by
    unfold bTestCityStrategyStart
    rcases hprereq with h | h <;> rcases hobs with h' | h' <;> simp [h, h']
  have hsh : ∀ s : CvCityStrategyAI, bStrategyShouldBeActive gc c s e p =
      CityStrategyAIHelpers.IsTestCityStrategy_SmallCity gc c := by
    intro s
    unfold bStrategyShouldBeActive
    rw [checkTriggers_smallCity gc c s e p hname]
    have hno : ¬ (p.GetTechObsolete ≠ NO_TECH ∧ c.teamHasTech p.GetTechObsolete = true) := by
      rcases hobs with h' | h' <;> simp [h']
    rw [if_neg hno]
    cases hb : CityStrategyAIHelpers.IsTestCityStrategy_SmallCity gc c with
    | false => simp
    | true =>
      cases hl : c.luaCityStrategyCanActivate e with
      | none => rfl
      | some b =>
        cases b with
        | true => rfl
        | false => exact absurd hl hveto
  constructor
  · intro hout
    have hfalse : CityStrategyAIHelpers.IsTestCityStrategy_SmallCity gc c = false := by
      unfold CityStrategyAIHelpers.IsTestCityStrategy_SmallCity
      rw [if_neg]
      rintro ⟨h1, h2⟩
      rcases hout with h | h <;> omega
    have hbody : ∀ s : CvCityStrategyAI, s.IsUsingCityStrategy e = false →
        DoTurnStrategy gc c s e = s := by
      intro s hs
      apply DoTurnStrategy_unchanged gc c s e p hentry
      · rintro ⟨h1, _⟩
        rw [hsh s, hfalse] at h1
        exact Bool.noConfusion h1
      · rintro ⟨_, h2⟩
        have := using_of_testEnd h2
        rw [hs] at this
        exact Bool.noConfusion this
    refine ⟨hbody ai hinactive, ?_⟩
    have key := strategyLoop_rule gc c e
      (fun s => s.IsUsingCityStrategy e = false)
      (fun s => s.IsUsingCityStrategy e = false)
      (fun j s hj hs => (DoTurnStrategy_frame gc c s j e (fun h => hj h.symm)).1.trans hs)
      (fun j s hj hs => (DoTurnStrategy_frame gc c s j e (fun h => hj h.symm)).1.trans hs)
      (fun s hs => by rw [hbody s hs]; exact hs)
      gc.GetNumAICityStrategies (PrecalcYieldStats gc c ai) hinactive
    unfold DoTurn
    exact key.1 (GetEntry_lt gc e p hentry)
  · intro hin
    have htrue : CityStrategyAIHelpers.IsTestCityStrategy_SmallCity gc c = true := by
      unfold CityStrategyAIHelpers.IsTestCityStrategy_SmallCity
      rw [if_pos ⟨hin.1, hin.2⟩]
    have hbody : ∀ s : CvCityStrategyAI, s.IsUsingCityStrategy e = false →
        DoTurnStrategy gc c s e = adoptCityStrategy gc c s e p := by
      intro s hs
      apply DoTurnStrategy_adopt gc c s e p hentry hskip
      · rw [hsh s, htrue]
      · rw [hs]; exact hstart
    have key := strategyLoop_rule gc c e
      (fun s => s.IsUsingCityStrategy e = false ∧ e < s.m_pabUsingCityStrategy.length ∧
        e < s.m_paiTurnCityStrategyAdopted.length)
      (fun s => s.IsUsingCityStrategy e = true ∧ s.GetTurnCityStrategyAdopted e = c.gameTurn)
      (fun j s hj hs => by
        obtain ⟨f1, _⟩ := DoTurnStrategy_frame gc c s j e (fun h => hj h.symm)
        obtain ⟨l1, l2⟩ := DoTurnStrategy_lengths gc c s j
        exact ⟨f1.trans hs.1, l1 ▸ hs.2.1, l2 ▸ hs.2.2⟩)
      (fun j s hj hs => by
        obtain ⟨f1, f2⟩ := DoTurnStrategy_frame gc c s j e (fun h => hj h.symm)
        exact ⟨f1.trans hs.1, f2.trans hs.2⟩)
      (fun s hs => by
        rw [hbody s hs.1]
        exact ⟨IsUsing_adoptCityStrategy gc c s e p hs.2.1,
          GetTurn_adoptCityStrategy gc c s e p hs.1 hs.2.2⟩)
      gc.GetNumAICityStrategies (PrecalcYieldStats gc c ai) ⟨hinactive, hlen1, hlen2⟩
    have hdo := key.1 (GetEntry_lt gc e p hentry)
    refine ⟨hdo.1, hdo.2, hbody ai hinactive, ?_⟩
    intro k x hk hx
    rw [hbody ai hinactive, flavors_adoptCityStrategy,
      flavor_entry_propagate p true _ _ k x hk hx]
    rfl

/-- Witness of C7 (amended): thresholds 2 and 7; population 1 stays inactive. -/
theorem C7_small_city_scenario_witness :
    (DoTurn (Sample.globals Sample.smallCity) (Sample.city 10 1 [])
      Sample.inactive).IsUsingCityStrategy 0 = false ∧
    (DoTurn (Sample.globals Sample.smallCity) (Sample.city 10 3 [])
      Sample.inactive).IsUsingCityStrategy 0 = true ∧
    (DoTurn (Sample.globals Sample.smallCity) (Sample.city 10 3 [])
      Sample.inactive).GetTurnCityStrategyAdopted 0 = 10 ∧
    (DoTurnStrategy (Sample.globals Sample.smallCity) (Sample.city 10 3 [])
      Sample.inactive 0).m_piLatestFlavorValues[0]? = some (10 + 3) :=
  have h1 := ((C7_small_city_scenario (Sample.globals Sample.smallCity) (Sample.city 10 1 [])
    Sample.inactive 0 Sample.smallCity (by decide) (by decide) (by decide)
    (Or.inl (by decide)) (Or.inl (by decide)) (by decide) (by decide) (by decide)
    (by decide)).1 (Or.inl (by decide))).2
  have h3 := (C7_small_city_scenario (Sample.globals Sample.smallCity) (Sample.city 10 3 [])
    Sample.inactive 0 Sample.smallCity (by decide) (by decide) (by decide)
    (Or.inl (by decide)) (Or.inl (by decide)) (by decide) (by decide) (by decide)
    (by decide)).2 ⟨by decide, by decide⟩
  ⟨h1, h3.1, h3.2.1, h3.2.2.2 0 10 (by decide) (by decide)⟩

/-- C8 (stable-sort tie-break): after the stable descending sort of a candidate list the
weights are in non-increasing order, the list is a permutation of the input, any two
candidates with equal weight of which one was pushed before the other are still in that
order, and for every weight the candidates of that weight appear in their push order. -/
theorem C8_stable_sort_tie_break {α : Type} (v : CvWeightedVector α) :
    (CvWeightedVector.StableSortItems v).Sorted (fun x y => y.2 ≤ x.2) ∧
    (CvWeightedVector.StableSortItems v).Perm v ∧
    (∀ a b : α × Int, a.2 = b.2 → [a, b].Sublist v →
      [a, b].Sublist (CvWeightedVector.StableSortItems v)) ∧
    (∀ w : Int, (CvWeightedVector.StableSortItems v).filter (fun x => decide (x.2 = w)) =
      v.filter (fun x => decide (x.2 = w))) :=
  ⟨sorted_stableSortDescending Prod.snd v, perm_stableSortDescending Prod.snd v,
   fun a b hab h => pair_stableSortDescending Prod.snd v a b hab h,
   fun w => filter_stableSortDescending Prod.snd w v⟩

/-- Witness of C8: in the sample list the unit and the building tie at weight 40 and the
unit was pushed first; after the sort the project (75) leads and the unit still precedes
the building. -/
theorem C8_stable_sort_tie_break_witness :
    CvWeightedVector.StableSortItems Sample.candidates =
      [(⟨CityAIBuildableType.CITY_BUILDABLE_PROJECT, 1, 30, 75⟩, 75),
       (⟨CityAIBuildableType.CITY_BUILDABLE_UNIT, 4, 6, 40⟩, 40),
       (⟨CityAIBuildableType.CITY_BUILDABLE_BUILDING, 9, 12, 40⟩, 40)] ∧
    (CvWeightedVector.StableSortItems Sample.candidates).filter (fun x => decide (x.2 = 40)) =
      [(⟨CityAIBuildableType.CITY_BUILDABLE_UNIT, 4, 6, 40⟩, 40),
       (⟨CityAIBuildableType.CITY_BUILDABLE_BUILDING, 9, 12, 40⟩, 40)] :=
  ⟨by decide, ((C8_stable_sort_tie_break Sample.candidates).2.2.2 40).trans (by decide)⟩

/-! ## Lemmas on the yield statistics -/

namespace CvCityStrategyAI

/-- The head of the stable descending sort has the largest key and is the first item of
that key in the input. -/
theorem head_stableSortDescending {α : Type} (key : α → Int) (l : List α) (d : α)
    (h : (stableSortDescending key l).head? = some d) :
    d ∈ l ∧ (∀ x ∈ l, key x ≤ key d) ∧
    (l.filter (fun x => decide (key x = key d))).head? = some d := by
  obtain ⟨t, ht⟩ := List.head?_eq_some_iff.mp h
  have hs := sorted_stableSortDescending key l
  have hp := perm_stableSortDescending key l
  have hf := filter_stableSortDescending key (key d) l
  rw [ht] at hs hp hf
  refine ⟨hp.mem_iff.mp (List.mem_cons_self d t), ?_, ?_⟩
  · intro x hx
    rcases List.mem_cons.mp (hp.mem_iff.mpr hx) with hxd | hxt
    · rw [hxd]
    · exact List.rel_of_sorted_cons hs x hxt
  · rw [← hf]
    simp

/-- The last item of the stable descending sort has the smallest key and is the last item
of that key in the input. -/
theorem getLast_stableSortDescending {α : Type} (key : α → Int) (l : List α) (d : α)
    (h : (stableSortDescending key l).getLast? = some d) :
    d ∈ l ∧ (∀ x ∈ l, key d ≤ key x) ∧
    (l.filter (fun x => decide (key x = key d))).getLast? = some d := by
  obtain ⟨t, ht⟩ := List.getLast?_eq_some_iff.mp h
  have hs := sorted_stableSortDescending key l
  have hp := perm_stableSortDescending key l
  have hf := filter_stableSortDescending key (key d) l
  rw [ht] at hs hp hf
  refine ⟨hp.mem_iff.mp (by simp), ?_, ?_⟩
  · intro x hx
    rcases List.mem_append.mp (hp.mem_iff.mpr hx) with hxt | hxd
    · exact (List.pairwise_append.mp hs).2.2 x hxt d (by simp)
    · rw [List.mem_singleton.mp hxd]
  · rw [← hf]
    simp

/-- The yields that carry a baseline, in enum order. -/
theorem mem_baselineYields (gc : CvGlobals) (i : Nat) :
    i ∈ (List.range gc.NUM_YIELD_TYPES).filter (fun iI => decide (iI ≤ YIELD_FAITH)) ↔
      i < gc.NUM_YIELD_TYPES ∧ i ≤ YIELD_FAITH := by
  simp [List.mem_filter]

theorem sortedDeviations_eq (gc : CvGlobals) (c : CvCity) :
    sortedDeviations gc c =
      stableSortDescending (fun d : Int × Int => d.2)
        (((List.range gc.NUM_YIELD_TYPES).filter (fun iI => decide (iI ≤ YIELD_FAITH))).map
          (fun iI => (Int.ofNat iI, yieldScore gc c iI))) := rfl

theorem sortedDeviations_ne_nil (gc : CvGlobals) (c : CvCity)
    (h6 : YIELD_FAITH < gc.NUM_YIELD_TYPES) : sortedDeviations gc c ≠ [] := by
  intro h
  have hp := perm_stableSortDescending (fun d : Int × Int => d.2)
    (((List.range gc.NUM_YIELD_TYPES).filter (fun iI => decide (iI ≤ YIELD_FAITH))).map
      (fun iI => (Int.ofNat iI, yieldScore gc c iI)))
  rw [← sortedDeviations_eq, h] at hp
  have hmem : (0 : Nat) ∈ (List.range gc.NUM_YIELD_TYPES).filter
      (fun iI => decide (iI ≤ YIELD_FAITH)) :=
    (mem_baselineYields gc 0).mpr ⟨by omega, Nat.zero_le _⟩
  have := hp.length_eq
  simp only [List.length_nil, List.length_map] at this
  have hpos := List.length_pos_of_mem hmem
  omega

/-- The front of the sorted deviations: a baseline yield of maximal score, and the one
with the lowest enum value among those of that score. -/
theorem sortedDeviations_head (gc : CvGlobals) (c : CvCity)
    (h6 : YIELD_FAITH < gc.NUM_YIELD_TYPES) :
    ∃ j : Nat, j ≤ YIELD_FAITH ∧
      (sortedDeviations gc c).head? = some (Int.ofNat j, yieldScore gc c j) ∧
      (∀ i : Nat, i ≤ YIELD_FAITH → yieldScore gc c i ≤ yieldScore gc c j) ∧
      (∀ i : Nat, i ≤ YIELD_FAITH → yieldScore gc c i = yieldScore gc c j → j ≤ i) := by
  cases hh : (sortedDeviations gc c).head? with
  | none =>
    exact absurd (List.head?_eq_none_iff.mp hh) (sortedDeviations_ne_nil gc c h6)
  | some d =>
    rw [sortedDeviations_eq] at hh
    obtain ⟨hmem, hmax, hfirst⟩ := head_stableSortDescending _ _ d hh
    rw [List.filter_map, List.head?_map] at hfirst
    cases hx : (List.filter ((fun x : Int × Int => decide (x.2 = d.2)) ∘
        fun iI => (Int.ofNat iI, yieldScore gc c iI))
        ((List.range gc.NUM_YIELD_TYPES).filter (fun iI => decide (iI ≤ YIELD_FAITH)))).head? with
    | none => rw [hx] at hfirst; simp at hfirst
    | some j =>
      rw [hx] at hfirst
      have hd : d = (Int.ofNat j, yieldScore gc c j) := by
        simpa using hfirst.symm
      obtain ⟨rest, hrest⟩ := List.head?_eq_some_iff.mp hx
      have hjx : j ∈ List.filter ((fun x : Int × Int => decide (x.2 = d.2)) ∘
          fun iI => (Int.ofNat iI, yieldScore gc c iI))
          ((List.range gc.NUM_YIELD_TYPES).filter (fun iI => decide (iI ≤ YIELD_FAITH))) := by
        rw [hrest]; exact List.mem_cons_self _ _
      have hjc := (mem_baselineYields gc j).mp (List.mem_filter.mp hjx).1
      have hpw : List.Pairwise (· < ·) (j :: rest) := by
        rw [← hrest]
        exact ((List.pairwise_lt_range gc.NUM_YIELD_TYPES).filter _).filter _
      refine ⟨j, hjc.2, by rw [hd], ?_, ?_⟩
      · intro i hi
        have := hmax (Int.ofNat i, yieldScore gc c i)
          (List.mem_map.mpr ⟨i, (mem_baselineYields gc i).mpr ⟨by omega, hi⟩, rfl⟩)
        rw [hd] at this
        exact this
      · intro i hi heq
        have hix : i ∈ j :: rest := by
          rw [← hrest]
          refine List.mem_filter.mpr ⟨(mem_baselineYields gc i).mpr ⟨by omega, hi⟩, ?_⟩
          simp [hd, heq]
        rcases List.mem_cons.mp hix with h1 | h1
        · omega
        · exact Nat.le_of_lt (List.rel_of_pairwise_cons hpw h1)

/-- The back of the sorted deviations: a baseline yield of minimal score, and the one
with the highest enum value among those of that score. -/
theorem sortedDeviations_getLast (gc : CvGlobals) (c : CvCity)
    (h6 : YIELD_FAITH < gc.NUM_YIELD_TYPES) :
    ∃ j : Nat, j ≤ YIELD_FAITH ∧
      (sortedDeviations gc c).getLast? = some (Int.ofNat j, yieldScore gc c j) ∧
      (∀ i : Nat, i ≤ YIELD_FAITH → yieldScore gc c j ≤ yieldScore gc c i) ∧
      (∀ i : Nat, i ≤ YIELD_FAITH → yieldScore gc c i = yieldScore gc c j → i ≤ j) := by
  cases hh : (sortedDeviations gc c).getLast? with
  | none =>
    exact absurd (List.getLast?_eq_none_iff.mp hh) (sortedDeviations_ne_nil gc c h6)
  | some d =>
    rw [sortedDeviations_eq] at hh
    obtain ⟨hmem, hmin, hlast⟩ := getLast_stableSortDescending _ _ d hh
    rw [List.filter_map, List.getLast?_map] at hlast
    cases hx : (List.filter ((fun x : Int × Int => decide (x.2 = d.2)) ∘
        fun iI => (Int.ofNat iI, yieldScore gc c iI))
        ((List.range gc.NUM_YIELD_TYPES).filter (fun iI => decide (iI ≤ YIELD_FAITH)))).getLast? with
    | none => rw [hx] at hlast; simp at hlast
    | some j =>
      rw [hx] at hlast
      have hd : d = (Int.ofNat j, yieldScore gc c j) := by
        simpa using hlast.symm
      obtain ⟨rest, hrest⟩ := List.getLast?_eq_some_iff.mp hx
      have hjx : j ∈ List.filter ((fun x : Int × Int => decide (x.2 = d.2)) ∘
          fun iI => (Int.ofNat iI, yieldScore gc c iI))
          ((List.range gc.NUM_YIELD_TYPES).filter (fun iI => decide (iI ≤ YIELD_FAITH))) := by
        rw [hrest]; simp
      have hjc := (mem_baselineYields gc j).mp (List.mem_filter.mp hjx).1
      have hpw : List.Pairwise (· < ·) (rest ++ [j]) := by
        rw [← hrest]
        exact ((List.pairwise_lt_range gc.NUM_YIELD_TYPES).filter _).filter _
      refine ⟨j, hjc.2, by rw [hd], ?_, ?_⟩
      · intro i hi
        have := hmin (Int.ofNat i, yieldScore gc c i)
          (List.mem_map.mpr ⟨i, (mem_baselineYields gc i).mpr ⟨by omega, hi⟩, rfl⟩)
        rw [hd] at this
        exact this
      · intro i hi heq
        have hix : i ∈ rest ++ [j] := by
          rw [← hrest]
          refine List.mem_filter.mpr ⟨(mem_baselineYields gc i).mpr ⟨by omega, hi⟩, ?_⟩
          simp [hd, heq]
        rcases List.mem_append.mp hix with h1 | h1
        · exact Nat.le_of_lt ((List.pairwise_append.mp hpw).2.2 i h1 j (by simp))
        · exact Nat.le_of_eq (List.mem_singleton.mp h1)

/-- The modifier loop of `PrecalcYieldStats` writes entry `k` of the array for every
yield `k` below the bound and leaves the other entries alone. -/
theorem getElem?_modifierLoop (g : Nat → Int) (n : Nat) (m : List Int) (k : Nat) :
    ((List.range n).foldl (fun m iI => m.set iI (g iI)) m)[k]? =
      if k < n then m[k]?.map (fun _ => g k) else m[k]? := by
  induction n with
  | zero => simp
  | succ n ih =>
    rw [List.range_succ, List.foldl_append]
    simp only [List.foldl_cons, List.foldl_nil]
    by_cases hkn : n = k
    · subst hkn
      rw [List.getElem?_set_self', ih]
      simp
      cases m[n]? <;> rfl
    · rw [List.getElem?_set_ne hkn, ih]
      by_cases hk : k < n
      · simp [hk, Nat.lt_succ_of_lt hk]
      · have : ¬ k < n + 1 := by omega
        simp [hk, this]

theorem yieldScore_eq (gc : CvGlobals) (c : CvCity) (i : Nat) (hi : i ≤ YIELD_FAITH) :
    yieldScore gc c i =
      (c.yieldRateTimes100 i).tdiv (max 1 c.m_iPopulation) -
        gc.expectedYieldPerPop100.getD i 0 := by
  unfold yieldScore yieldDelta
  simp only [hi, if_true]
  omega

end CvCityStrategyAI

/-! ## The claims on the yield statistics -/

/-- C13 (yield ranking): after `PrecalcYieldStats`, with the score of a baseline-bearing
yield being its actual minus its expected per-capita rate, the most abundant yield is a
yield of maximal score if that score is positive and `NO_YIELD` otherwise, and the most
deficient yield is a yield of minimal score if that score is negative and `NO_YIELD`
otherwise. -/
theorem C13_yield_ranking (gc : CvGlobals) (c : CvCity) (ai : CvCityStrategyAI)
    (h6 : YIELD_FAITH < gc.NUM_YIELD_TYPES) :
    (∀ i : Nat, i ≤ YIELD_FAITH → yieldScore gc c i =
      (c.yieldRateTimes100 i).tdiv (max 1 c.m_iPopulation) -
        gc.expectedYieldPerPop100.getD i 0) ∧
    ((∃ j : Nat, j ≤ YIELD_FAITH ∧
        (PrecalcYieldStats gc c ai).m_eMostAbundantYield = Int.ofNat j ∧
        (∀ i : Nat, i ≤ YIELD_FAITH → yieldScore gc c i ≤ yieldScore gc c j) ∧
        0 < yieldScore gc c j) ∨
      ((PrecalcYieldStats gc c ai).m_eMostAbundantYield = NO_YIELD ∧
        ∀ i : Nat, i ≤ YIELD_FAITH → yieldScore gc c i ≤ 0)) ∧
    ((∃ j : Nat, j ≤ YIELD_FAITH ∧
        (PrecalcYieldStats gc c ai).m_eMostDeficientYield = Int.ofNat j ∧
        (∀ i : Nat, i ≤ YIELD_FAITH → yieldScore gc c j ≤ yieldScore gc c i) ∧
        yieldScore gc c j < 0) ∨
      ((PrecalcYieldStats gc c ai).m_eMostDeficientYield = NO_YIELD ∧
        ∀ i : Nat, i ≤ YIELD_FAITH → 0 ≤ yieldScore gc c i)) := by
  refine ⟨fun i hi => yieldScore_eq gc c i hi, ?_, ?_⟩
  · obtain ⟨j, hj, hhead, hmax, _⟩ := sortedDeviations_head gc c h6
    by_cases hpos : 0 < yieldScore gc c j
    · left
      refine ⟨j, hj, ?_, hmax, hpos⟩
      simp [PrecalcYieldStats, hhead, hpos]
    · right
      refine ⟨?_, fun i hi => le_trans (hmax i hi) (by omega)⟩
      simp [PrecalcYieldStats, hhead, hpos]
  · obtain ⟨j, hj, hlast, hmin, _⟩ := sortedDeviations_getLast gc c h6
    by_cases hneg : yieldScore gc c j < 0
    · left
      refine ⟨j, hj, ?_, hmin, hneg⟩
      simp [PrecalcYieldStats, hlast, hneg]
    · right
      refine ⟨?_, fun i hi => le_trans (by omega) (hmin i hi)⟩
      simp [PrecalcYieldStats, hlast, hneg]

/-- Witness of C13: with rates 200, 400, 600, 2000, 2000, 1000 and population 4 the
scores are 0, 0, 0, 250, 250, 0; the most abundant yield is science (3) and there is no
deficient yield. -/
theorem C13_yield_ranking_witness :
    (PrecalcYieldStats (Sample.globals Sample.smallCity)
      (Sample.cityWithYields [200, 400, 600, 2000, 2000, 1000]) Sample.inactive).m_eMostAbundantYield
        = 3 ∧
    ((∃ j : Nat, j ≤ YIELD_FAITH ∧
        (PrecalcYieldStats (Sample.globals Sample.smallCity)
          (Sample.cityWithYields [200, 400, 600, 2000, 2000, 1000])
          Sample.inactive).m_eMostDeficientYield = Int.ofNat j ∧
        (∀ i : Nat, i ≤ YIELD_FAITH →
          yieldScore (Sample.globals Sample.smallCity)
            (Sample.cityWithYields [200, 400, 600, 2000, 2000, 1000]) j ≤
          yieldScore (Sample.globals Sample.smallCity)
            (Sample.cityWithYields [200, 400, 600, 2000, 2000, 1000]) i) ∧
        yieldScore (Sample.globals Sample.smallCity)
          (Sample.cityWithYields [200, 400, 600, 2000, 2000, 1000]) j < 0) ∨
      ((PrecalcYieldStats (Sample.globals Sample.smallCity)
          (Sample.cityWithYields [200, 400, 600, 2000, 2000, 1000])
          Sample.inactive).m_eMostDeficientYield = NO_YIELD ∧
        ∀ i : Nat, i ≤ YIELD_FAITH →
          0 ≤ yieldScore (Sample.globals Sample.smallCity)
            (Sample.cityWithYields [200, 400, 600, 2000, 2000, 1000]) i)) :=
  ⟨by decide,
   (C13_yield_ranking (Sample.globals Sample.smallCity)
     (Sample.cityWithYields [200, 400, 600, 2000, 2000, 1000]) Sample.inactive
     (by decide)).2.2⟩

/-- C14, as stated, fails: with rates 200, 400, 600, 2000, 2000, 1000 and population 4,
science (3) and culture (4) tie for the largest surplus (250) and the most abundant yield
is science, not `NO_YIELD`; with all rates zero, science, culture and faith tie for the
largest deficit (-250) and the most deficient yield is faith (5), not `NO_YIELD`. -/
theorem C14_counterexample :
    (yieldScore (Sample.globals Sample.smallCity)
        (Sample.cityWithYields [200, 400, 600, 2000, 2000, 1000]) 3 = 250 ∧
      yieldScore (Sample.globals Sample.smallCity)
        (Sample.cityWithYields [200, 400, 600, 2000, 2000, 1000]) 4 = 250 ∧
      (sortedDeviations (Sample.globals Sample.smallCity)
        (Sample.cityWithYields [200, 400, 600, 2000, 2000, 1000])).map Prod.snd =
          [250, 250, 0, 0, 0, 0] ∧
      (PrecalcYieldStats (Sample.globals Sample.smallCity)
        (Sample.cityWithYields [200, 400, 600, 2000, 2000, 1000])
        Sample.inactive).m_eMostAbundantYield = 3) ∧
    (yieldScore (Sample.globals Sample.smallCity) (Sample.cityWithYields []) 4 = -250 ∧
      yieldScore (Sample.globals Sample.smallCity) (Sample.cityWithYields []) 5 = -250 ∧
      (sortedDeviations (Sample.globals Sample.smallCity) (Sample.cityWithYields [])).map
        Prod.snd = [-50, -100, -150, -250, -250, -250] ∧
      (PrecalcYieldStats (Sample.globals Sample.smallCity) (Sample.cityWithYields [])
        Sample.inactive).m_eMostDeficientYield = 5) := by
  decide

/-- C14, amended (yield ties are broken by enum order): when the largest score of the
baseline-bearing yields is positive, the most abundant yield is the yield with the lowest
enum value among those of that score, also when two or more tie; when the smallest score
is negative, the most deficient yield is the yield with the highest enum value among
those of that score. -/
theorem C14_yield_ties_by_enum_order (gc : CvGlobals) (c : CvCity) (ai : CvCityStrategyAI)
    (h6 : YIELD_FAITH < gc.NUM_YIELD_TYPES) :
    (∀ j : Nat, j ≤ YIELD_FAITH →
      (∀ i : Nat, i ≤ YIELD_FAITH → yieldScore gc c i ≤ yieldScore gc c j) →
      0 < yieldScore gc c j →
      ∃ j0 : Nat, j0 ≤ YIELD_FAITH ∧
        (PrecalcYieldStats gc c ai).m_eMostAbundantYield = Int.ofNat j0 ∧
        yieldScore gc c j0 = yieldScore gc c j ∧
        ∀ i : Nat, i ≤ YIELD_FAITH → yieldScore gc c i = yieldScore gc c j → j0 ≤ i) ∧
    (∀ j : Nat, j ≤ YIELD_FAITH →
      (∀ i : Nat, i ≤ YIELD_FAITH → yieldScore gc c j ≤ yieldScore gc c i) →
      yieldScore gc c j < 0 →
      ∃ j0 : Nat, j0 ≤ YIELD_FAITH ∧
        (PrecalcYieldStats gc c ai).m_eMostDeficientYield = Int.ofNat j0 ∧
        yieldScore gc c j0 = yieldScore gc c j ∧
        ∀ i : Nat, i ≤ YIELD_FAITH → yieldScore gc c i = yieldScore gc c j → i ≤ j0) := by
  constructor
  · intro j hj hmaxj hpos
    obtain ⟨j0, hj0, hhead, hmax, hfirst⟩ := sortedDeviations_head gc c h6
    have heq : yieldScore gc c j0 = yieldScore gc c j :=
      le_antisymm (hmaxj j0 hj0) (hmax j hj)
    have hpos0 : 0 < yieldScore gc c j0 := by omega
    refine ⟨j0, hj0, ?_, heq, fun i hi h => hfirst i hi (h.trans heq.symm)⟩
    simp [PrecalcYieldStats, hhead, hpos0]
  · intro j hj hminj hneg
    obtain ⟨j0, hj0, hlast, hmin, hlst⟩ := sortedDeviations_getLast gc c h6
    have heq : yieldScore gc c j0 = yieldScore gc c j :=
      le_antisymm (hmin j hj) (hminj j0 hj0)
    have hneg0 : yieldScore gc c j0 < 0 := by omega
    refine ⟨j0, hj0, ?_, heq, fun i hi h => hlst i hi (h.trans heq.symm)⟩
    simp [PrecalcYieldStats, hlast, hneg0]

/-- Witness of C14 (amended): in the all-zero city faith (5) has the smallest score, so
the most deficient yield is the highest-numbered yield of score -250. -/
theorem C14_yield_ties_by_enum_order_witness :
    ∃ j0 : Nat, j0 ≤ YIELD_FAITH ∧
      (PrecalcYieldStats (Sample.globals Sample.smallCity) (Sample.cityWithYields [])
        Sample.inactive).m_eMostDeficientYield = Int.ofNat j0 ∧
      yieldScore (Sample.globals Sample.smallCity) (Sample.cityWithYields []) j0 =
        yieldScore (Sample.globals Sample.smallCity) (Sample.cityWithYields []) 3 ∧
      ∀ i : Nat, i ≤ YIELD_FAITH →
        yieldScore (Sample.globals Sample.smallCity) (Sample.cityWithYields []) i =
          yieldScore (Sample.globals Sample.smallCity) (Sample.cityWithYields []) 3 → i ≤ j0 :=
  (C14_yield_ties_by_enum_order (Sample.globals Sample.smallCity) (Sample.cityWithYields [])
    Sample.inactive (by decide)).2 3 (by decide) (by decide) (by decide)

/-- C15 (yield modifier): after `PrecalcYieldStats` the stored modifier of every yield is
`max(0, expected - actual)` per capita, where the actual per-capita rate is the rate
(times 100) divided by `max(1, population)` in integer arithmetic and the expected rate
of a yield without a baseline is 100; the modifier is never negative and the divisor is
at least 1 whatever the population is. -/
theorem C15_yield_modifier (gc : CvGlobals) (c : CvCity) (ai : CvCityStrategyAI) (k : Nat)
    (hk : k < gc.NUM_YIELD_TYPES) (hlen : k < ai.m_aiYieldModifier.length) :
    (PrecalcYieldStats gc c ai).m_aiYieldModifier[k]? =
      some (max 0 ((if k ≤ YIELD_FAITH then gc.expectedYieldPerPop100.getD k 0 else 100) -
        (c.yieldRateTimes100 k).tdiv (max 1 c.m_iPopulation))) ∧
    0 ≤ (PrecalcYieldStats gc c ai).m_aiYieldModifier.getD k 0 ∧
    1 ≤ max 1 c.m_iPopulation := by
  have hval : (PrecalcYieldStats gc c ai).m_aiYieldModifier[k]? =
      some (max 0 (yieldDelta gc c k)) := by
    simp only [PrecalcYieldStats]
    rw [getElem?_modifierLoop (fun iI => if yieldDelta gc c iI > 0 then yieldDelta gc c iI else 0),
      if_pos hk, List.getElem?_eq_getElem hlen]
    simp only [Option.map_some']
    congr 1
    split_ifs with h <;> omega
  refine ⟨hval, ?_, le_max_left 1 _⟩
  rw [List.getD_eq_getElem?_getD, hval]
  exact le_max_left 0 _

/-- Witness of C15: population 0 and a gold rate of 700 give a gold modifier of 0 (the
rate is divided by 1), and a production rate of 30 gives a production modifier of 70. -/
theorem C15_yield_modifier_witness :
    (PrecalcYieldStats (Sample.globals Sample.smallCity)
      { Sample.cityWithYields [0, 30, 700] with m_iPopulation := 0 }
      Sample.inactive).m_aiYieldModifier[1]? = some 70 ∧
    (PrecalcYieldStats (Sample.globals Sample.smallCity)
      { Sample.cityWithYields [0, 30, 700] with m_iPopulation := 0 }
      Sample.inactive).m_aiYieldModifier[2]? = some 0 :=
  ⟨((C15_yield_modifier (Sample.globals Sample.smallCity)
      { Sample.cityWithYields [0, 30, 700] with m_iPopulation := 0 } Sample.inactive 1
      (by decide) (by decide)).1).trans (by decide),
   ((C15_yield_modifier (Sample.globals Sample.smallCity)
      { Sample.cityWithYields [0, 30, 700] with m_iPopulation := 0 } Sample.inactive 2
      (by decide) (by decide)).1).trans (by decide)⟩

/-! ## Lemmas on the trigger dispatch and on the specialization -/

namespace CvCityStrategyAI

theorem checkTriggers_unknown (gc : CvGlobals) (c : CvCity) (ai : CvCityStrategyAI)
    (e : Nat) (p : CvAICityStrategyEntry) (hname : p.m_strType ∉ knownStrategyNames) :
    checkTriggers gc c ai e p = false := by
  simp only [knownStrategyNames, List.mem_append, List.mem_cons, List.mem_singleton,
    List.not_mem_nil, or_false, not_or] at hname
  obtain ⟨⟨h1, h2, h3, h4⟩, h5⟩ := hname
  simp [checkTriggers, h1, h2, h3, h4, h5]

theorem getElem?_specializationFlavorLoop (p : CvCitySpecializationXMLEntry) (b : Bool)
    (n : Nat) (fl : List Int) (k : Nat) :
    (specializationFlavorLoop p b n fl)[k]? =
      if k < n then
        fl[k]?.map (fun x => if b then x + p.GetFlavorValue k else x - p.GetFlavorValue k)
      else fl[k]? := by
  induction n with
  | zero => simp [specializationFlavorLoop]
  | succ n ih =>
    simp only [specializationFlavorLoop]
    by_cases hv : p.GetFlavorValue n = 0
    · simp only [hv, ne_eq, not_true_eq_false, if_false, ih]
      by_cases hk : k < n
      · simp [hk, Nat.lt_succ_of_lt hk]
      · by_cases hkn : k = n
        · subst hkn
          cases b <;> cases fl[k]? <;> simp [hv]
        · have : ¬ k < n + 1 := by omega
          simp [hk, this]
    · simp only [ne_eq, hv, not_false_eq_true, if_true]
      by_cases hkn : n = k
      · subst hkn
        have h1 : (specializationFlavorLoop p b n fl)[n]? = fl[n]? := by simp [ih]
        cases b <;> simp [List.getElem?_set_self', h1] <;> cases fl[n]? <;> simp
      · cases b <;> simp only [List.getElem?_set_ne hkn, ih, Bool.false_eq_true, if_false, if_true]
        all_goals
          by_cases hk : k < n
          · simp [hk, Nat.lt_succ_of_lt hk]
          · have : ¬ k < n + 1 := by omega
            simp [hk, this]

/-- Entry `k` of the accumulator after `SpecializationFlavorChange`: the contribution of
the specialization is added or subtracted for the flavors below the flavor count. -/
theorem getElem?_SpecializationFlavorChange (gc : CvGlobals)
    (info : Int → Option CvCitySpecializationXMLEntry) (ai : CvCityStrategyAI) (b : Bool)
    (e : Int) (k : Nat) :
    (SpecializationFlavorChange gc info ai b e).m_piLatestFlavorValues[k]? =
      if k < gc.numFlavorTypes then
        ai.m_piLatestFlavorValues[k]?.map
          (fun x => if b then x + specializationFlavor info e k
            else x - specializationFlavor info e k)
      else ai.m_piLatestFlavorValues[k]? := by
  unfold SpecializationFlavorChange specializationFlavor
  by_cases he : e = NO_CITY_SPECIALIZATION
  · simp only [he, ne_eq, not_true_eq_false, if_false, if_true]
    split_ifs <;> cases ai.m_piLatestFlavorValues[k]? <;> cases b <;> simp
  · simp only [he, ne_eq, not_false_eq_true, if_true, if_false]
    cases hi : info e with
    | none =>
      simp only []
      split_ifs <;> cases ai.m_piLatestFlavorValues[k]? <;> cases b <;> simp
    | some q =>
      simp only []
      rw [getElem?_specializationFlavorLoop]

theorem SpecializationFlavorChange_specialization (gc : CvGlobals)
    (info : Int → Option CvCitySpecializationXMLEntry) (ai : CvCityStrategyAI) (b : Bool)
    (e : Int) :
    (SpecializationFlavorChange gc info ai b e).m_eSpecialization = ai.m_eSpecialization := by
  unfold SpecializationFlavorChange
  split_ifs
  · cases info e <;> rfl
  · rfl

/-- Entry `k` of the accumulator after a `SetSpecialization` that changes the
specialization. -/
theorem getElem?_SetSpecialization (gc : CvGlobals)
    (info : Int → Option CvCitySpecializationXMLEntry) (ai : CvCityStrategyAI) (e : Int)
    (he : e ≠ ai.m_eSpecialization) (k : Nat) :
    (SetSpecialization gc info ai e).2.m_piLatestFlavorValues[k]? =
      if k < gc.numFlavorTypes then
        ai.m_piLatestFlavorValues[k]?.map
          (fun x => x + (specializationFlavor info e k -
            specializationFlavor info ai.m_eSpecialization k))
      else ai.m_piLatestFlavorValues[k]? := by
  unfold SetSpecialization
  simp only [he, ne_eq, not_false_eq_true, if_true]
  rw [getElem?_SpecializationFlavorChange]
  show (if k < gc.numFlavorTypes then
      (SpecializationFlavorChange gc info ai false ai.m_eSpecialization).m_piLatestFlavorValues[k]?.map
        (fun x => if true = true then x + specializationFlavor info e k
          else x - specializationFlavor info e k)
    else (SpecializationFlavorChange gc info ai false ai.m_eSpecialization).m_piLatestFlavorValues[k]?)
    = _
  rw [getElem?_SpecializationFlavorChange]
  by_cases hk : k < gc.numFlavorTypes
  · simp only [hk, if_true]
    cases ai.m_piLatestFlavorValues[k]? with
    | none => rfl
    | some x =>
      simp only [Option.map_some', Bool.false_eq_true, if_false]
      congr 1
      omega
  · simp only [hk, if_false]

theorem SetSpecialization_specialization (gc : CvGlobals)
    (info : Int → Option CvCitySpecializationXMLEntry) (ai : CvCityStrategyAI) (e : Int) :
    (SetSpecialization gc info ai e).2.m_eSpecialization = e := by
  unfold SetSpecialization
  by_cases he : e = ai.m_eSpecialization
  · simp [he]
  · simp only [he, ne_eq, not_false_eq_true, if_true]
    rw [SpecializationFlavorChange_specialization]

end CvCityStrategyAI

/-! ## The claims on the trigger dispatch and on the specialization -/

/-- C19, as stated, fails: a strategy whose type name is none of the names the dispatch
compares against is evaluated without any error as "should not be active", although the
helper predicates of the city would all answer `true`; `DoTurn` completes and leaves the
inactive strategy as it is. -/
theorem C19_counterexample :
    Sample.unknownStrategy.m_strType ∉ knownStrategyNames ∧
    (Sample.eagerCity 10 3).IsTestCityStrategy Sample.unknownStrategy.m_strType 0
      Sample.inactive = true ∧
    bTestCityStrategyStart (Sample.eagerCity 10 3) Sample.unknownStrategy false = true ∧
    checkTriggers (Sample.globals Sample.unknownStrategy) (Sample.eagerCity 10 3)
      Sample.inactive 0 Sample.unknownStrategy = false ∧
    DoTurnStrategy (Sample.globals Sample.unknownStrategy) (Sample.eagerCity 10 3)
      Sample.inactive 0 = Sample.inactive := by
  decide

/-- C19, amended (unrecognized strategy identifier): when the trigger dispatch of
`DoTurn` meets a strategy whose type name matches none of the known strategy names, no
error is raised; the trigger result stays `false` and the strategy is evaluated as "should
not be active": `DoTurn` leaves such a strategy inactive if it was inactive, and if it was
active and is not skipped for a minor-civ owner, `DoTurn` ends it when its end test is due
(flag off, turn-adopted -1, flavors subtracted by the end arm) and leaves it alone when
the end test is not due. -/
theorem C19_unrecognized_strategy_is_inactive (gc : CvGlobals) (c : CvCity)
    (ai : CvCityStrategyAI) (e : Nat) (p : CvAICityStrategyEntry)
    (hentry : gc.GetEntry e = some p)
    (hname : p.m_strType ∉ knownStrategyNames) :
    checkTriggers gc c ai e p = false ∧
    bStrategyShouldBeActive gc c ai e p = false ∧
    (ai.IsUsingCityStrategy e = false →
      DoTurnStrategy gc c ai e = ai ∧ (DoTurn gc c ai).IsUsingCityStrategy e = false) ∧
    (ai.IsUsingCityStrategy e = true → skipForMinorCiv c p = false →
      bTestCityStrategyEnd c.gameTurn p true (ai.GetTurnCityStrategyAdopted e) = true →
      DoTurnStrategy gc c ai e = endCityStrategy gc c ai e p ∧
      (DoTurn gc c ai).IsUsingCityStrategy e = false ∧
      (DoTurn gc c ai).GetTurnCityStrategyAdopted e = -1) ∧
    (ai.IsUsingCityStrategy e = true →
      bTestCityStrategyEnd c.gameTurn p true (ai.GetTurnCityStrategyAdopted e) = false →
      DoTurnStrategy gc c ai e = ai ∧ (DoTurn gc c ai).IsUsingCityStrategy e = true) := by
  have hsh : ∀ s : CvCityStrategyAI, bStrategyShouldBeActive gc c s e p = false := by
    intro s
    unfold bStrategyShouldBeActive
    rw [checkTriggers_unknown gc c s e p hname]
    split_ifs <;> rfl
  have hbody : ∀ s : CvCityStrategyAI, s.IsUsingCityStrategy e = false →
      DoTurnStrategy gc c s e = s := by
    intro s hs
    apply DoTurnStrategy_unchanged gc c s e p hentry
    · rintro ⟨h1, _⟩
      rw [hsh s] at h1
      exact Bool.noConfusion h1
    · rintro ⟨_, h2⟩
      have := using_of_testEnd h2
      rw [hs] at this
      exact Bool.noConfusion this
  refine ⟨checkTriggers_unknown gc c ai e p hname, hsh ai, fun hin => ⟨hbody ai hin, ?_⟩,
    fun hact hskip hend => ?_, fun hact hend => ?_⟩
  · have key := strategyLoop_rule gc c e
      (fun s => s.IsUsingCityStrategy e = false)
      (fun s => s.IsUsingCityStrategy e = false)
      (fun j s hj hs => (DoTurnStrategy_frame gc c s j e (fun h => hj h.symm)).1.trans hs)
      (fun j s hj hs => (DoTurnStrategy_frame gc c s j e (fun h => hj h.symm)).1.trans hs)
      (fun s hs => by rw [hbody s hs]; exact hs)
      gc.GetNumAICityStrategies (PrecalcYieldStats gc c ai) hin
    unfold DoTurn
    exact key.1 (GetEntry_lt gc e p hentry)
  · have hends : ∀ s : CvCityStrategyAI, s.IsUsingCityStrategy e = true →
        s.GetTurnCityStrategyAdopted e = ai.GetTurnCityStrategyAdopted e →
        DoTurnStrategy gc c s e = endCityStrategy gc c s e p := by
      intro s hs1 hs2
      apply DoTurnStrategy_end gc c s e p hentry hskip (hsh s)
      rw [hs1, hs2]
      exact hend
    have key := strategyLoop_rule gc c e
      (fun s => s.IsUsingCityStrategy e = true ∧
        s.GetTurnCityStrategyAdopted e = ai.GetTurnCityStrategyAdopted e)
      (fun s => s.IsUsingCityStrategy e = false ∧ s.GetTurnCityStrategyAdopted e = -1)
      (fun j s hj hs => by
        obtain ⟨f1, f2⟩ := DoTurnStrategy_frame gc c s j e (fun h => hj h.symm)
        exact ⟨f1.trans hs.1, f2.trans hs.2⟩)
      (fun j s hj hs => by
        obtain ⟨f1, f2⟩ := DoTurnStrategy_frame gc c s j e (fun h => hj h.symm)
        exact ⟨f1.trans hs.1, f2.trans hs.2⟩)
      (fun s hs => by
        rw [hends s hs.1 hs.2]
        exact ⟨IsUsing_endCityStrategy gc c s e p, GetTurn_endCityStrategy gc c s e p hs.1⟩)
      gc.GetNumAICityStrategies (PrecalcYieldStats gc c ai) ⟨hact, rfl⟩
    refine ⟨hends ai hact rfl, ?_⟩
    unfold DoTurn
    exact key.1 (GetEntry_lt gc e p hentry)
  · refine ⟨DoTurnStrategy_active_noEnd gc c ai e hact (fun q hq => ?_),
      (DoTurn_keeps_active gc c ai e hact (fun q hq => ?_)).1⟩
    all_goals
      rw [hentry] at hq
      obtain rfl := Option.some.inj hq
      exact hend

/-- Witness of C19 (amended): the unknown strategy of the sample catalog stays inactive
through a whole `DoTurn`, and when it is active since turn 10 a `DoTurn` at turn 14, where
its end test is due, ends it although every helper predicate would answer `true`. -/
theorem C19_unrecognized_strategy_is_inactive_witness :
    (DoTurn (Sample.globals Sample.unknownStrategy) (Sample.eagerCity 10 3)
      Sample.inactive).IsUsingCityStrategy 0 = false ∧
    ((DoTurn (Sample.globals Sample.unknownStrategy) (Sample.eagerCity 14 3)
        Sample.active).IsUsingCityStrategy 0 = false ∧
      (DoTurn (Sample.globals Sample.unknownStrategy) (Sample.eagerCity 14 3)
        Sample.active).GetTurnCityStrategyAdopted 0 = -1) :=
  ⟨((C19_unrecognized_strategy_is_inactive (Sample.globals Sample.unknownStrategy)
      (Sample.eagerCity 10 3) Sample.inactive 0 Sample.unknownStrategy (by decide)
      (by decide)).2.2.1 (by decide)).2,
   ((C19_unrecognized_strategy_is_inactive (Sample.globals Sample.unknownStrategy)
      (Sample.eagerCity 14 3) Sample.active 0 Sample.unknownStrategy (by decide)
      (by decide)).2.2.2.1 (by decide) (by decide) (by decide)).2⟩

/-- C20 (specialization swap): `SetSpecialization(e)` with `e` different from the current
specialization `s` returns `true`, makes `e` the current specialization and changes each
flavor entry by exactly the flavor value of `e` minus the flavor value of `s`, a
`NO_CITY_SPECIALIZATION` side (or one without a catalog entry) contributing zero; with
`e = s` it returns `false` and changes nothing; switching from `s` to `e` and back to `s`
restores every flavor entry. -/
theorem C20_specialization_swap (gc : CvGlobals)
    (info : Int → Option CvCitySpecializationXMLEntry) (ai : CvCityStrategyAI) (e : Int) :
    (e ≠ ai.m_eSpecialization →
      (SetSpecialization gc info ai e).1 = true ∧
      (SetSpecialization gc info ai e).2.m_eSpecialization = e ∧
      ∀ (k : Nat) (x : Int), k < gc.numFlavorTypes → ai.m_piLatestFlavorValues[k]? = some x →
        (SetSpecialization gc info ai e).2.m_piLatestFlavorValues[k]? =
          some (x + (specializationFlavor info e k -
            specializationFlavor info ai.m_eSpecialization k))) ∧
    (e = ai.m_eSpecialization → SetSpecialization gc info ai e = (false, ai)) ∧
    (SetSpecialization gc info (SetSpecialization gc info ai e).2
      ai.m_eSpecialization).2.m_piLatestFlavorValues = ai.m_piLatestFlavorValues := by
  refine ⟨?_, ?_, ?_⟩
  · intro he
    refine ⟨?_, SetSpecialization_specialization gc info ai e, ?_⟩
    · simp [SetSpecialization, he]
    · intro k x hk hx
      rw [getElem?_SetSpecialization gc info ai e he, if_pos hk, hx]
      rfl
  · intro he
    simp [SetSpecialization, he]
  · by_cases he : e = ai.m_eSpecialization
    · have h1 : SetSpecialization gc info ai e = (false, ai) := by
        simp [SetSpecialization, he]
      rw [h1]
      simp [SetSpecialization]
    · have hback : ai.m_eSpecialization ≠
          (SetSpecialization gc info ai e).2.m_eSpecialization := by
        rw [SetSpecialization_specialization]
        exact fun h => he h.symm
      apply List.ext_getElem?
      intro k
      rw [getElem?_SetSpecialization gc info _ _ hback, SetSpecialization_specialization,
        getElem?_SetSpecialization gc info ai e he]
      by_cases hk : k < gc.numFlavorTypes
      · simp only [hk, if_true]
        cases ai.m_piLatestFlavorValues[k]? with
        | none => rfl
        | some x =>
          simp only [Option.map_some']
          congr 1
          omega
      · simp only [hk, if_false]

/-- Witness of C20: from specialization 0 (flavor values 5, 0, 1) to specialization 1
(flavor values 0, 2, -4) the flavors 10, 20, 30 become 5, 22, 25, and back they are
10, 20, 30 again. -/
theorem C20_specialization_swap_witness :
    (SetSpecialization (Sample.globals Sample.smallCity) Sample.specializationInfo
      Sample.specialized 1).2.m_piLatestFlavorValues = [5, 22, 25] ∧
    (SetSpecialization (Sample.globals Sample.smallCity) Sample.specializationInfo
      (SetSpecialization (Sample.globals Sample.smallCity) Sample.specializationInfo
        Sample.specialized 1).2 0).2.m_piLatestFlavorValues = [10, 20, 30] :=
  ⟨by decide,
   (C20_specialization_swap (Sample.globals Sample.smallCity) Sample.specializationInfo
     Sample.specialized 1).2.2⟩

/-! ## Lemmas on the weighted draw -/

namespace CvWeightedVector

theorem pickByWeight_mem {α : Type} (v : CvWeightedVector α) (r : Int) (x : α)
    (h : pickByWeight v r = some x) : ∃ w, (x, w) ∈ v := by
  induction v generalizing r with
  | nil => simp [pickByWeight] at h
  | cons a t ih =>
    obtain ⟨y, w⟩ := a
    simp only [pickByWeight] at h
    split_ifs at h with hlt
    · have hxy : y = x := Option.some.inj h
      exact ⟨w, by rw [hxy]; exact List.mem_cons_self _ _⟩
    · obtain ⟨w', hw'⟩ := ih (r - w) h
      exact ⟨w', List.mem_cons_of_mem _ hw'⟩

theorem pickByWeight_isSome {α : Type} (v : CvWeightedVector α) (r : Int)
    (h0 : 0 ≤ r) (h1 : r < GetTotalWeight v) : ∃ x, pickByWeight v r = some x := by
  induction v generalizing r with
  | nil => simp [GetTotalWeight] at h1; omega
  | cons a t ih =>
    obtain ⟨y, w⟩ := a
    simp only [pickByWeight]
    by_cases hlt : r < w
    · exact ⟨y, by simp [hlt]⟩
    · simp only [hlt, if_false]
      apply ih (r - w) (by omega)
      simp only [GetTotalWeight, List.map_cons, List.sum_cons] at h1 ⊢
      omega

theorem ChooseByWeight_mem {α σ : Type} (urand : Nat → σ → Nat) (v : CvWeightedVector α)
    (seed : σ) (x : α) (h : ChooseByWeight urand v seed = some x) : ∃ w, (x, w) ∈ v := by
  unfold ChooseByWeight at h
  split_ifs at h
  exact pickByWeight_mem v _ x h

theorem ChooseByWeight_isSome {α σ : Type} (urand : Nat → σ → Nat) (v : CvWeightedVector α)
    (seed : σ) (hurand : ∀ (n : Nat) (s : σ), 0 < n → urand n s < n)
    (hpos : 0 < GetTotalWeight v) : ∃ x, ChooseByWeight urand v seed = some x := by
  unfold ChooseByWeight
  simp only [gt_iff_lt, hpos, if_true]
  apply pickByWeight_isSome
  · exact Int.ofNat_nonneg _
  · have hn : 0 < (GetTotalWeight v).toNat := by omega
    have := hurand (GetTotalWeight v).toNat seed hn
    have h2 : ((GetTotalWeight v).toNat : Int) = GetTotalWeight v := Int.toNat_of_nonneg (by omega)
    have h3 : (Int.ofNat (urand (GetTotalWeight v).toNat seed)) <
        ((GetTotalWeight v).toNat : Int) := Int.ofNat_lt.mpr this
    omega

theorem ChooseAbovePercentThreshold_mem {α σ : Type} (urand : Nat → σ → Nat)
    (v : CvWeightedVector α) (iPercent : Int) (seed : σ) (x : α)
    (h : ChooseAbovePercentThreshold urand v iPercent seed = some x) : ∃ w, (x, w) ∈ v := by
  unfold ChooseAbovePercentThreshold at h
  obtain ⟨w, hw⟩ := ChooseByWeight_mem urand _ seed x h
  exact ⟨w, (List.mem_filter.mp hw).1⟩

theorem foldl_max_mem (w : Int) (ws : List Int) : ws.foldl max w ∈ w :: ws := by
  induction ws generalizing w with
  | nil => simp
  | cons a t ih =>
    simp only [List.foldl_cons]
    rcases List.mem_cons.mp (ih (max w a)) with h | h
    · rcases max_choice w a with hm | hm
      · rw [h, hm]; exact List.mem_cons_self _ _
      · rw [h, hm]; exact List.mem_cons_of_mem _ (List.mem_cons_self _ _)
    · exact List.mem_cons_of_mem _ (List.mem_cons_of_mem _ h)

theorem maxWeight_mem {α : Type} (v : CvWeightedVector α) (hne : v ≠ []) :
    ∃ x ∈ v, x.2 = maxWeight v := by
  unfold maxWeight
  cases hv : v.map Prod.snd with
  | nil => simp at hv; exact absurd hv hne
  | cons w ws =>
    simp only []
    have hm := foldl_max_mem w ws
    rw [← hv] at hm
    obtain ⟨x, hx, hx2⟩ := List.mem_map.mp hm
    exact ⟨x, hx, hx2⟩

theorem GetTotalWeight_pos {α : Type} (v : CvWeightedVector α) (hne : v ≠ [])
    (hpos : ∀ x ∈ v, 0 < x.2) : 0 < GetTotalWeight v := by
  induction v with
  | nil => exact absurd rfl hne
  | cons a t ih =>
    simp only [GetTotalWeight, List.map_cons, List.sum_cons]
    have ha := hpos a (List.mem_cons_self _ _)
    by_cases ht : t = []
    · subst ht; simp; exact ha
    · have := ih ht (fun x hx => hpos x (List.mem_cons_of_mem _ hx))
      simp only [GetTotalWeight] at this
      omega

theorem GetTotalWeight_nil {α : Type} : GetTotalWeight ([] : CvWeightedVector α) = 0 := rfl

/-- On a non-empty list of positive weights, with a percentage of at most 100 and a random
source that stays below its limit, the percentile draw yields an item of the list. -/
theorem ChooseAbovePercentThreshold_isSome {α σ : Type} (urand : Nat → σ → Nat)
    (v : CvWeightedVector α) (iPercent : Int) (seed : σ)
    (hurand : ∀ (n : Nat) (s : σ), 0 < n → urand n s < n)
    (hpct : iPercent ≤ 100) (hne : v ≠ []) (hpos : ∀ x ∈ v, 0 < x.2) :
    ∃ x, ChooseAbovePercentThreshold urand v iPercent seed = some x := by
  unfold ChooseAbovePercentThreshold
  apply ChooseByWeight_isSome urand _ seed hurand
  obtain ⟨m, hm, hm2⟩ := maxWeight_mem v hne
  have hmpos : 0 < maxWeight v := hm2 ▸ hpos m hm
  have hcut : (maxWeight v * iPercent).tdiv 100 ≤ maxWeight v := by
    have hle : maxWeight v * iPercent ≤ maxWeight v * 100 :=
      Int.mul_le_mul_of_nonneg_left hpct (le_of_lt hmpos)
    generalize maxWeight v * iPercent = a at hle
    by_cases ha : 0 ≤ a
    · rw [Int.tdiv_eq_ediv ha (by omega)]
      omega
    · have h1 : a.tdiv 100 = -((-a).tdiv 100) := by
        rw [Int.neg_tdiv]; omega
      have h2 : 0 ≤ (-a).tdiv 100 := Int.tdiv_nonneg (by omega) (by omega)
      omega
  apply GetTotalWeight_pos
  · intro hnil
    have : m ∈ v.filter (fun x => decide ((maxWeight v * iPercent).tdiv 100 ≤ x.2)) :=
      List.mem_filter.mpr ⟨hm, by simp [hm2, hcut]⟩
    rw [hnil] at this
    exact absurd this (List.not_mem_nil _)
  · intro x hx
    exact hpos x (List.mem_filter.mp hx).1

end CvWeightedVector

/-! ## Lemmas on ChooseProduction and ChooseHurry -/

namespace CvCityStrategyAI
open CityAIBuildableType

theorem ChooseProduction_aborts {σ : Type} (S : CvSeederOps σ) (urand : Nat → σ → Nat)
    (ctx : CvProductionContext) (pCity : CvCity) (eIgnoreBldg eIgnoreUnit : Int)
    (bInterruptBuildings bInterruptWonders : Bool) (st : CvProductionState)
    (h : ChooseProduction_alreadyBuildingMilitaryUnit ctx bInterruptBuildings = true ∨
      ChooseProduction_buildingWonder ctx bInterruptWonders = true) :
    ChooseProduction S urand ctx pCity eIgnoreBldg eIgnoreUnit bInterruptBuildings
      bInterruptWonders st = st := by
  unfold ChooseProduction
  rcases h with h | h
  · simp [h]
  · simp [h]

/-- The fields of the state after a call of `ChooseProduction` that passes the two
guards. -/
theorem ChooseProduction_fields {σ : Type} (S : CvSeederOps σ) (urand : Nat → σ → Nat)
    (ctx : CvProductionContext) (pCity : CvCity) (eIgnoreBldg eIgnoreUnit : Int)
    (bInterruptBuildings bInterruptWonders : Bool) (st : CvProductionState)
    (hg1 : ChooseProduction_alreadyBuildingMilitaryUnit ctx bInterruptBuildings = false)
    (hg2 : ChooseProduction_buildingWonder ctx bInterruptWonders = false) :
    (ChooseProduction S urand ctx pCity eIgnoreBldg eIgnoreUnit bInterruptBuildings
        bInterruptWonders st).m_Buildables =
      ChooseProduction_buildables ctx eIgnoreBldg eIgnoreUnit st ∧
    (ChooseProduction S urand ctx pCity eIgnoreBldg eIgnoreUnit bInterruptBuildings
        bInterruptWonders st).m_BuildablesPrecheck =
      ChooseProduction_precheck ctx eIgnoreBldg eIgnoreUnit st ∧
    (ChooseProduction S urand ctx pCity eIgnoreBldg eIgnoreUnit bInterruptBuildings
        bInterruptWonders st).pushOrderCalls =
      (if (ChooseProduction_buildables ctx eIgnoreBldg eIgnoreUnit st).length > 0 then
        st.pushOrderCalls ++
          (ChooseProduction_order ctx
            (ChooseProduction_selection S urand ctx pCity bInterruptBuildings
              (ChooseProduction_buildables ctx eIgnoreBldg eIgnoreUnit st))).toList
      else st.pushOrderCalls) ∧
    (ChooseProduction S urand ctx pCity eIgnoreBldg eIgnoreUnit bInterruptBuildings
        bInterruptWonders st).m_iNumberOfTimesSettlerBuildSkippedOver =
      (if (decide ((ChooseProduction_buildables ctx eIgnoreBldg eIgnoreUnit st).length > 0) &&
            ChooseProduction_bPushedOrderForSettler ctx
              (ChooseProduction_selection S urand ctx pCity bInterruptBuildings
                (ChooseProduction_buildables ctx eIgnoreBldg eIgnoreUnit st))) = true ∨
          HaveSettlerInBuildables ctx
            (ChooseProduction_buildables ctx eIgnoreBldg eIgnoreUnit st) = false then 0
      else st.m_iNumberOfTimesSettlerBuildSkippedOver + 1) := by
  unfold ChooseProduction ChooseProduction_buildables ChooseProduction_precheck
  simp only [hg1, hg2, Bool.false_eq_true, if_false]
  generalize ChooseProduction_final ctx
    (CvWeightedVector.StableSortItems (ChooseProduction_generate ctx eIgnoreBldg eIgnoreUnit
      st.m_iNumberOfTimesOpsBuildSkippedOver).m_BuildablesPrecheck) = bl
  generalize ChooseProduction_selection S urand ctx pCity bInterruptBuildings bl = sel
  by_cases hlen : bl.length > 0
  · simp only [hlen, if_true, decide_True, Bool.true_and]
    cases horder : ChooseProduction_order ctx sel <;>
      by_cases hset : ChooseProduction_bPushedOrderForSettler ctx sel = true ∨
        HaveSettlerInBuildables ctx bl = false <;>
      simp only [hset, if_true, if_false, Option.toList, List.append_nil] <;>
      (refine ⟨?_, ?_, ?_, ?_⟩ <;> first | rfl | trivial)
  · simp only [hlen, if_false, decide_False, Bool.false_and, Bool.false_eq_true, false_or]
    by_cases hset : HaveSettlerInBuildables ctx bl = false <;>
      simp only [hset, if_true, if_false] <;>
      (refine ⟨?_, ?_, ?_, ?_⟩ <;> first | rfl | trivial)

end CvCityStrategyAI

namespace CvCityStrategyAI
open CityAIBuildableType

theorem ChooseProduction_inertia_some (ctx : CvProductionContext) (bInterruptBuildings : Bool)
    (iTopWeight : Int) (l : CvWeightedVector CvCityBuildable) (b : CvCityBuildable)
    (h : ChooseProduction_inertia ctx bInterruptBuildings iTopWeight l = some b) :
    ChooseProduction_continues ctx bInterruptBuildings b = true ∧ ∃ w, (b, w) ∈ l := by
  induction l with
  | nil => simp [ChooseProduction_inertia] at h
  | cons a t ih =>
    obtain ⟨y, w⟩ := a
    simp only [ChooseProduction_inertia] at h
    split_ifs at h with h1 h2
    · have hy : y = b := Option.some.inj h
      subst hy
      exact ⟨h2, w, List.mem_cons_self _ _⟩
    · obtain ⟨hc, w', hw'⟩ := ih h
      exact ⟨hc, w', List.mem_cons_of_mem _ hw'⟩

theorem ChooseProduction_order_fresh (ctx : CvProductionContext) :
    ChooseProduction_order ctx CvCityBuildable.fresh = none := rfl

/-- Every `pushOrder` call of `ChooseProduction` names the index of its selection and has
the "pop" flag set and the "save" and "append" flags cleared. -/
theorem ChooseProduction_order_some (ctx : CvProductionContext) (b : CvCityBuildable)
    (o : CvOrderCall) (h : ChooseProduction_order ctx b = some o) :
    o.iData1 = b.m_iIndex ∧ o.bPop = true ∧ o.bSave = false ∧ o.bAppend = false := by
  unfold ChooseProduction_order at h
  cases hk : b.m_eBuildableType <;> simp only [hk] at h
  · exact Option.noConfusion h
  all_goals first
    | (cases hu : ctx.getUnitInfo b.m_iIndex with
        | none => rw [hu] at h; exact Option.noConfusion h
        | some u =>
          rw [hu] at h
          have := Option.some.inj h
          subst this
          exact ⟨rfl, rfl, rfl, rfl⟩)
    | (obtain rfl := Option.some.inj h
       exact ⟨rfl, rfl, rfl, rfl⟩)

theorem ChooseProduction_selection_of_inertia {σ : Type} (S : CvSeederOps σ)
    (urand : Nat → σ → Nat) (ctx : CvProductionContext) (pCity : CvCity)
    (bInterruptBuildings : Bool) (l : CvWeightedVector CvCityBuildable) (b : CvCityBuildable)
    (h : ChooseProduction_inertia ctx bInterruptBuildings ((l.head?.map Prod.snd).getD 0) l =
      some b) :
    ChooseProduction_selection S urand ctx pCity bInterruptBuildings l = b := by
  unfold ChooseProduction_selection
  rw [h]

/-- The selection of `ChooseProduction` is an item of the list it selects from whenever
an order is pushed for it. -/
theorem ChooseProduction_selection_mem {σ : Type} (S : CvSeederOps σ)
    (urand : Nat → σ → Nat) (ctx : CvProductionContext) (pCity : CvCity)
    (bInterruptBuildings : Bool) (l : CvWeightedVector CvCityBuildable) (o : CvOrderCall)
    (h : ChooseProduction_order ctx
      (ChooseProduction_selection S urand ctx pCity bInterruptBuildings l) = some o) :
    ∃ w, (ChooseProduction_selection S urand ctx pCity bInterruptBuildings l, w) ∈ l := by
  unfold ChooseProduction_selection at h ⊢
  cases hin : ChooseProduction_inertia ctx bInterruptBuildings
      ((l.head?.map Prod.snd).getD 0) l with
  | some b =>
    simp only []
    exact (ChooseProduction_inertia_some ctx _ _ l b hin).2
  | none =>
    rw [hin] at h
    simp only [] at h ⊢
    unfold ChooseProduction_pickNew at h ⊢
    by_cases htop : ChooseProduction_topIsDefenseProcess ctx l = true
    · simp only [htop, if_true] at h ⊢
      cases hh : l.head? with
      | none =>
        rw [hh] at h
        simp only [Option.map_none', Option.getD_none, ChooseProduction_order_fresh] at h
        exact Option.noConfusion h
      | some top =>
        simp only [Option.map_some', Option.getD_some]
        exact ⟨top.2, List.mem_of_mem_head? (by rw [hh]; rfl)⟩
    · simp only [htop, Bool.false_eq_true, if_false] at h ⊢
      cases hd : ChooseProduction_draw S urand ctx.getCityProductionChoiceCutoffThreshold pCity l with
      | none =>
        rw [hd] at h
        simp only [Option.getD_none, ChooseProduction_order_fresh] at h
        exact Option.noConfusion h
      | some x =>
        simp only [Option.getD_some]
        exact CvWeightedVector.ChooseAbovePercentThreshold_mem urand l _ _ x hd

theorem ChooseProduction_final_of_empty (ctx : CvProductionContext)
    (l : CvWeightedVector CvCityBuildable) (h : ChooseProduction_sanitized ctx l = []) :
    ChooseProduction_final ctx l = l := by
  simp [ChooseProduction_final, h]

/-- The result of `ChooseProduction` depends on the seeder and the random source only
through the selection. -/
theorem ChooseProduction_congr {σ : Type} (S S' : CvSeederOps σ) (urand urand' : Nat → σ → Nat)
    (ctx : CvProductionContext) (pCity : CvCity) (eIgnoreBldg eIgnoreUnit : Int)
    (bInterruptBuildings bInterruptWonders : Bool) (st : CvProductionState)
    (h : ChooseProduction_selection S' urand' ctx pCity bInterruptBuildings
        (ChooseProduction_buildables ctx eIgnoreBldg eIgnoreUnit st) =
      ChooseProduction_selection S urand ctx pCity bInterruptBuildings
        (ChooseProduction_buildables ctx eIgnoreBldg eIgnoreUnit st)) :
    ChooseProduction S' urand' ctx pCity eIgnoreBldg eIgnoreUnit bInterruptBuildings
        bInterruptWonders st =
      ChooseProduction S urand ctx pCity eIgnoreBldg eIgnoreUnit bInterruptBuildings
        bInterruptWonders st := by
  unfold ChooseProduction_buildables ChooseProduction_precheck at h
  unfold ChooseProduction
  simp only [h]

theorem ChooseHurry_sanity_some (ctx : CvProductionContext) (b : CvCityBuildable) (w : Int)
    (x : CvCityBuildable × Int) (h : ChooseHurry_sanity ctx b w = some x) :
    0 < x.2 ∧ (x.1.isUnitKind = true ∨ x.1.m_eBuildableType = CITY_BUILDABLE_BUILDING) := by
  unfold ChooseHurry_sanity at h
  cases hk : b.m_eBuildableType <;> simp only [hk] at h
  all_goals first
    | exact Option.noConfusion h
    | (split_ifs at h
       all_goals first
         | exact Option.noConfusion h
         | (obtain rfl := Option.some.inj h
            refine ⟨by assumption, ?_⟩
            simp [CvCityBuildable.isUnitKind, hk]))

/-- Every candidate of the final list of `ChooseHurry` has a positive weight and is a unit
or a building. -/
theorem ChooseHurry_final_mem (ctx : CvProductionContext) (bUnitOnly bFaithPurchase : Bool)
    (iOpsSkipped : Int) (x : CvCityBuildable × Int)
    (hx : x ∈ ChooseHurry_final ctx bUnitOnly bFaithPurchase iOpsSkipped) :
    0 < x.2 ∧ (x.1.isUnitKind = true ∨ x.1.m_eBuildableType = CITY_BUILDABLE_BUILDING) := by
  unfold ChooseHurry_final CvWeightedVector.StableSortItems at hx
  have hx2 := (perm_stableSortDescending Prod.snd _).mem_iff.mp hx
  obtain ⟨y, _, hy⟩ := List.mem_filterMap.mp hx2
  exact ChooseHurry_sanity_some ctx y.1 y.2 x hy

end CvCityStrategyAI

/-! ## The claims on the production and purchase choice -/

open CityAIBuildableType

/-- C11 (hurry sentinel): every candidate of the final list of `ChooseHurry` has a
positive weight and is a unit or a building, so the total weight is zero exactly when no
candidate survives; in that case `ChooseHurry` returns a buildable of kind
`NOT_A_CITY_BUILDABLE` and its result does not depend on the random source or the seeder
(no draw is made); otherwise, with a cutoff percentage of at most 100 and a random source
that stays below its limit, it returns an item of the final list, a unit or a building. -/
theorem C11_hurry_sentinel {σ : Type} (S : CvSeederOps σ) (urand : Nat → σ → Nat)
    (ctx : CvProductionContext) (pCity : CvCity) (bUnitOnly bFaithPurchase : Bool)
    (st : CvProductionState) :
    (CvWeightedVector.GetTotalWeight
        (ChooseHurry_final ctx bUnitOnly bFaithPurchase st.m_iNumberOfTimesOpsBuildSkippedOver) = 0 ↔
      ChooseHurry_final ctx bUnitOnly bFaithPurchase st.m_iNumberOfTimesOpsBuildSkippedOver = []) ∧
    (ChooseHurry_final ctx bUnitOnly bFaithPurchase st.m_iNumberOfTimesOpsBuildSkippedOver = [] →
      (ChooseHurry S urand ctx pCity bUnitOnly bFaithPurchase st).1.m_eBuildableType =
        NOT_A_CITY_BUILDABLE ∧
      ∀ (S' : CvSeederOps σ) (urand' : Nat → σ → Nat),
        ChooseHurry S' urand' ctx pCity bUnitOnly bFaithPurchase st =
          ChooseHurry S urand ctx pCity bUnitOnly bFaithPurchase st) ∧
    (ChooseHurry_final ctx bUnitOnly bFaithPurchase st.m_iNumberOfTimesOpsBuildSkippedOver ≠ [] →
      (∀ (n : Nat) (s : σ), 0 < n → urand n s < n) →
      ctx.getCityProductionChoiceCutoffThreshold ≤ 100 →
      (∃ w, ((ChooseHurry S urand ctx pCity bUnitOnly bFaithPurchase st).1, w) ∈
        ChooseHurry_final ctx bUnitOnly bFaithPurchase st.m_iNumberOfTimesOpsBuildSkippedOver) ∧
      ((ChooseHurry S urand ctx pCity bUnitOnly bFaithPurchase st).1.isUnitKind = true ∨
        (ChooseHurry S urand ctx pCity bUnitOnly bFaithPurchase st).1.m_eBuildableType =
          CITY_BUILDABLE_BUILDING)) := by
  have hmem := ChooseHurry_final_mem ctx bUnitOnly bFaithPurchase
    st.m_iNumberOfTimesOpsBuildSkippedOver
  refine ⟨⟨?_, ?_⟩, ?_, ?_⟩
  · intro h0
    by_contra hne
    have := CvWeightedVector.GetTotalWeight_pos _ hne (fun x hx => (hmem x hx).1)
    omega
  · intro h
    rw [h]
    rfl
  · intro h
    constructor
    · simp [ChooseHurry, h, CvWeightedVector.GetTotalWeight]
    · intro S' urand'
      simp [ChooseHurry, h, CvWeightedVector.GetTotalWeight]
  · intro hne hurand hpct
    have hpos := CvWeightedVector.GetTotalWeight_pos _ hne (fun x hx => (hmem x hx).1)
    obtain ⟨x, hx⟩ := CvWeightedVector.ChooseAbovePercentThreshold_isSome urand
      (ChooseHurry_final ctx bUnitOnly bFaithPurchase st.m_iNumberOfTimesOpsBuildSkippedOver)
      ctx.getCityProductionChoiceCutoffThreshold (ChooseHurry_seed S pCity) hurand hpct hne
      (fun x hx => (hmem x hx).1)
    have hres : (ChooseHurry S urand ctx pCity bUnitOnly bFaithPurchase st).1 = x := by
      simp only [ChooseHurry, gt_iff_lt, hpos, if_true, ChooseHurry_draw, hx, Option.getD_some]
    obtain ⟨w, hw⟩ := CvWeightedVector.ChooseAbovePercentThreshold_mem urand _ _ _ x hx
    rw [hres]
    exact ⟨⟨w, hw⟩, (hmem (x, w) hw).2⟩

/-- Witness of C11: nothing can be bought in the calm sample city, so the result is the
sentinel; in the city that can buy a worker and a building the result is a building of the
final list. -/
theorem C11_hurry_sentinel_witness :
    (ChooseHurry Sample.seeder Sample.urand Sample.context (Sample.city 10 3 []) false false
      Sample.production).1.m_eBuildableType = NOT_A_CITY_BUILDABLE ∧
    ((ChooseHurry Sample.seeder Sample.urand Sample.contextPurchase (Sample.city 10 3 []) false
        false Sample.production).1.isUnitKind = true ∨
      (ChooseHurry Sample.seeder Sample.urand Sample.contextPurchase (Sample.city 10 3 []) false
        false Sample.production).1.m_eBuildableType = CITY_BUILDABLE_BUILDING) :=
  ⟨((C11_hurry_sentinel Sample.seeder Sample.urand Sample.context (Sample.city 10 3 []) false
      false Sample.production).2.1 (by decide)).1,
   ((C11_hurry_sentinel Sample.seeder Sample.urand Sample.contextPurchase (Sample.city 10 3 [])
      false false Sample.production).2.2 (by decide)
      (fun n s hn => Nat.mod_lt s hn) (by decide)).2⟩

/-- C12, as stated, fails: every candidate is rejected by the sanity checks, the precheck
list is the worker (100), building 0 (80) and the warrior (60), and the city is producing
the warrior; `ChooseProduction` falls back to the precheck list and orders the warrior,
which its inertia scan finds at 60 ≥ 100 / 2, not the top item. -/
theorem C12_counterexample :
    ChooseProduction_sanitized Sample.contextAllRejected
      (ChooseProduction_precheck Sample.contextAllRejected (-1) (-1) Sample.production) = [] ∧
    (ChooseProduction_precheck Sample.contextAllRejected (-1) (-1) Sample.production).map
      (fun x => (x.1.m_eBuildableType, x.1.m_iIndex, x.2)) =
        [(CITY_BUILDABLE_UNIT, 1, 100), (CITY_BUILDABLE_BUILDING, 0, 80),
         (CITY_BUILDABLE_UNIT, 0, 60)] ∧
    (ChooseProduction Sample.seeder Sample.urand Sample.contextAllRejected (Sample.city 10 3 [])
      (-1) (-1) false true Sample.production).pushOrderCalls =
        [⟨OrderTypes.ORDER_TRAIN, 0, 1, false, true, false, false⟩] := by
  decide

/-- C12, amended (production fallback): when the sanity filter leaves the final list empty
and the precheck list is not empty, `ChooseProduction` replaces the final list by the
sorted unsanitized precheck list and runs its selection phase on it; the order it pushes
is for an item of the precheck list, and that item is the top item when the inertia scan
finds nothing and the top item is a defense process. -/
theorem C12_production_fallback {σ : Type} (S : CvSeederOps σ) (urand : Nat → σ → Nat)
    (ctx : CvProductionContext) (pCity : CvCity) (eIgnoreBldg eIgnoreUnit : Int)
    (bInterruptBuildings bInterruptWonders : Bool) (st : CvProductionState)
    (hg1 : ChooseProduction_alreadyBuildingMilitaryUnit ctx bInterruptBuildings = false)
    (hg2 : ChooseProduction_buildingWonder ctx bInterruptWonders = false)
    (hempty : ChooseProduction_sanitized ctx
      (ChooseProduction_precheck ctx eIgnoreBldg eIgnoreUnit st) = [])
    (hne : ChooseProduction_precheck ctx eIgnoreBldg eIgnoreUnit st ≠ []) :
    (ChooseProduction S urand ctx pCity eIgnoreBldg eIgnoreUnit bInterruptBuildings
        bInterruptWonders st).m_Buildables =
      ChooseProduction_precheck ctx eIgnoreBldg eIgnoreUnit st ∧
    (ChooseProduction S urand ctx pCity eIgnoreBldg eIgnoreUnit bInterruptBuildings
        bInterruptWonders st).pushOrderCalls =
      st.pushOrderCalls ++
        (ChooseProduction_order ctx
          (ChooseProduction_selection S urand ctx pCity bInterruptBuildings
            (ChooseProduction_precheck ctx eIgnoreBldg eIgnoreUnit st))).toList ∧
    (∀ o : CvOrderCall,
      ChooseProduction_order ctx
        (ChooseProduction_selection S urand ctx pCity bInterruptBuildings
          (ChooseProduction_precheck ctx eIgnoreBldg eIgnoreUnit st)) = some o →
      ∃ w, (ChooseProduction_selection S urand ctx pCity bInterruptBuildings
          (ChooseProduction_precheck ctx eIgnoreBldg eIgnoreUnit st), w) ∈
        ChooseProduction_precheck ctx eIgnoreBldg eIgnoreUnit st) ∧
    (ChooseProduction_inertia ctx bInterruptBuildings
        (((ChooseProduction_precheck ctx eIgnoreBldg eIgnoreUnit st).head?.map Prod.snd).getD 0)
        (ChooseProduction_precheck ctx eIgnoreBldg eIgnoreUnit st) = none →
      ChooseProduction_topIsDefenseProcess ctx
        (ChooseProduction_precheck ctx eIgnoreBldg eIgnoreUnit st) = true →
      ∃ top, (ChooseProduction_precheck ctx eIgnoreBldg eIgnoreUnit st).head? = some top ∧
        ChooseProduction_selection S urand ctx pCity bInterruptBuildings
          (ChooseProduction_precheck ctx eIgnoreBldg eIgnoreUnit st) = top.1) := by
  have hb : ChooseProduction_buildables ctx eIgnoreBldg eIgnoreUnit st =
      ChooseProduction_precheck ctx eIgnoreBldg eIgnoreUnit st := by
    unfold ChooseProduction_buildables
    exact ChooseProduction_final_of_empty ctx _ hempty
  obtain ⟨f1, _, f3, _⟩ := ChooseProduction_fields S urand ctx pCity eIgnoreBldg eIgnoreUnit
    bInterruptBuildings bInterruptWonders st hg1 hg2
  rw [hb] at f1 f3
  have hlen : (ChooseProduction_precheck ctx eIgnoreBldg eIgnoreUnit st).length > 0 :=
    List.length_pos.mpr hne
  rw [if_pos hlen] at f3
  refine ⟨f1, f3, fun o ho => ChooseProduction_selection_mem S urand ctx pCity _ _ o ho, ?_⟩
  intro hin htop
  cases hh : (ChooseProduction_precheck ctx eIgnoreBldg eIgnoreUnit st).head? with
  | none => exact absurd (List.head?_eq_none_iff.mp hh) hne
  | some top =>
    refine ⟨top, rfl, ?_⟩
    unfold ChooseProduction_selection
    rw [hin]
    simp [ChooseProduction_pickNew, htop, hh]

/-- Witness of C12 (amended): in the sample city whose candidates are all rejected, the
final list after the call is the precheck list of three items. -/
theorem C12_production_fallback_witness :
    (ChooseProduction Sample.seeder Sample.urand Sample.contextAllRejected (Sample.city 10 3 [])
      (-1) (-1) false true Sample.production).m_Buildables =
    ChooseProduction_precheck Sample.contextAllRejected (-1) (-1) Sample.production :=
  (C12_production_fallback Sample.seeder Sample.urand Sample.contextAllRejected
    (Sample.city 10 3 []) (-1) (-1) false true Sample.production (by decide) (by decide)
    (by decide) (by decide)).1

/-- C16, as stated, fails: with `bInterruptBuildings = false` and the city producing a
warrior (combat strength 8), `ChooseProduction` does not abort: it rebuilds the candidate
lists and pushes an order. -/
theorem C16_counterexample :
    Sample.contextTrainingWarrior.getProductionUnit = 0 ∧
    (Sample.contextTrainingWarrior.unitInfo 0).GetCombat = 8 ∧
    (ChooseProduction Sample.seeder Sample.urand Sample.contextTrainingWarrior
      (Sample.city 10 3 []) (-1) (-1) false true Sample.production).m_Buildables.length = 3 ∧
    (ChooseProduction Sample.seeder Sample.urand Sample.contextTrainingWarrior
      (Sample.city 10 3 []) (-1) (-1) false true Sample.production).pushOrderCalls.length = 1 ∧
    ChooseProduction Sample.seeder Sample.urand Sample.contextTrainingWarrior
      (Sample.city 10 3 []) (-1) (-1) false true Sample.production ≠ Sample.production := by
  decide

/-- C16, amended (production guard): for every call of `ChooseProduction` with
`bInterruptBuildings = true` in which the city is producing a unit with combat or
ranged-combat strength above zero, the call aborts with no change (no list is rebuilt, no
order is pushed, no counter moves); with `bInterruptBuildings = false` this guard never
fires. -/
theorem C16_production_guard {σ : Type} (S : CvSeederOps σ) (urand : Nat → σ → Nat)
    (ctx : CvProductionContext) (pCity : CvCity) (eIgnoreBldg eIgnoreUnit : Int)
    (bInterruptWonders : Bool) (st : CvProductionState)
    (hunit : ctx.getProductionUnit ≠ NO_UNIT)
    (hcombat : (ctx.unitInfo ctx.getProductionUnit).GetCombat > 0 ∨
      (ctx.unitInfo ctx.getProductionUnit).GetRangedCombat > 0) :
    ChooseProduction S urand ctx pCity eIgnoreBldg eIgnoreUnit true bInterruptWonders st = st ∧
    ChooseProduction_alreadyBuildingMilitaryUnit ctx false = false := by
  refine ⟨?_, rfl⟩
  apply ChooseProduction_aborts
  left
  simp [ChooseProduction_alreadyBuildingMilitaryUnit, hunit, hcombat]

/-- Witness of C16 (amended): the sample city producing a warrior, called with
`bInterruptBuildings = true`. -/
theorem C16_production_guard_witness :
    ChooseProduction Sample.seeder Sample.urand Sample.contextTrainingWarrior
      (Sample.city 10 3 []) (-1) (-1) true true Sample.production = Sample.production :=
  (C16_production_guard Sample.seeder Sample.urand Sample.contextTrainingWarrior
    (Sample.city 10 3 []) (-1) (-1) true Sample.production (by decide)
    (Or.inl (by decide))).1

/-- C17, as stated, fails: the city is producing the warrior, the inertia scan finds the
warrior in the final list (60 ≥ 100 / 2) and decides to continue it, and `ChooseProduction`
still calls `pushOrder` for the warrior. -/
theorem C17_counterexample :
    ChooseProduction_inertia Sample.contextTrainingWarrior false 100
      (ChooseProduction_buildables Sample.contextTrainingWarrior (-1) (-1) Sample.production) =
        some ⟨CITY_BUILDABLE_UNIT, 0, 5, 60⟩ ∧
    Sample.contextTrainingWarrior.isProductionUnit = true ∧
    Sample.contextTrainingWarrior.getProductionUnit = 0 ∧
    Sample.production.pushOrderCalls = [] ∧
    (ChooseProduction Sample.seeder Sample.urand Sample.contextTrainingWarrior
      (Sample.city 10 3 []) (-1) (-1) false true Sample.production).pushOrderCalls =
        [⟨OrderTypes.ORDER_TRAIN, 0, 1, false, true, false, false⟩] := by
  decide

/-- C17, amended (inertia re-issues the order of the continued item): whenever the
inertia scan of `ChooseProduction` finds an item to continue with, that item is an item
of the final list that satisfies the continuation test, it is the selection whatever the
random source is (no draw is made), and the call pushes the order of that item, with the
"pop" flag set, and no other order. -/
theorem C17_inertia_reissues_order {σ : Type} (S : CvSeederOps σ) (urand : Nat → σ → Nat)
    (ctx : CvProductionContext) (pCity : CvCity) (eIgnoreBldg eIgnoreUnit : Int)
    (bInterruptBuildings bInterruptWonders : Bool) (st : CvProductionState)
    (b : CvCityBuildable)
    (hg1 : ChooseProduction_alreadyBuildingMilitaryUnit ctx bInterruptBuildings = false)
    (hg2 : ChooseProduction_buildingWonder ctx bInterruptWonders = false)
    (hin : ChooseProduction_inertia ctx bInterruptBuildings
      (((ChooseProduction_buildables ctx eIgnoreBldg eIgnoreUnit st).head?.map Prod.snd).getD 0)
      (ChooseProduction_buildables ctx eIgnoreBldg eIgnoreUnit st) = some b) :
    ChooseProduction_continues ctx bInterruptBuildings b = true ∧
    (∃ w, (b, w) ∈ ChooseProduction_buildables ctx eIgnoreBldg eIgnoreUnit st) ∧
    (ChooseProduction S urand ctx pCity eIgnoreBldg eIgnoreUnit bInterruptBuildings
        bInterruptWonders st).pushOrderCalls =
      st.pushOrderCalls ++ (ChooseProduction_order ctx b).toList ∧
    (∀ o : CvOrderCall, ChooseProduction_order ctx b = some o →
      o.iData1 = b.m_iIndex ∧ o.bPop = true ∧ o.bSave = false ∧ o.bAppend = false) ∧
    (∀ (S' : CvSeederOps σ) (urand' : Nat → σ → Nat),
      ChooseProduction S' urand' ctx pCity eIgnoreBldg eIgnoreUnit bInterruptBuildings
          bInterruptWonders st =
        ChooseProduction S urand ctx pCity eIgnoreBldg eIgnoreUnit bInterruptBuildings
          bInterruptWonders st) := by
  obtain ⟨hc, w, hw⟩ := ChooseProduction_inertia_some ctx _ _ _ b hin
  have hsel : ∀ (S' : CvSeederOps σ) (urand' : Nat → σ → Nat),
      ChooseProduction_selection S' urand' ctx pCity bInterruptBuildings
        (ChooseProduction_buildables ctx eIgnoreBldg eIgnoreUnit st) = b :=
    fun S' urand' => ChooseProduction_selection_of_inertia S' urand' ctx pCity _ _ b hin
  obtain ⟨_, _, f3, _⟩ := ChooseProduction_fields S urand ctx pCity eIgnoreBldg eIgnoreUnit
    bInterruptBuildings bInterruptWonders st hg1 hg2
  have hlen : (ChooseProduction_buildables ctx eIgnoreBldg eIgnoreUnit st).length > 0 :=
    List.length_pos_of_mem hw
  rw [if_pos hlen, hsel S urand] at f3
  refine ⟨hc, ⟨w, hw⟩, f3, fun o ho => ChooseProduction_order_some ctx b o ho, ?_⟩
  intro S' urand'
  apply ChooseProduction_congr
  rw [hsel S' urand', hsel S urand]

/-- Witness of C17 (amended): the sample city producing the warrior continues with the
warrior and pushes the warrior order. -/
theorem C17_inertia_reissues_order_witness :
    (ChooseProduction Sample.seeder Sample.urand Sample.contextTrainingWarrior
      (Sample.city 10 3 []) (-1) (-1) false true Sample.production).pushOrderCalls =
    Sample.production.pushOrderCalls ++
      (ChooseProduction_order Sample.contextTrainingWarrior
        ⟨CITY_BUILDABLE_UNIT, 0, 5, 60⟩).toList :=
  (C17_inertia_reissues_order Sample.seeder Sample.urand Sample.contextTrainingWarrior
    (Sample.city 10 3 []) (-1) (-1) false true Sample.production
    ⟨CITY_BUILDABLE_UNIT, 0, 5, 60⟩ (by decide) (by decide) (by decide)).2.2.1

/-- C18, as stated, fails: the only candidate is building 0, the order pushed is for that
building (not for a settler-capable unit), and the settler-skipped counter goes from 3 to
0 instead of being incremented. -/
theorem C18_counterexample :
    (ChooseProduction Sample.seeder Sample.urand Sample.contextBuildingOnly (Sample.city 10 3 [])
      (-1) (-1) false true Sample.production).pushOrderCalls =
        [⟨OrderTypes.ORDER_CONSTRUCT, 0, -1, false, true, false, false⟩] ∧
    Sample.production.m_iNumberOfTimesSettlerBuildSkippedOver = 3 ∧
    (ChooseProduction Sample.seeder Sample.urand Sample.contextBuildingOnly (Sample.city 10 3 [])
      (-1) (-1) false true Sample.production).m_iNumberOfTimesSettlerBuildSkippedOver = 0 := by
  decide

/-- C18, amended (settler-skipped counter): after every `ChooseProduction` run that passes
the two guards, the settler-skipped counter is reset if the order issued is for a
settler-capable unit or if no settler-capable unit is among the final candidates, and it
is incremented otherwise; the order counts as one for a settler-capable unit exactly when
the selection is a unit whose definition exists and founds cities. -/
theorem C18_settler_counter {σ : Type} (S : CvSeederOps σ) (urand : Nat → σ → Nat)
    (ctx : CvProductionContext) (pCity : CvCity) (eIgnoreBldg eIgnoreUnit : Int)
    (bInterruptBuildings bInterruptWonders : Bool) (st : CvProductionState)
    (hg1 : ChooseProduction_alreadyBuildingMilitaryUnit ctx bInterruptBuildings = false)
    (hg2 : ChooseProduction_buildingWonder ctx bInterruptWonders = false) :
    ((((ChooseProduction_buildables ctx eIgnoreBldg eIgnoreUnit st).length > 0 ∧
          ChooseProduction_bPushedOrderForSettler ctx
            (ChooseProduction_selection S urand ctx pCity bInterruptBuildings
              (ChooseProduction_buildables ctx eIgnoreBldg eIgnoreUnit st)) = true) ∨
        HaveSettlerInBuildables ctx
          (ChooseProduction_buildables ctx eIgnoreBldg eIgnoreUnit st) = false) →
      (ChooseProduction S urand ctx pCity eIgnoreBldg eIgnoreUnit bInterruptBuildings
        bInterruptWonders st).m_iNumberOfTimesSettlerBuildSkippedOver = 0) ∧
    (¬ (((ChooseProduction_buildables ctx eIgnoreBldg eIgnoreUnit st).length > 0 ∧
          ChooseProduction_bPushedOrderForSettler ctx
            (ChooseProduction_selection S urand ctx pCity bInterruptBuildings
              (ChooseProduction_buildables ctx eIgnoreBldg eIgnoreUnit st)) = true) ∨
        HaveSettlerInBuildables ctx
          (ChooseProduction_buildables ctx eIgnoreBldg eIgnoreUnit st) = false) →
      (ChooseProduction S urand ctx pCity eIgnoreBldg eIgnoreUnit bInterruptBuildings
        bInterruptWonders st).m_iNumberOfTimesSettlerBuildSkippedOver =
          st.m_iNumberOfTimesSettlerBuildSkippedOver + 1) ∧
    (∀ sel : CvCityBuildable, ChooseProduction_bPushedOrderForSettler ctx sel = true ↔
      (sel.isUnitKind = true ∧
        ∃ pkUnitInfo, ctx.getUnitInfo sel.m_iIndex = some pkUnitInfo ∧
          pkUnitInfo.IsFound = true)) := by
  obtain ⟨_, _, _, f4⟩ := ChooseProduction_fields S urand ctx pCity eIgnoreBldg eIgnoreUnit
    bInterruptBuildings bInterruptWonders st hg1 hg2
  refine ⟨?_, ?_, ?_⟩
  · intro h
    rw [f4, if_pos]
    rcases h with ⟨h1, h2⟩ | h
    · left; simp [h1, h2]
    · right; exact h
  · intro h
    rw [f4, if_neg]
    rintro (h1 | h1)
    · apply h
      left
      simpa using h1
    · exact h (Or.inr h1)
  · intro sel
    unfold ChooseProduction_bPushedOrderForSettler
    cases hk : sel.isUnitKind
    · simp
    · cases hu : ctx.getUnitInfo sel.m_iIndex <;> simp

/-- Witness of C18 (amended): in the sample city whose only candidate is a building no
settler-capable unit is among the candidates, and the counter is reset. -/
theorem C18_settler_counter_witness :
    (ChooseProduction Sample.seeder Sample.urand Sample.contextBuildingOnly (Sample.city 10 3 [])
      (-1) (-1) false true Sample.production).m_iNumberOfTimesSettlerBuildSkippedOver = 0 :=
  (C18_settler_counter Sample.seeder Sample.urand Sample.contextBuildingOnly
    (Sample.city 10 3 []) (-1) (-1) false true Sample.production (by decide) (by decide)).1
    (Or.inr (by decide))

/-! ## Lemmas on the start and end tests, on the hurry boost, on the inertia scan and on the sanity filter -/

namespace CvCityStrategyAI

theorem bTestCityStrategyStart_iff (c : CvCity) (p : CvAICityStrategyEntry) (bUsing : Bool) :
    bTestCityStrategyStart c p bUsing = true ↔
      (bUsing = false ∧
        (p.GetTechPrereq = NO_TECH ∨ c.teamHasTech p.GetTechPrereq = true) ∧
        (p.GetTechObsolete = NO_TECH ∨ c.teamHasTech p.GetTechObsolete = false)) := by
  unfold bTestCityStrategyStart
  cases bUsing
  · by_cases h1 : p.GetTechPrereq = NO_TECH <;> by_cases h2 : p.GetTechObsolete = NO_TECH <;>
      cases h3 : c.teamHasTech p.GetTechPrereq <;> cases h4 : c.teamHasTech p.GetTechObsolete <;>
      simp [h1, h2, h3, h4]
  · simp

theorem tmod_eq_zero_iff_emod (a k : Int) : a.tmod k = 0 ↔ a % k = 0 := by
  constructor
  · intro h
    exact Int.emod_eq_zero_of_dvd (Int.dvd_of_tmod_eq_zero h)
  · intro h
    exact Int.tmod_eq_zero_of_dvd (Int.dvd_of_emod_eq_zero h)

theorem bTestCityStrategyEnd_iff (t : Int) (p : CvAICityStrategyEntry) (bUsing : Bool)
    (a : Int) :
    bTestCityStrategyEnd t p bUsing a = true ↔
      (bUsing = true ∧ p.IsPermanent = false ∧ 0 < p.GetCheckTriggerTurnCount ∧
        (t - a) % p.GetCheckTriggerTurnCount = 0 ∧
        (p.GetMinimumNumTurnsExecuted ≤ 0 ∨ t ≥ a + p.GetMinimumNumTurnsExecuted)) := by
  unfold bTestCityStrategyEnd
  rw [← tmod_eq_zero_iff_emod]
  cases bUsing
  · simp
  · cases hp : p.IsPermanent
    · by_cases hk : p.GetCheckTriggerTurnCount > 0 <;>
        by_cases hm : (t - a).tmod p.GetCheckTriggerTurnCount = 0 <;>
        by_cases hn : p.GetMinimumNumTurnsExecuted > 0 <;>
        by_cases hl : t < a + p.GetMinimumNumTurnsExecuted <;>
        simp [hk, hm, hn, hl] <;> omega
    · simp

theorem testStart_testEnd_exclusive (c : CvCity) (p : CvAICityStrategyEntry) (bUsing : Bool)
    (t a : Int) :
    ¬ (bTestCityStrategyStart c p bUsing = true ∧ bTestCityStrategyEnd t p bUsing a = true) := by
  rintro ⟨h1, h2⟩
  have := using_of_testStart h1
  have := using_of_testEnd h2
  simp_all

/-- The loop body as a two-arm table. -/
theorem DoTurnStrategy_table (gc : CvGlobals) (c : CvCity) (ai : CvCityStrategyAI) (e : Nat)
    (p : CvAICityStrategyEntry) (hentry : gc.GetEntry e = some p)
    (hskip : skipForMinorCiv c p = false) :
    DoTurnStrategy gc c ai e =
      if bTestCityStrategyStart c p (ai.IsUsingCityStrategy e) = true ∧
          bStrategyShouldBeActive gc c ai e p = true then adoptCityStrategy gc c ai e p
      else if bTestCityStrategyEnd c.gameTurn p (ai.IsUsingCityStrategy e)
            (ai.GetTurnCityStrategyAdopted e) = true ∧
          bStrategyShouldBeActive gc c ai e p = false then endCityStrategy gc c ai e p
      else ai := by
  by_cases h1 : bTestCityStrategyStart c p (ai.IsUsingCityStrategy e) = true ∧
      bStrategyShouldBeActive gc c ai e p = true
  · rw [if_pos h1]
    exact DoTurnStrategy_adopt gc c ai e p hentry hskip h1.2 h1.1
  · rw [if_neg h1]
    by_cases h2 : bTestCityStrategyEnd c.gameTurn p (ai.IsUsingCityStrategy e)
        (ai.GetTurnCityStrategyAdopted e) = true ∧ bStrategyShouldBeActive gc c ai e p = false
    · rw [if_pos h2]
      exact DoTurnStrategy_end gc c ai e p hentry hskip h2.2 h2.1
    · rw [if_neg h2]
      exact DoTurnStrategy_unchanged gc c ai e p hentry (fun h => h1 ⟨h.2, h.1⟩)
        (fun h => h2 ⟨h.2, h.1⟩)

/-- After a whole pass the flag and the turn-adopted value of strategy `e` are what one
run of the body of `e` makes of a state that has the flag and the value from before the
pass. -/
theorem DoTurn_single_body (gc : CvGlobals) (c : CvCity) (ai : CvCityStrategyAI) (e : Nat) :
    ∃ s0 : CvCityStrategyAI,
      s0.IsUsingCityStrategy e = ai.IsUsingCityStrategy e ∧
      s0.GetTurnCityStrategyAdopted e = ai.GetTurnCityStrategyAdopted e ∧
      s0.m_pabUsingCityStrategy.length = ai.m_pabUsingCityStrategy.length ∧
      s0.m_paiTurnCityStrategyAdopted.length = ai.m_paiTurnCityStrategyAdopted.length ∧
      (DoTurn gc c ai).IsUsingCityStrategy e =
        (DoTurnStrategy gc c s0 e).IsUsingCityStrategy e ∧
      (DoTurn gc c ai).GetTurnCityStrategyAdopted e =
        (DoTurnStrategy gc c s0 e).GetTurnCityStrategyAdopted e := by
  have key := strategyLoop_rule gc c e
    (fun s => s.IsUsingCityStrategy e = ai.IsUsingCityStrategy e ∧
      s.GetTurnCityStrategyAdopted e = ai.GetTurnCityStrategyAdopted e ∧
      s.m_pabUsingCityStrategy.length = ai.m_pabUsingCityStrategy.length ∧
      s.m_paiTurnCityStrategyAdopted.length = ai.m_paiTurnCityStrategyAdopted.length)
    (fun s => ∃ s0 : CvCityStrategyAI,
      s0.IsUsingCityStrategy e = ai.IsUsingCityStrategy e ∧
      s0.GetTurnCityStrategyAdopted e = ai.GetTurnCityStrategyAdopted e ∧
      s0.m_pabUsingCityStrategy.length = ai.m_pabUsingCityStrategy.length ∧
      s0.m_paiTurnCityStrategyAdopted.length = ai.m_paiTurnCityStrategyAdopted.length ∧
      s.IsUsingCityStrategy e = (DoTurnStrategy gc c s0 e).IsUsingCityStrategy e ∧
      s.GetTurnCityStrategyAdopted e =
        (DoTurnStrategy gc c s0 e).GetTurnCityStrategyAdopted e)
    (fun j s hj hs => by
      obtain ⟨f1, f2⟩ := DoTurnStrategy_frame gc c s j e (fun h => hj h.symm)
      obtain ⟨l1, l2⟩ := DoTurnStrategy_lengths gc c s j
      exact ⟨f1.trans hs.1, f2.trans hs.2.1, l1.trans hs.2.2.1, l2.trans hs.2.2.2⟩)
    (fun j s hj hs => by
      obtain ⟨f1, f2⟩ := DoTurnStrategy_frame gc c s j e (fun h => hj h.symm)
      obtain ⟨s0, h1, h2, h3, h4, h5, h6⟩ := hs
      exact ⟨s0, h1, h2, h3, h4, f1.trans h5, f2.trans h6⟩)
    (fun s hs => ⟨s, hs.1, hs.2.1, hs.2.2.1, hs.2.2.2, rfl, rfl⟩)
    gc.GetNumAICityStrategies (PrecalcYieldStats gc c ai) ⟨rfl, rfl, rfl, rfl⟩
  unfold DoTurn
  by_cases hlt : e < gc.GetNumAICityStrategies
  · exact key.1 hlt
  · obtain ⟨k1, k2, k3, k4⟩ := key.2 (by omega)
    have hnone : gc.GetEntry e = none := by
      cases h : gc.GetEntry e with
      | none => rfl
      | some p => exact absurd (GetEntry_lt gc e p h) hlt
    refine ⟨_, k1, k2, k3, k4, ?_, ?_⟩ <;> rw [DoTurnStrategy_hole gc c _ e hnone]

end CvCityStrategyAI

namespace CvCityStrategyAI

theorem bTestCityStrategyEnd_noRecheck (t : Int) (p : CvAICityStrategyEntry) (bUsing : Bool)
    (a : Int) (hK : p.GetCheckTriggerTurnCount ≤ 0) :
    bTestCityStrategyEnd t p bUsing a = false := by
  have hk : ¬ p.GetCheckTriggerTurnCount > 0 := by omega
  unfold bTestCityStrategyEnd
  cases bUsing <;> cases p.IsPermanent <;> simp [hk]

theorem tdiv_add_mul_self (w q : Int) (hw : 0 ≤ w) (hq : 0 < q) :
    (w * (100 + q)).tdiv q = (100 * w) / q + w := by
  have h1 : 0 ≤ w * (100 + q) := Int.mul_nonneg hw (by omega)
  rw [Int.tdiv_eq_ediv h1 (by omega)]
  have : w * (100 + q) = 100 * w + w * q := by ring
  rw [this, Int.add_mul_ediv_right _ _ (by omega)]

theorem ediv_antitone (a p q : Int) (ha : 0 ≤ a) (hp : 0 < p) (hpq : p ≤ q) :
    a / q ≤ a / p := by
  have hq : 0 < q := by omega
  have h0 : 0 ≤ a / q := Int.ediv_nonneg ha (by omega)
  apply Int.le_ediv_of_mul_le hp
  calc a / q * p ≤ a / q * q := Int.mul_le_mul_of_nonneg_left hpq h0
    _ ≤ a := Int.ediv_mul_le a (by omega)

/-- The factor of the hurry boost falls as the invested percentage grows. -/
theorem hurryBoost_antitone (w p q : Int) (hw : 0 ≤ w) (hp : 1 ≤ p) (hpq : p ≤ q) :
    (w * (100 + q)).tdiv (max 1 q) ≤ (w * (100 + p)).tdiv (max 1 p) := by
  rw [max_eq_right (by omega : (1 : Int) ≤ q), max_eq_right hp,
    tdiv_add_mul_self w q hw (by omega), tdiv_add_mul_self w p hw (by omega)]
  have := ediv_antitone (100 * w) p q (by omega) (by omega) hpq
  omega

theorem hurryBoost_ge (w p : Int) (hw : 0 ≤ w) (hp0 : 0 ≤ p) (hp : p < 50) :
    3 * w ≤ (w * (100 + p)).tdiv (max 1 p) := by
  by_cases h0 : p = 0
  · subst h0
    simp
    omega
  · have hp1 : 1 ≤ p := by omega
    rw [max_eq_right hp1, tdiv_add_mul_self w p hw (by omega)]
    have : 2 * w ≤ 100 * w / p := by
      apply Int.le_ediv_of_mul_le (by omega)
      nlinarith
    omega

theorem ChooseHurry_buildingBoost_eq (ctx : CvProductionContext) (e w : Int) :
    ChooseHurry_buildingBoost ctx e w =
      if ctx.GetBuildingProductionTimes100 e > 0 ∧
          (ctx.GetBuildingProductionTimes100 e).tdiv (max 1 (ctx.getProductionNeeded e)) < 50
      then (w * (100 + (ctx.GetBuildingProductionTimes100 e).tdiv
          (max 1 (ctx.getProductionNeeded e)))).tdiv
        (max 1 ((ctx.GetBuildingProductionTimes100 e).tdiv (max 1 (ctx.getProductionNeeded e))))
      else w := by
  unfold ChooseHurry_buildingBoost
  by_cases h1 : ctx.GetBuildingProductionTimes100 e > 0 <;>
    by_cases h2 : (ctx.GetBuildingProductionTimes100 e).tdiv
      (max 1 (ctx.getProductionNeeded e)) < 50 <;>
    simp [h1, h2]

theorem half_tdiv_le (top w : Int) (h : ¬ w < top.tdiv 2) : top ≤ 2 * w + 1 := by
  by_cases h0 : 0 ≤ top
  · rw [Int.tdiv_eq_ediv h0 (by omega)] at h
    omega
  · have : top = -(-top) := by omega
    rw [this, Int.neg_tdiv, Int.tdiv_eq_ediv (by omega) (by omega)] at h
    omega

/-- The item that the inertia scan returns has a weight of at least half the top
weight, the half taken by C++ integer division. -/
theorem ChooseProduction_inertia_weight (ctx : CvProductionContext)
    (bInterruptBuildings : Bool) (iTopWeight : Int) (l : CvWeightedVector CvCityBuildable)
    (b : CvCityBuildable)
    (h : ChooseProduction_inertia ctx bInterruptBuildings iTopWeight l = some b) :
    ∃ w, (b, w) ∈ l ∧ iTopWeight.tdiv 2 ≤ w := by
  induction l with
  | nil => simp [ChooseProduction_inertia] at h
  | cons a t ih =>
    obtain ⟨y, w⟩ := a
    simp only [ChooseProduction_inertia] at h
    split_ifs at h with h1 h2
    · obtain rfl := Option.some.inj h
      exact ⟨w, List.mem_cons_self _ _, by omega⟩
    · obtain ⟨w', hw', hle⟩ := ih h
      exact ⟨w', List.mem_cons_of_mem _ hw', hle⟩

end CvCityStrategyAI

namespace CvCityStrategyAI

end CvCityStrategyAI

/-! ## Lemmas on call sequences -/

namespace CvCityStrategyAI

/-- One `SetUsingCityStrategy` call leaves the flag and the turn-adopted value of a
strategy alone, or switches it on and stores the game turn, or switches it off and
stores -1. -/
theorem SetUsingCityStrategy_cases (t : Int) (s : CvCityStrategyAI) (e' : Nat) (b : Bool)
    (e : Nat)
    (hlen : s.m_pabUsingCityStrategy.length = s.m_paiTurnCityStrategyAdopted.length) :
    ((SetUsingCityStrategy t s e' b).IsUsingCityStrategy e = s.IsUsingCityStrategy e ∧
      (SetUsingCityStrategy t s e' b).GetTurnCityStrategyAdopted e =
        s.GetTurnCityStrategyAdopted e) ∨
    (s.IsUsingCityStrategy e = false ∧
      (SetUsingCityStrategy t s e' b).IsUsingCityStrategy e = true ∧
      (SetUsingCityStrategy t s e' b).GetTurnCityStrategyAdopted e = t) ∨
    (s.IsUsingCityStrategy e = true ∧
      (SetUsingCityStrategy t s e' b).IsUsingCityStrategy e = false ∧
      (SetUsingCityStrategy t s e' b).GetTurnCityStrategyAdopted e = -1) := by
  by_cases hee : e = e'
  · subst hee
    by_cases hb : s.m_pabUsingCityStrategy.getD e false = b
    · left
      have : SetUsingCityStrategy t s e b = s := by
        unfold SetUsingCityStrategy
        rw [if_neg (fun h => h hb)]
      rw [this]
      exact ⟨rfl, rfl⟩
    · by_cases hl : e < s.m_pabUsingCityStrategy.length
      · cases b
        · right; right
          have hu : s.IsUsingCityStrategy e = true := by
            unfold IsUsingCityStrategy
            cases h : s.m_pabUsingCityStrategy.getD e false
            · exact absurd h hb
            · rfl
          refine ⟨hu, ?_, GetTurn_SetUsing_false t s e hu⟩
          exact IsUsing_SetUsing_self t s e false hl
        · right; left
          have hu : s.IsUsingCityStrategy e = false := by
            unfold IsUsingCityStrategy
            cases h : s.m_pabUsingCityStrategy.getD e false
            · rfl
            · exact absurd h hb
          exact ⟨hu, IsUsing_SetUsing_self t s e true hl,
            GetTurn_SetUsing_true t s e hu (by omega)⟩
      · left
        have hle : s.m_pabUsingCityStrategy.length ≤ e := by omega
        have hle2 : s.m_paiTurnCityStrategyAdopted.length ≤ e := by omega
        constructor
        · unfold IsUsingCityStrategy
          rw [SetUsingCityStrategy_flags, if_neg hb, List.set_eq_of_length_le hle]
        · unfold GetTurnCityStrategyAdopted
          rw [SetUsingCityStrategy_turns, if_neg hb]
          split_ifs <;> first | rfl | rw [List.set_eq_of_length_le hle2]
  · left
    exact ⟨IsUsing_SetUsing_ne t s e' e b hee, GetTurn_SetUsing_ne t s e' e b hee⟩

/-- The loop body for strategy `e` leaves its flag and turn-adopted value alone, or
switches it on and stores the game turn, or switches it off and stores -1. -/
theorem DoTurnStrategy_flag_cases (gc : CvGlobals) (c : CvCity) (s : CvCityStrategyAI)
    (e : Nat)
    (hlen : s.m_pabUsingCityStrategy.length = s.m_paiTurnCityStrategyAdopted.length) :
    ((DoTurnStrategy gc c s e).IsUsingCityStrategy e = s.IsUsingCityStrategy e ∧
      (DoTurnStrategy gc c s e).GetTurnCityStrategyAdopted e =
        s.GetTurnCityStrategyAdopted e) ∨
    (s.IsUsingCityStrategy e = false ∧
      (DoTurnStrategy gc c s e).IsUsingCityStrategy e = true ∧
      (DoTurnStrategy gc c s e).GetTurnCityStrategyAdopted e = c.gameTurn) ∨
    (s.IsUsingCityStrategy e = true ∧
      (DoTurnStrategy gc c s e).IsUsingCityStrategy e = false ∧
      (DoTurnStrategy gc c s e).GetTurnCityStrategyAdopted e = -1) := by
  rcases DoTurnStrategy_cases gc c s e with h1 | ⟨p, _, _, h1⟩ | ⟨p, _, _, h1⟩
  · rw [h1]; exact Or.inl ⟨rfl, rfl⟩
  · rw [h1]; exact SetUsingCityStrategy_cases c.gameTurn s e true e hlen
  · rw [h1]; exact SetUsingCityStrategy_cases c.gameTurn s e false e hlen

theorem strategyLoop_lengths (gc : CvGlobals) (c : CvCity) (n : Nat) (s : CvCityStrategyAI) :
    ((List.range n).foldl (DoTurnStrategy gc c) s).m_pabUsingCityStrategy.length =
      s.m_pabUsingCityStrategy.length ∧
    ((List.range n).foldl (DoTurnStrategy gc c) s).m_paiTurnCityStrategyAdopted.length =
      s.m_paiTurnCityStrategyAdopted.length := by
  induction n with
  | zero => exact ⟨rfl, rfl⟩
  | succ n ih =>
    rw [List.range_succ, List.foldl_append]
    simp only [List.foldl_cons, List.foldl_nil]
    obtain ⟨l1, l2⟩ := DoTurnStrategy_lengths gc c ((List.range n).foldl (DoTurnStrategy gc c) s) n
    exact ⟨l1.trans ih.1, l2.trans ih.2⟩

theorem DoTurn_lengths (gc : CvGlobals) (c : CvCity) (s : CvCityStrategyAI) :
    (DoTurn gc c s).m_pabUsingCityStrategy.length = s.m_pabUsingCityStrategy.length ∧
    (DoTurn gc c s).m_paiTurnCityStrategyAdopted.length =
      s.m_paiTurnCityStrategyAdopted.length :=
  strategyLoop_lengths gc c gc.GetNumAICityStrategies (PrecalcYieldStats gc c s)

/-- A whole pass leaves the flag and the turn-adopted value of a strategy alone, or
switches it on and stores the game turn, or switches it off and stores -1. -/
theorem DoTurn_flag_cases (gc : CvGlobals) (c : CvCity) (s : CvCityStrategyAI) (e : Nat)
    (hlen : s.m_pabUsingCityStrategy.length = s.m_paiTurnCityStrategyAdopted.length) :
    ((DoTurn gc c s).IsUsingCityStrategy e = s.IsUsingCityStrategy e ∧
      (DoTurn gc c s).GetTurnCityStrategyAdopted e = s.GetTurnCityStrategyAdopted e) ∨
    (s.IsUsingCityStrategy e = false ∧ (DoTurn gc c s).IsUsingCityStrategy e = true ∧
      (DoTurn gc c s).GetTurnCityStrategyAdopted e = c.gameTurn) ∨
    (s.IsUsingCityStrategy e = true ∧ (DoTurn gc c s).IsUsingCityStrategy e = false ∧
      (DoTurn gc c s).GetTurnCityStrategyAdopted e = -1) := by
  obtain ⟨s0, h1, h2, h3, h4, h5, h6⟩ := DoTurn_single_body gc c s e
  rw [h5, h6, ← h1, ← h2]
  exact DoTurnStrategy_flag_cases gc c s0 e (by omega)

end CvCityStrategyAI

namespace CvCall

theorem apply_lengths (gc : CvGlobals) (s : CvCityStrategyAI) (call : CvCall) :
    (apply gc s call).m_pabUsingCityStrategy.length = s.m_pabUsingCityStrategy.length ∧
    (apply gc s call).m_paiTurnCityStrategyAdopted.length =
      s.m_paiTurnCityStrategyAdopted.length := by
  cases call with
  | SetUsingCityStrategy t e b => exact SetUsingCityStrategy_lengths t s e b
  | DoTurn c => exact DoTurn_lengths gc c s

theorem apply_flag_cases (gc : CvGlobals) (s : CvCityStrategyAI) (call : CvCall) (e : Nat)
    (hlen : s.m_pabUsingCityStrategy.length = s.m_paiTurnCityStrategyAdopted.length) :
    ((apply gc s call).IsUsingCityStrategy e = s.IsUsingCityStrategy e ∧
      (apply gc s call).GetTurnCityStrategyAdopted e = s.GetTurnCityStrategyAdopted e) ∨
    (s.IsUsingCityStrategy e = false ∧ (apply gc s call).IsUsingCityStrategy e = true ∧
      (apply gc s call).GetTurnCityStrategyAdopted e = call.gameTurn) ∨
    (s.IsUsingCityStrategy e = true ∧ (apply gc s call).IsUsingCityStrategy e = false ∧
      (apply gc s call).GetTurnCityStrategyAdopted e = -1) := by
  cases call with
  | SetUsingCityStrategy t e' b => exact SetUsingCityStrategy_cases t s e' b e hlen
  | DoTurn c => exact DoTurn_flag_cases gc c s e hlen

/-- The invariant of a call sequence: the two arrays have the same length, the flag of
`e` is set exactly when its turn-adopted value is not -1, and for an active `e` that value
is the recorded turn of the last switch-on. -/
theorem run_invariant (gc : CvGlobals) (e : Nat) (calls : List CvCall) :
    ∀ (s : CvCityStrategyAI) (acc : Option Int),
      (∀ call ∈ calls, 0 ≤ call.gameTurn) →
      s.m_pabUsingCityStrategy.length = s.m_paiTurnCityStrategyAdopted.length →
      (s.IsUsingCityStrategy e = true ↔ s.GetTurnCityStrategyAdopted e ≠ -1) →
      (s.IsUsingCityStrategy e = true → acc = some (s.GetTurnCityStrategyAdopted e)) →
      ((run gc s calls).IsUsingCityStrategy e = true ↔
        (run gc s calls).GetTurnCityStrategyAdopted e ≠ -1) ∧
      ((run gc s calls).IsUsingCityStrategy e = true →
        turnLastSwitchedOn gc e s calls acc =
          some ((run gc s calls).GetTurnCityStrategyAdopted e)) := by
  induction calls with
  | nil =>
    intro s acc _ _ hiff hacc
    exact ⟨hiff, hacc⟩
  | cons call rest ih =>
    intro s acc hturn hlen hiff hacc
    have ht : 0 ≤ call.gameTurn := hturn call (List.mem_cons_self _ _)
    have hrest : ∀ call' ∈ rest, 0 ≤ call'.gameTurn :=
      fun c' hc' => hturn c' (List.mem_cons_of_mem _ hc')
    obtain ⟨l1, l2⟩ := apply_lengths gc s call
    have hlen' : (apply gc s call).m_pabUsingCityStrategy.length =
        (apply gc s call).m_paiTurnCityStrategyAdopted.length := by omega
    show ((run gc (apply gc s call) rest).IsUsingCityStrategy e = true ↔ _) ∧ _
    unfold turnLastSwitchedOn
    apply ih (apply gc s call) _ hrest hlen'
    · rcases apply_flag_cases gc s call e hlen with ⟨h1, h2⟩ | ⟨_, h1, h2⟩ | ⟨_, h1, h2⟩
      · rw [h1, h2]; exact hiff
      · rw [h1, h2]; simp; omega
      · rw [h1, h2]; simp
    · intro hact
      rcases apply_flag_cases gc s call e hlen with ⟨h1, h2⟩ | ⟨h0, h1, h2⟩ | ⟨_, h1, _⟩
      · have hs : s.IsUsingCityStrategy e = true := by rw [← h1]; exact hact
        rw [if_neg (by rw [hs]; simp), h2]
        exact hacc hs
      · rw [if_pos ⟨h0, h1⟩, h2]
      · rw [h1] at hact
        exact Bool.noConfusion hact

theorem Reset_inactive (gc : CvGlobals) (ai : CvCityStrategyAI) (e : Nat) :
    (Reset gc ai).IsUsingCityStrategy e = false ∧
    (Reset gc ai).GetTurnCityStrategyAdopted e = -1 ∧
    (Reset gc ai).m_pabUsingCityStrategy.length =
      (Reset gc ai).m_paiTurnCityStrategyAdopted.length := by
  refine ⟨?_, ?_, ?_⟩
  · unfold IsUsingCityStrategy Reset
    simp only [List.getD_eq_getElem?_getD, List.getElem?_replicate]
    split_ifs <;> rfl
  · unfold GetTurnCityStrategyAdopted Reset
    simp only [List.getD_eq_getElem?_getD, List.getElem?_replicate]
    split_ifs <;> rfl
  · simp [Reset]

end CvCall

/-! ## Lemmas on running DoTurn twice -/

namespace CvCityStrategyAI

theorem SetUsingCityStrategy_otherFields (t : Int) (ai : CvCityStrategyAI) (e : Nat)
    (b : Bool) :
    (SetUsingCityStrategy t ai e b).m_eSpecialization = ai.m_eSpecialization ∧
    (SetUsingCityStrategy t ai e b).m_eDefaultSpecialization = ai.m_eDefaultSpecialization ∧
    (SetUsingCityStrategy t ai e b).m_aiYieldModifier = ai.m_aiYieldModifier ∧
    (SetUsingCityStrategy t ai e b).m_eMostDeficientYield = ai.m_eMostDeficientYield ∧
    (SetUsingCityStrategy t ai e b).m_eMostAbundantYield = ai.m_eMostAbundantYield := by
  unfold SetUsingCityStrategy SetTurnCityStrategyAdopted
  cases b <;> simp only [] <;> split_ifs <;> exact ⟨rfl, rfl, rfl, rfl, rfl⟩

theorem DoTurnStrategy_otherFields (gc : CvGlobals) (c : CvCity) (ai : CvCityStrategyAI)
    (e : Nat) :
    (DoTurnStrategy gc c ai e).m_eSpecialization = ai.m_eSpecialization ∧
    (DoTurnStrategy gc c ai e).m_eDefaultSpecialization = ai.m_eDefaultSpecialization ∧
    (DoTurnStrategy gc c ai e).m_aiYieldModifier = ai.m_aiYieldModifier ∧
    (DoTurnStrategy gc c ai e).m_eMostDeficientYield = ai.m_eMostDeficientYield ∧
    (DoTurnStrategy gc c ai e).m_eMostAbundantYield = ai.m_eMostAbundantYield := by
  rcases DoTurnStrategy_cases gc c ai e with h1 | ⟨p, _, _, h1⟩ | ⟨p, _, _, h1⟩
  · rw [h1]; exact ⟨rfl, rfl, rfl, rfl, rfl⟩
  · rw [h1]; exact SetUsingCityStrategy_otherFields c.gameTurn ai e true
  · rw [h1]; exact SetUsingCityStrategy_otherFields c.gameTurn ai e false

theorem strategyLoop_otherFields (gc : CvGlobals) (c : CvCity) (n : Nat)
    (s : CvCityStrategyAI) :
    ((List.range n).foldl (DoTurnStrategy gc c) s).m_eSpecialization = s.m_eSpecialization ∧
    ((List.range n).foldl (DoTurnStrategy gc c) s).m_eDefaultSpecialization =
      s.m_eDefaultSpecialization ∧
    ((List.range n).foldl (DoTurnStrategy gc c) s).m_aiYieldModifier = s.m_aiYieldModifier ∧
    ((List.range n).foldl (DoTurnStrategy gc c) s).m_eMostDeficientYield =
      s.m_eMostDeficientYield ∧
    ((List.range n).foldl (DoTurnStrategy gc c) s).m_eMostAbundantYield =
      s.m_eMostAbundantYield := by
  induction n with
  | zero => exact ⟨rfl, rfl, rfl, rfl, rfl⟩
  | succ n ih =>
    rw [List.range_succ, List.foldl_append]
    simp only [List.foldl_cons, List.foldl_nil]
    obtain ⟨a1, a2, a3, a4, a5⟩ :=
      DoTurnStrategy_otherFields gc c ((List.range n).foldl (DoTurnStrategy gc c) s) n
    obtain ⟨b1, b2, b3, b4, b5⟩ := ih
    exact ⟨a1.trans b1, a2.trans b2, a3.trans b3, a4.trans b4, a5.trans b5⟩

/-- The body of strategy `k` changes nothing that a predicate of a strategy `e ≤ k` with
the reading discipline of `sameBelow` can see. -/
theorem sameBelow_DoTurnStrategy (gc : CvGlobals) (c : CvCity) (s : CvCityStrategyAI)
    (e k : Nat) (hek : e ≤ k) : sameBelow e (DoTurnStrategy gc c s k) s := by
  obtain ⟨a1, a2, a3, a4, a5⟩ := DoTurnStrategy_otherFields gc c s k
  refine ⟨fun j hj => ?_, a1, a2, a3, a4, a5⟩
  exact (DoTurnStrategy_frame gc c s k j (by omega)).1

theorem bStrategyShouldBeActive_congr (gc : CvGlobals) (c : CvCity) (e : Nat)
    (p : CvAICityStrategyEntry) (ai1 ai2 : CvCityStrategyAI)
    (h : c.IsTestCityStrategy p.m_strType e ai1 = c.IsTestCityStrategy p.m_strType e ai2) :
    bStrategyShouldBeActive gc c ai1 e p = bStrategyShouldBeActive gc c ai2 e p := by
  unfold bStrategyShouldBeActive checkTriggers
  simp only [h]

/-- Local idempotence of the loop body: on a state `t` that has the flag and the
turn-adopted value of `e` that the body of `e` left, and on which the trigger of `e`
answers as before, the body of `e` changes nothing. -/
theorem DoTurnStrategy_stable (gc : CvGlobals) (c : CvCity) (s t : CvCityStrategyAI) (e : Nat)
    (hl : ∀ p, gc.GetEntry e = some p →
      e < s.m_pabUsingCityStrategy.length ∧ e < s.m_paiTurnCityStrategyAdopted.length)
    (ht1 : t.IsUsingCityStrategy e = (DoTurnStrategy gc c s e).IsUsingCityStrategy e)
    (ht2 : t.GetTurnCityStrategyAdopted e =
      (DoTurnStrategy gc c s e).GetTurnCityStrategyAdopted e)
    (hsh : ∀ p, gc.GetEntry e = some p →
      bStrategyShouldBeActive gc c t e p = bStrategyShouldBeActive gc c s e p) :
    DoTurnStrategy gc c t e = t := by
  cases hentry : gc.GetEntry e with
  | none => exact DoTurnStrategy_hole gc c t e hentry
  | some p =>
    obtain ⟨hl1, hl2⟩ := hl p hentry
    have hsh' := hsh p hentry
    cases hskip : skipForMinorCiv c p with
    | true => exact DoTurnStrategy_skip gc c t e p hentry hskip
    | false =>
      by_cases h1 : bStrategyShouldBeActive gc c s e p = true ∧
          bTestCityStrategyStart c p (s.IsUsingCityStrategy e) = true
      · -- the adopt arm fired on `s`
        have hu := using_of_testStart h1.2
        rw [DoTurnStrategy_adopt gc c s e p hentry hskip h1.1 h1.2] at ht1 ht2
        rw [IsUsing_adoptCityStrategy gc c s e p hl1] at ht1
        apply DoTurnStrategy_unchanged gc c t e p hentry
        · rintro ⟨_, h⟩
          have := using_of_testStart h
          rw [ht1] at this
          exact Bool.noConfusion this
        · rintro ⟨h, _⟩
          rw [hsh', h1.1] at h
          exact Bool.noConfusion h
      · by_cases h2 : bStrategyShouldBeActive gc c s e p = false ∧
            bTestCityStrategyEnd c.gameTurn p (s.IsUsingCityStrategy e)
              (s.GetTurnCityStrategyAdopted e) = true
        · -- the end arm fired on `s`
          rw [DoTurnStrategy_end gc c s e p hentry hskip h2.1 h2.2] at ht1 ht2
          rw [IsUsing_endCityStrategy gc c s e p] at ht1
          apply DoTurnStrategy_unchanged gc c t e p hentry
          · rintro ⟨h, _⟩
            rw [hsh', h2.1] at h
            exact Bool.noConfusion h
          · rintro ⟨_, h⟩
            have := using_of_testEnd h
            rw [ht1] at this
            exact Bool.noConfusion this
        · -- no arm fired on `s`
          rw [DoTurnStrategy_unchanged gc c s e p hentry h1 h2] at ht1 ht2
          apply DoTurnStrategy_unchanged gc c t e p hentry
          · rw [hsh', ht1]; exact h1
          · rw [hsh', ht1, ht2]; exact h2

/-- After the first `k` bodies of the strategy loop, every one of them is stable: run
again on the state reached, it changes nothing. -/
theorem strategyLoop_stable (gc : CvGlobals) (c : CvCity) (s0 : CvCityStrategyAI)
    (hlenF : gc.GetNumAICityStrategies ≤ s0.m_pabUsingCityStrategy.length)
    (hlenT : gc.GetNumAICityStrategies ≤ s0.m_paiTurnCityStrategyAdopted.length)
    (hdep : ∀ (e : Nat) (p : CvAICityStrategyEntry), gc.GetEntry e = some p →
      ∀ ai1 ai2 : CvCityStrategyAI, sameBelow e ai1 ai2 →
        c.IsTestCityStrategy p.m_strType e ai1 = c.IsTestCityStrategy p.m_strType e ai2) :
    ∀ (k e : Nat), e < k →
      DoTurnStrategy gc c ((List.range k).foldl (DoTurnStrategy gc c) s0) e =
        (List.range k).foldl (DoTurnStrategy gc c) s0 := by
  intro k
  induction k with
  | zero => intro e he; exact absurd he (Nat.not_lt_zero e)
  | succ k ih =>
    intro e he
    rw [List.range_succ, List.foldl_append]
    simp only [List.foldl_cons, List.foldl_nil]
    obtain ⟨l1, l2⟩ := strategyLoop_lengths gc c k s0
    have hl : ∀ (e' : Nat) (p : CvAICityStrategyEntry), gc.GetEntry e' = some p →
        e' < ((List.range k).foldl (DoTurnStrategy gc c) s0).m_pabUsingCityStrategy.length ∧
        e' < ((List.range k).foldl (DoTurnStrategy gc c) s0).m_paiTurnCityStrategyAdopted.length := by
      intro e' p hp
      have := GetEntry_lt gc e' p hp
      omega
    by_cases hek : e = k
    · subst hek
      apply DoTurnStrategy_stable gc c ((List.range e).foldl (DoTurnStrategy gc c) s0) _ e
        (hl e) rfl rfl
      intro p hp
      exact bStrategyShouldBeActive_congr gc c e p _ _
        (hdep e p hp _ _ (sameBelow_DoTurnStrategy gc c _ e e le_rfl))
    · have hlt : e < k := by omega
      have hst := ih e hlt
      obtain ⟨f1, f2⟩ := DoTurnStrategy_frame gc c
        ((List.range k).foldl (DoTurnStrategy gc c) s0) k e hek
      apply DoTurnStrategy_stable gc c ((List.range k).foldl (DoTurnStrategy gc c) s0) _ e
        (hl e)
      · rw [hst]; exact f1
      · rw [hst]; exact f2
      · intro p hp
        exact bStrategyShouldBeActive_congr gc c e p _ _
          (hdep e p hp _ _ (sameBelow_DoTurnStrategy gc c _ e k (by omega)))

/-- A state on which every body is stable is a fixed point of the strategy loop. -/
theorem strategyLoop_fixed (gc : CvGlobals) (c : CvCity) (s : CvCityStrategyAI) (n : Nat)
    (h : ∀ e, e < n → DoTurnStrategy gc c s e = s) :
    (List.range n).foldl (DoTurnStrategy gc c) s = s := by
  induction n with
  | zero => rfl
  | succ n ih =>
    rw [List.range_succ, List.foldl_append]
    simp only [List.foldl_cons, List.foldl_nil]
    rw [ih (fun e he => h e (by omega))]
    exact h n (by omega)

theorem modifierLoop_idem (g : Nat → Int) (n : Nat) (m : List Int) :
    (List.range n).foldl (fun m iI => m.set iI (g iI))
      ((List.range n).foldl (fun m iI => m.set iI (g iI)) m) =
    (List.range n).foldl (fun m iI => m.set iI (g iI)) m := by
  apply List.ext_getElem?
  intro k
  rw [getElem?_modifierLoop, getElem?_modifierLoop]
  by_cases hk : k < n
  · simp only [hk, if_true]
    cases m[k]? <;> rfl
  · simp only [hk, if_false]

/-- The yield statistics are recomputed to the same values after the strategy loop. -/
theorem PrecalcYieldStats_strategyLoop (gc : CvGlobals) (c : CvCity) (ai : CvCityStrategyAI)
    (n : Nat) :
    PrecalcYieldStats gc c ((List.range n).foldl (DoTurnStrategy gc c)
      (PrecalcYieldStats gc c ai)) =
    (List.range n).foldl (DoTurnStrategy gc c) (PrecalcYieldStats gc c ai) := by
  obtain ⟨_, _, a3, a4, a5⟩ := strategyLoop_otherFields gc c n (PrecalcYieldStats gc c ai)
  generalize hF : (List.range n).foldl (DoTurnStrategy gc c) (PrecalcYieldStats gc c ai) = F
    at a3 a4 a5
  have b3 : (PrecalcYieldStats gc c F).m_aiYieldModifier = F.m_aiYieldModifier := by
    rw [a3]
    show (List.range gc.NUM_YIELD_TYPES).foldl _ F.m_aiYieldModifier = _
    rw [a3]
    exact modifierLoop_idem _ _ _
  have b4 : (PrecalcYieldStats gc c F).m_eMostDeficientYield = F.m_eMostDeficientYield :=
    a4.symm
  have b5 : (PrecalcYieldStats gc c F).m_eMostAbundantYield = F.m_eMostAbundantYield :=
    a5.symm
  cases F
  simp only [PrecalcYieldStats] at b3 b4 b5 ⊢
  simp only [b3, b4, b5]

/-- `DoTurn` run twice in the same situation gives what it gives run once, when every
trigger predicate keeps to the reading discipline of `sameBelow`. -/
theorem DoTurn_idempotent (gc : CvGlobals) (c : CvCity) (ai : CvCityStrategyAI)
    (hlenF : gc.GetNumAICityStrategies ≤ ai.m_pabUsingCityStrategy.length)
    (hlenT : gc.GetNumAICityStrategies ≤ ai.m_paiTurnCityStrategyAdopted.length)
    (hdep : ∀ (e : Nat) (p : CvAICityStrategyEntry), gc.GetEntry e = some p →
      ∀ ai1 ai2 : CvCityStrategyAI, sameBelow e ai1 ai2 →
        c.IsTestCityStrategy p.m_strType e ai1 = c.IsTestCityStrategy p.m_strType e ai2) :
    DoTurn gc c (DoTurn gc c ai) = DoTurn gc c ai := by
  unfold DoTurn
  rw [PrecalcYieldStats_strategyLoop]
  exact strategyLoop_fixed gc c _ _
    (strategyLoop_stable gc c (PrecalcYieldStats gc c ai) hlenF hlenT hdep
      gc.GetNumAICityStrategies)

end CvCityStrategyAI

/-! ## The claims on repeated evaluation and on the hurry boost -/

/-- C21, as stated, fails: with "Enough Tile Improvers" before "Need Tile Improvers" in
the catalog, both rechecked every turn, one worker and one city, the first `DoTurn` at
turn 40 adopts both strategies, and a second `DoTurn` in the same situation ends "Enough
Tile Improvers" again, because its predicate reads the flag of "Need Tile Improvers" that
the first run has set; the flavor accumulator changes too. -/
theorem C21_counterexample :
    (DoTurn Sample.enoughFirst Sample.enoughFirstCity Sample.twoInactive).m_pabUsingCityStrategy
      = [true, true] ∧
    (DoTurn Sample.enoughFirst Sample.enoughFirstCity Sample.twoInactive).m_piLatestFlavorValues
      = [10, 18, 30] ∧
    (DoTurn Sample.enoughFirst Sample.enoughFirstCity
      (DoTurn Sample.enoughFirst Sample.enoughFirstCity Sample.twoInactive)).m_pabUsingCityStrategy
      = [false, true] ∧
    (DoTurn Sample.enoughFirst Sample.enoughFirstCity
      (DoTurn Sample.enoughFirst Sample.enoughFirstCity
        Sample.twoInactive)).m_paiTurnCityStrategyAdopted = [-1, 40] ∧
    (DoTurn Sample.enoughFirst Sample.enoughFirstCity
      (DoTurn Sample.enoughFirst Sample.enoughFirstCity Sample.twoInactive)).m_piLatestFlavorValues
      = [10, 24, 30] := by
  decide

/-- C21, amended (idempotent evaluation under a reading discipline): when the two
strategy arrays cover the catalog and the trigger predicate of every strategy reads, of
the engine's own state, at most the yield statistics, the specialization and the active
flags of the strategies that come before it in the catalog, running `DoTurn` a second
time in the same situation yields the same state as running it once: the same active
flags, turn-adopted values and flavor accumulator. -/
theorem C21_idempotent_evaluation (gc : CvGlobals) (c : CvCity) (ai : CvCityStrategyAI)
    (hlenF : gc.GetNumAICityStrategies ≤ ai.m_pabUsingCityStrategy.length)
    (hlenT : gc.GetNumAICityStrategies ≤ ai.m_paiTurnCityStrategyAdopted.length)
    (hdep : ∀ (e : Nat) (p : CvAICityStrategyEntry), gc.GetEntry e = some p →
      ∀ ai1 ai2 : CvCityStrategyAI, sameBelow e ai1 ai2 →
        c.IsTestCityStrategy p.m_strType e ai1 = c.IsTestCityStrategy p.m_strType e ai2) :
    DoTurn gc c (DoTurn gc c ai) = DoTurn gc c ai ∧
    (DoTurn gc c (DoTurn gc c ai)).m_pabUsingCityStrategy =
      (DoTurn gc c ai).m_pabUsingCityStrategy ∧
    (DoTurn gc c (DoTurn gc c ai)).m_paiTurnCityStrategyAdopted =
      (DoTurn gc c ai).m_paiTurnCityStrategyAdopted ∧
    (DoTurn gc c (DoTurn gc c ai)).m_piLatestFlavorValues =
      (DoTurn gc c ai).m_piLatestFlavorValues := by
  have h := DoTurn_idempotent gc c ai hlenF hlenT hdep
  exact ⟨h, by rw [h], by rw [h], by rw [h]⟩

/-- Witness of C21 (amended): with "Need Tile Improvers" before "Enough Tile Improvers"
in the catalog the reading discipline holds and the second run changes nothing. -/
theorem C21_idempotent_evaluation_witness :
    DoTurn Sample.needFirst Sample.needFirstCity
        (DoTurn Sample.needFirst Sample.needFirstCity Sample.twoInactive) =
      DoTurn Sample.needFirst Sample.needFirstCity Sample.twoInactive :=
  (C21_idempotent_evaluation Sample.needFirst Sample.needFirstCity Sample.twoInactive
    (by decide) (by decide)
    (fun e p hp ai1 ai2 h => by
      match e, hp, h with
      | 0, hp, _ =>
        have hp' : some Sample.needTileImprovers = some p := hp
        obtain rfl := Option.some.inj hp'
        rfl
      | 1, hp, h =>
        have hp' : some Sample.enoughTileImprovers = some p := hp
        obtain rfl := Option.some.inj hp'
        have h0 : ai1.IsUsingCityStrategy 0 = ai2.IsUsingCityStrategy 0 := h.1 0 (by omega)
        show CityStrategyAIHelpers.IsTestCityStrategy_EnoughTileImprovers Sample.needFirst
            (Sample.tileImproverQueries 0) (Sample.city 40 5 []) 1 ai1 =
          CityStrategyAIHelpers.IsTestCityStrategy_EnoughTileImprovers Sample.needFirst
            (Sample.tileImproverQueries 0) (Sample.city 40 5 []) 1 ai2
        unfold CityStrategyAIHelpers.IsTestCityStrategy_EnoughTileImprovers
          IsUsingCityStrategyByType
        have h1 : (Sample.tileImproverQueries 0).eNeedImproversStrategy.toNat = 0 := rfl
        rw [h1, h0]
      | k + 2, hp, _ =>
        exact Option.noConfusion (show (none : Option CvAICityStrategyEntry) = some p from hp))).1

/-- C22, as stated, fails: two purchasable buildings with the same sanity weight 10, one
with 1 percent and one with 2 percent of its production invested, get the weights 1010
and 510: the boosted weight falls as the invested percentage grows. -/
theorem C22_counterexample :
    ChooseHurry_buildingBoost Sample.contextPartlyBuilt 0 10 = 1010 ∧
    ChooseHurry_buildingBoost Sample.contextPartlyBuilt 1 10 = 510 ∧
    (ChooseHurry_final Sample.contextPartlyBuilt false false 3).map
      (fun x => (x.1.m_eBuildableType, x.1.m_iIndex, x.2)) =
        [(CITY_BUILDABLE_BUILDING, 0, 1010), (CITY_BUILDABLE_BUILDING, 1, 510)] := by
  decide

/-- C22, amended (hurry building boost): in `ChooseHurry` a building candidate with
invested production whose invested percentage `p` (integer division) is below 50 gets
the weight `w * (100 + p) / max(1, p)` for its sanity weight `w`; for `w ≥ 0` this is at
least `3 * w`, and for a fixed `w ≥ 0` it does not increase as `p` grows from 1 on (the
boost is largest for the least invested building); a building with no invested
production or with `p ≥ 50` keeps its sanity weight; the candidate is kept, with this
weight as its stored value, exactly when the weight is above zero. -/
theorem C22_hurry_boost (ctx : CvProductionContext) (e w : Int) :
    (ctx.GetBuildingProductionTimes100 e ≤ 0 → ChooseHurry_buildingBoost ctx e w = w) ∧
    (50 ≤ (ctx.GetBuildingProductionTimes100 e).tdiv (max 1 (ctx.getProductionNeeded e)) →
      ChooseHurry_buildingBoost ctx e w = w) ∧
    (0 < ctx.GetBuildingProductionTimes100 e →
      (ctx.GetBuildingProductionTimes100 e).tdiv (max 1 (ctx.getProductionNeeded e)) < 50 →
      ChooseHurry_buildingBoost ctx e w =
        (w * (100 + (ctx.GetBuildingProductionTimes100 e).tdiv
          (max 1 (ctx.getProductionNeeded e)))).tdiv
        (max 1 ((ctx.GetBuildingProductionTimes100 e).tdiv
          (max 1 (ctx.getProductionNeeded e)))) ∧
      (0 ≤ w → 3 * w ≤ ChooseHurry_buildingBoost ctx e w)) ∧
    (∀ (ctx2 : CvProductionContext) (e2 : Int), 0 ≤ w →
      0 < ctx.GetBuildingProductionTimes100 e → 0 < ctx2.GetBuildingProductionTimes100 e2 →
      1 ≤ (ctx.GetBuildingProductionTimes100 e).tdiv (max 1 (ctx.getProductionNeeded e)) →
      (ctx.GetBuildingProductionTimes100 e).tdiv (max 1 (ctx.getProductionNeeded e)) ≤
        (ctx2.GetBuildingProductionTimes100 e2).tdiv (max 1 (ctx2.getProductionNeeded e2)) →
      (ctx2.GetBuildingProductionTimes100 e2).tdiv (max 1 (ctx2.getProductionNeeded e2)) < 50 →
      ChooseHurry_buildingBoost ctx2 e2 w ≤ ChooseHurry_buildingBoost ctx e w) ∧
    (∀ (b : CvCityBuildable) (iWeight : Int),
      b.m_eBuildableType = CITY_BUILDABLE_BUILDING → b.m_iIndex = e →
      w = ctx.CheckBuildingBuildSanity e iWeight →
      ChooseHurry_sanity ctx b iWeight =
        if ChooseHurry_buildingBoost ctx e w > 0 then
          some ({ b with m_iValue := ChooseHurry_buildingBoost ctx e w },
            ChooseHurry_buildingBoost ctx e w)
        else none) := by
  refine ⟨?_, ?_, ?_, ?_, ?_⟩
  · intro h
    rw [ChooseHurry_buildingBoost_eq, if_neg (fun hh => by omega)]
  · intro h
    rw [ChooseHurry_buildingBoost_eq, if_neg (fun hh => by omega)]
  · intro h1 h2
    rw [ChooseHurry_buildingBoost_eq, if_pos ⟨h1, h2⟩]
    refine ⟨rfl, fun hw => ?_⟩
    exact hurryBoost_ge w _ hw
      (Int.tdiv_nonneg (by omega) (le_trans (by decide) (le_max_left 1 _))) h2
  · intro ctx2 e2 hw h1 h2 hp hpq hq
    rw [ChooseHurry_buildingBoost_eq, if_pos ⟨h2, hq⟩, ChooseHurry_buildingBoost_eq,
      if_pos ⟨h1, by omega⟩]
    exact hurryBoost_antitone w _ _ hw hp hpq
  · intro b iWeight hk hi hw
    subst hi hw
    simp only [ChooseHurry_sanity, hk]

/-- Witness of C22 (amended): in the sample city the building with 2 percent invested
gets no more weight than the building with 1 percent invested. -/
theorem C22_hurry_boost_witness :
    ChooseHurry_buildingBoost Sample.contextPartlyBuilt 1 10 ≤
      ChooseHurry_buildingBoost Sample.contextPartlyBuilt 0 10 :=
  (C22_hurry_boost Sample.contextPartlyBuilt 0 10).2.2.2.1 Sample.contextPartlyBuilt 1
    (by decide) (by decide) (by decide) (by decide) (by decide) (by decide)

/-! ## The claims on the start and end tests -/

/-- C23 (testStart definition): in `DoTurn`, for a strategy with a catalog entry,
`bTestCityStrategyStart` is true if and only if the strategy is not active, its tech
prerequisite is absent or known to the team, and its obsoleting tech is absent or not
known to the team; a strategy that is not skipped is adopted by the loop body exactly
when this test and its trigger are both true, and an inactive strategy for which the test
is false is left alone. -/
theorem C23_testStart_definition (gc : CvGlobals) (c : CvCity) (ai : CvCityStrategyAI)
    (e : Nat) (p : CvAICityStrategyEntry) (hentry : gc.GetEntry e = some p) :
    (bTestCityStrategyStart c p (ai.IsUsingCityStrategy e) = true ↔
      (ai.IsUsingCityStrategy e = false ∧
        (p.GetTechPrereq = NO_TECH ∨ c.teamHasTech p.GetTechPrereq = true) ∧
        (p.GetTechObsolete = NO_TECH ∨ c.teamHasTech p.GetTechObsolete = false))) ∧
    (skipForMinorCiv c p = false →
      bTestCityStrategyStart c p (ai.IsUsingCityStrategy e) = true →
      DoTurnStrategy gc c ai e =
        if bStrategyShouldBeActive gc c ai e p = true then adoptCityStrategy gc c ai e p
        else ai) ∧
    (ai.IsUsingCityStrategy e = false →
      bTestCityStrategyStart c p (ai.IsUsingCityStrategy e) = false →
      DoTurnStrategy gc c ai e = ai) := by
  refine ⟨bTestCityStrategyStart_iff c p _, ?_, ?_⟩
  · intro hskip hst
    have hu := using_of_testStart hst
    have hend : bTestCityStrategyEnd c.gameTurn p (ai.IsUsingCityStrategy e)
        (ai.GetTurnCityStrategyAdopted e) = false := by
      rw [hu]; simp [bTestCityStrategyEnd]
    rw [DoTurnStrategy_table gc c ai e p hentry hskip]
    by_cases hs : bStrategyShouldBeActive gc c ai e p = true
    · rw [if_pos ⟨hst, hs⟩, if_pos hs]
    · rw [if_neg (fun h => hs h.2), if_neg (fun h => by rw [hend] at h; exact Bool.noConfusion h.1),
        if_neg hs]
  · intro hu hst
    apply DoTurnStrategy_unchanged gc c ai e p hentry
    · rintro ⟨_, h⟩
      rw [hst] at h
      exact Bool.noConfusion h
    · rintro ⟨_, h⟩
      have := using_of_testEnd h
      rw [hu] at this
      exact Bool.noConfusion this

/-- Witness of C23: the inactive small-city strategy, without tech conditions, is to be
tested for a start. -/
theorem C23_testStart_definition_witness :
    bTestCityStrategyStart (Sample.city 10 3 []) Sample.smallCity
      (Sample.inactive.IsUsingCityStrategy 0) = true :=
  (C23_testStart_definition (Sample.globals Sample.smallCity) (Sample.city 10 3 [])
    Sample.inactive 0 Sample.smallCity rfl).1.mpr
    ⟨by decide, Or.inl (by decide), Or.inl (by decide)⟩

/-- C24 (testEnd definition): in `DoTurn`, for a strategy with a catalog entry,
`bTestCityStrategyEnd` is true if and only if the strategy is active, is not permanent,
has a recheck interval `K > 0`, `(currentTurn - turnAdopted) mod K = 0`, and either the
minimum duration `N` is not above zero or `currentTurn ≥ turnAdopted + N`; the C++
remainder is zero exactly when the mathematical one is; a strategy that is not skipped is
ended by the loop body exactly when this test is true and its trigger is false, and an
active strategy for which the test is false is left alone. -/
theorem C24_testEnd_definition (gc : CvGlobals) (c : CvCity) (ai : CvCityStrategyAI)
    (e : Nat) (p : CvAICityStrategyEntry) (hentry : gc.GetEntry e = some p) :
    (bTestCityStrategyEnd c.gameTurn p (ai.IsUsingCityStrategy e)
        (ai.GetTurnCityStrategyAdopted e) = true ↔
      (ai.IsUsingCityStrategy e = true ∧ p.IsPermanent = false ∧
        0 < p.GetCheckTriggerTurnCount ∧
        (c.gameTurn - ai.GetTurnCityStrategyAdopted e) % p.GetCheckTriggerTurnCount = 0 ∧
        (p.GetMinimumNumTurnsExecuted ≤ 0 ∨
          c.gameTurn ≥ ai.GetTurnCityStrategyAdopted e + p.GetMinimumNumTurnsExecuted))) ∧
    ((c.gameTurn - ai.GetTurnCityStrategyAdopted e).tmod p.GetCheckTriggerTurnCount = 0 ↔
      (c.gameTurn - ai.GetTurnCityStrategyAdopted e) % p.GetCheckTriggerTurnCount = 0) ∧
    (skipForMinorCiv c p = false →
      bTestCityStrategyEnd c.gameTurn p (ai.IsUsingCityStrategy e)
        (ai.GetTurnCityStrategyAdopted e) = true →
      DoTurnStrategy gc c ai e =
        if bStrategyShouldBeActive gc c ai e p = true then ai
        else endCityStrategy gc c ai e p) ∧
    (ai.IsUsingCityStrategy e = true →
      bTestCityStrategyEnd c.gameTurn p (ai.IsUsingCityStrategy e)
        (ai.GetTurnCityStrategyAdopted e) = false →
      DoTurnStrategy gc c ai e = ai) := by
  refine ⟨bTestCityStrategyEnd_iff _ p _ _, tmod_eq_zero_iff_emod _ _, ?_, ?_⟩
  · intro hskip hend
    have hu := using_of_testEnd hend
    have hst : bTestCityStrategyStart c p (ai.IsUsingCityStrategy e) = false := by
      rw [hu]; simp [bTestCityStrategyStart]
    rw [DoTurnStrategy_table gc c ai e p hentry hskip]
    rw [if_neg (fun h => by rw [hst] at h; exact Bool.noConfusion h.1)]
    cases hs : bStrategyShouldBeActive gc c ai e p
    · rw [if_pos ⟨hend, rfl⟩]; simp
    · rw [if_neg (fun h => Bool.noConfusion h.2)]; simp
  · intro hu hend
    exact DoTurnStrategy_active_noEnd gc c ai e hu (fun q hq => by
      rw [hentry] at hq
      obtain rfl := Option.some.inj hq
      rw [← hu]; exact hend)

/-- Witness of C24: the small-city strategy adopted at turn 10 (recheck every 2 turns,
minimum duration 4) is to be tested for an end at turn 14. -/
theorem C24_testEnd_definition_witness :
    bTestCityStrategyEnd (Sample.city 14 3 []).gameTurn Sample.smallCity
      (Sample.active.IsUsingCityStrategy 0) (Sample.active.GetTurnCityStrategyAdopted 0) = true :=
  (C24_testEnd_definition (Sample.globals Sample.smallCity) (Sample.city 14 3 [])
    Sample.active 0 Sample.smallCity rfl).1.mpr
    ⟨by decide, by decide, by decide, by decide, Or.inr (by decide)⟩

/-! ## The claims on the inertia scan and on the sanity filter -/

/-- C25, as stated, fails: the final list is the worker at 101 and the warrior at 50, the
city is producing the warrior, and the inertia scan continues with the warrior because
50 is not below 101 / 2 = 50 in integer arithmetic, although 2 * 50 < 101. -/
theorem C25_counterexample :
    (ChooseProduction_buildables Sample.contextInertiaEdge (-1) (-1) Sample.production).map
      (fun x => (x.1.m_eBuildableType, x.1.m_iIndex, x.2)) =
        [(CITY_BUILDABLE_UNIT, 1, 101), (CITY_BUILDABLE_UNIT, 0, 50)] ∧
    ChooseProduction_inertia Sample.contextInertiaEdge false 101
      (ChooseProduction_buildables Sample.contextInertiaEdge (-1) (-1) Sample.production) =
        some ⟨CITY_BUILDABLE_UNIT, 0, 5, 50⟩ ∧
    (ChooseProduction Sample.seeder Sample.urand Sample.contextInertiaEdge (Sample.city 10 3 [])
      (-1) (-1) false true Sample.production).pushOrderCalls =
        [⟨OrderTypes.ORDER_TRAIN, 0, 1, false, true, false, false⟩] ∧
    ¬ (2 * (50 : Int) ≥ 101) := by
  decide

/-- C25, amended (inertia threshold with integer halving): whenever the inertia scan of
`ChooseProduction` continues the current build, the continued item is in the final list
with a weight of at least the top weight halved by C++ integer division, so that
`2 * weight + 1 ≥ top weight`, and `2 * weight ≥ top weight` when the top weight is even. -/
theorem C25_inertia_threshold (ctx : CvProductionContext) (eIgnoreBldg eIgnoreUnit : Int)
    (bInterruptBuildings : Bool) (st : CvProductionState) (b : CvCityBuildable)
    (hin : ChooseProduction_inertia ctx bInterruptBuildings
      (((ChooseProduction_buildables ctx eIgnoreBldg eIgnoreUnit st).head?.map Prod.snd).getD 0)
      (ChooseProduction_buildables ctx eIgnoreBldg eIgnoreUnit st) = some b) :
    ∃ w top, (b, w) ∈ ChooseProduction_buildables ctx eIgnoreBldg eIgnoreUnit st ∧
      ((ChooseProduction_buildables ctx eIgnoreBldg eIgnoreUnit st).head?.map Prod.snd) =
        some top ∧
      top.tdiv 2 ≤ w ∧ top ≤ 2 * w + 1 ∧ (top % 2 = 0 → top ≤ 2 * w) := by
  obtain ⟨w, hw, hle⟩ := ChooseProduction_inertia_weight ctx _ _ _ b hin
  cases hh : (ChooseProduction_buildables ctx eIgnoreBldg eIgnoreUnit st).head? with
  | none =>
    rw [List.head?_eq_none_iff.mp hh] at hw
    exact absurd hw (List.not_mem_nil _)
  | some top =>
    rw [hh] at hle
    simp only [Option.map_some', Option.getD_some] at hle
    refine ⟨w, top.2, hw, rfl, hle, half_tdiv_le _ _ (by omega), fun heven => ?_⟩
    by_cases h0 : 0 ≤ top.2
    · rw [Int.tdiv_eq_ediv h0 (by omega)] at hle
      omega
    · have := half_tdiv_le top.2 w (by omega)
      omega

/-- Witness of C25 (amended): the warrior at 50 under a top weight of 101. -/
theorem C25_inertia_threshold_witness :
    ∃ w top, ((⟨CITY_BUILDABLE_UNIT, 0, 5, 50⟩ : CvCityBuildable), w) ∈
        ChooseProduction_buildables Sample.contextInertiaEdge (-1) (-1) Sample.production ∧
      ((ChooseProduction_buildables Sample.contextInertiaEdge (-1) (-1)
        Sample.production).head?.map Prod.snd) = some top ∧
      top.tdiv 2 ≤ w ∧ top ≤ 2 * w + 1 ∧ (top % 2 = 0 → top ≤ 2 * w) :=
  C25_inertia_threshold Sample.contextInertiaEdge (-1) (-1) false Sample.production
    ⟨CITY_BUILDABLE_UNIT, 0, 5, 50⟩ (by decide)

/-- C27 (active flag and turn-adopted stay in step): starting from `Reset` and after any
sequence of `SetUsingCityStrategy` and `DoTurn` calls made at non-negative game turns, for
every strategy the active flag is set if and only if its turn-adopted value is not -1,
and while it is active the turn-adopted value is the game turn of the call that last
switched it from inactive to active; setting an active strategy to active again changes
nothing. -/
theorem C27_flag_and_turn_in_step (gc : CvGlobals) (ai0 : CvCityStrategyAI)
    (calls : List CvCall) (hturn : ∀ call ∈ calls, 0 ≤ call.gameTurn) (e : Nat) :
    ((CvCall.run gc (Reset gc ai0) calls).IsUsingCityStrategy e = true ↔
      (CvCall.run gc (Reset gc ai0) calls).GetTurnCityStrategyAdopted e ≠ -1) ∧
    ((CvCall.run gc (Reset gc ai0) calls).IsUsingCityStrategy e = true →
      CvCall.turnLastSwitchedOn gc e (Reset gc ai0) calls none =
        some ((CvCall.run gc (Reset gc ai0) calls).GetTurnCityStrategyAdopted e)) ∧
    (∀ (t : Int) (s : CvCityStrategyAI), s.IsUsingCityStrategy e = true →
      SetUsingCityStrategy t s e true = s) := by
  obtain ⟨r1, r2, r3⟩ := CvCall.Reset_inactive gc ai0 e
  obtain ⟨h1, h2⟩ := CvCall.run_invariant gc e calls (Reset gc ai0) none hturn r3
    (by rw [r1, r2]; simp) (by rw [r1]; intro h; exact Bool.noConfusion h)
  refine ⟨h1, h2, ?_⟩
  intro t s hs
  unfold SetUsingCityStrategy
  rw [if_neg (fun h => h hs)]

/-- Witness of C27: the small-city strategy is set active at turn 3, set active again at
turn 5, and a `DoTurn` at turn 6 leaves it alone: it is active with turn-adopted 3. -/
theorem C27_flag_and_turn_in_step_witness :
    ((CvCall.run (Sample.globals Sample.smallCity)
        (Reset (Sample.globals Sample.smallCity) Sample.active)
        [CvCall.SetUsingCityStrategy 3 0 true, CvCall.SetUsingCityStrategy 5 0 true,
          CvCall.DoTurn (Sample.city 6 3 [])]).IsUsingCityStrategy 0 = true ↔
      (CvCall.run (Sample.globals Sample.smallCity)
        (Reset (Sample.globals Sample.smallCity) Sample.active)
        [CvCall.SetUsingCityStrategy 3 0 true, CvCall.SetUsingCityStrategy 5 0 true,
          CvCall.DoTurn (Sample.city 6 3 [])]).GetTurnCityStrategyAdopted 0 ≠ -1) ∧
    CvCall.turnLastSwitchedOn (Sample.globals Sample.smallCity) 0
        (Reset (Sample.globals Sample.smallCity) Sample.active)
        [CvCall.SetUsingCityStrategy 3 0 true, CvCall.SetUsingCityStrategy 5 0 true,
          CvCall.DoTurn (Sample.city 6 3 [])] none = some 3 ∧
    (CvCall.run (Sample.globals Sample.smallCity)
        (Reset (Sample.globals Sample.smallCity) Sample.active)
        [CvCall.SetUsingCityStrategy 3 0 true, CvCall.SetUsingCityStrategy 5 0 true,
          CvCall.DoTurn (Sample.city 6 3 [])]).GetTurnCityStrategyAdopted 0 = 3 :=
  ⟨(C27_flag_and_turn_in_step (Sample.globals Sample.smallCity) Sample.active
      [CvCall.SetUsingCityStrategy 3 0 true, CvCall.SetUsingCityStrategy 5 0 true,
        CvCall.DoTurn (Sample.city 6 3 [])]
      (by decide) 0).1,
   by decide, by decide⟩

/-- C28 (testStart and testEnd are mutually exclusive): `DoTurn` never computes both
`bTestCityStrategyStart` and `bTestCityStrategyEnd` as true; the loop body of a strategy
that is not skipped is the two-arm table (adopt when the start test and the trigger are
true, else end when the end test is true and the trigger is false, else nothing), so the
`else if` arms lose no case; and after a whole `DoTurn` the flag and the turn-adopted
value of a strategy are what a single run of its loop body makes of the flag and value
from before the call: each strategy undergoes at most one transition per call. -/
theorem C28_start_end_exclusive (gc : CvGlobals) (c : CvCity) (ai : CvCityStrategyAI)
    (e : Nat) :
    (∀ (p : CvAICityStrategyEntry) (bUsing : Bool) (iTurnAdopted : Int),
      ¬ (bTestCityStrategyStart c p bUsing = true ∧
        bTestCityStrategyEnd c.gameTurn p bUsing iTurnAdopted = true)) ∧
    (∀ p : CvAICityStrategyEntry, gc.GetEntry e = some p → skipForMinorCiv c p = false →
      DoTurnStrategy gc c ai e =
        if bTestCityStrategyStart c p (ai.IsUsingCityStrategy e) = true ∧
            bStrategyShouldBeActive gc c ai e p = true then adoptCityStrategy gc c ai e p
        else if bTestCityStrategyEnd c.gameTurn p (ai.IsUsingCityStrategy e)
              (ai.GetTurnCityStrategyAdopted e) = true ∧
            bStrategyShouldBeActive gc c ai e p = false then endCityStrategy gc c ai e p
        else ai) ∧
    (∃ s0 : CvCityStrategyAI,
      s0.IsUsingCityStrategy e = ai.IsUsingCityStrategy e ∧
      s0.GetTurnCityStrategyAdopted e = ai.GetTurnCityStrategyAdopted e ∧
      (DoTurn gc c ai).IsUsingCityStrategy e =
        (DoTurnStrategy gc c s0 e).IsUsingCityStrategy e ∧
      (DoTurn gc c ai).GetTurnCityStrategyAdopted e =
        (DoTurnStrategy gc c s0 e).GetTurnCityStrategyAdopted e) ∧
    (ai.m_pabUsingCityStrategy.length = ai.m_paiTurnCityStrategyAdopted.length →
      ((DoTurn gc c ai).IsUsingCityStrategy e = ai.IsUsingCityStrategy e ∧
        (DoTurn gc c ai).GetTurnCityStrategyAdopted e = ai.GetTurnCityStrategyAdopted e) ∨
      (ai.IsUsingCityStrategy e = false ∧ (DoTurn gc c ai).IsUsingCityStrategy e = true ∧
        (DoTurn gc c ai).GetTurnCityStrategyAdopted e = c.gameTurn) ∨
      (ai.IsUsingCityStrategy e = true ∧ (DoTurn gc c ai).IsUsingCityStrategy e = false ∧
        (DoTurn gc c ai).GetTurnCityStrategyAdopted e = -1)) := by
  refine ⟨fun p bUsing t => testStart_testEnd_exclusive c p bUsing c.gameTurn t,
    fun p hp hskip => DoTurnStrategy_table gc c ai e p hp hskip, ?_,
    fun hlen => DoTurn_flag_cases gc c ai e hlen⟩
  obtain ⟨s0, h1, h2, _, _, h5, h6⟩ := DoTurn_single_body gc c ai e
  exact ⟨s0, h1, h2, h5, h6⟩

/-- Witness of C28: a `DoTurn` at turn 10 on the inactive small-city strategy with
population 3 switches it on once and stores turn 10. -/
theorem C28_start_end_exclusive_witness :
    (Sample.inactive.IsUsingCityStrategy 0 = false ∧
      (DoTurn (Sample.globals Sample.smallCity) (Sample.city 10 3 [])
        Sample.inactive).IsUsingCityStrategy 0 = true ∧
      (DoTurn (Sample.globals Sample.smallCity) (Sample.city 10 3 [])
        Sample.inactive).GetTurnCityStrategyAdopted 0 = 10) :=
  ((C28_start_end_exclusive (Sample.globals Sample.smallCity) (Sample.city 10 3 [])
    Sample.inactive 0).2.2.2 (by decide)).resolve_left (by decide) |>.resolve_right (by decide)

/-- C29 (city-size strategies partition the population range): for thresholds
small ≤ medium ≤ large and every population value, exactly one of
`IsTestCityStrategy_TinyCity`, `_SmallCity`, `_MediumCity` and `_LargeCity` returns true. -/
theorem C29_city_size_partition (gc : CvGlobals) (c : CvCity)
    (h1 : gc.AI_CITYSTRATEGY_SMALL_CITY_POP_THRESHOLD ≤
      gc.AI_CITYSTRATEGY_MEDIUM_CITY_POP_THRESHOLD)
    (h2 : gc.AI_CITYSTRATEGY_MEDIUM_CITY_POP_THRESHOLD ≤
      gc.AI_CITYSTRATEGY_LARGE_CITY_POP_THRESHOLD) :
    [CityStrategyAIHelpers.IsTestCityStrategy_TinyCity gc c,
      CityStrategyAIHelpers.IsTestCityStrategy_SmallCity gc c,
      CityStrategyAIHelpers.IsTestCityStrategy_MediumCity gc c,
      CityStrategyAIHelpers.IsTestCityStrategy_LargeCity gc c].count true = 1 := by
  unfold CityStrategyAIHelpers.IsTestCityStrategy_TinyCity
    CityStrategyAIHelpers.IsTestCityStrategy_SmallCity
    CityStrategyAIHelpers.IsTestCityStrategy_MediumCity
    CityStrategyAIHelpers.IsTestCityStrategy_LargeCity
  by_cases hS : c.m_iPopulation < gc.AI_CITYSTRATEGY_SMALL_CITY_POP_THRESHOLD <;>
    by_cases hM : c.m_iPopulation < gc.AI_CITYSTRATEGY_MEDIUM_CITY_POP_THRESHOLD <;>
    by_cases hL : c.m_iPopulation < gc.AI_CITYSTRATEGY_LARGE_CITY_POP_THRESHOLD <;>
    first
      | (exfalso; omega)
      | (have hS' : ¬ c.m_iPopulation ≥ gc.AI_CITYSTRATEGY_SMALL_CITY_POP_THRESHOLD := by omega
         simp [hS, hM, hL, hS'])
      | (have hS' : c.m_iPopulation ≥ gc.AI_CITYSTRATEGY_SMALL_CITY_POP_THRESHOLD := by omega
         have hM' : ¬ c.m_iPopulation ≥ gc.AI_CITYSTRATEGY_MEDIUM_CITY_POP_THRESHOLD := by omega
         simp [hS, hM, hL, hS', hM'])
      | (have hS' : c.m_iPopulation ≥ gc.AI_CITYSTRATEGY_SMALL_CITY_POP_THRESHOLD := by omega
         have hM' : c.m_iPopulation ≥ gc.AI_CITYSTRATEGY_MEDIUM_CITY_POP_THRESHOLD := by omega
         have hL' : ¬ c.m_iPopulation ≥ gc.AI_CITYSTRATEGY_LARGE_CITY_POP_THRESHOLD := by omega
         simp [hS, hM, hL, hS', hM', hL'])
      | (have hS' : c.m_iPopulation ≥ gc.AI_CITYSTRATEGY_SMALL_CITY_POP_THRESHOLD := by omega
         have hM' : c.m_iPopulation ≥ gc.AI_CITYSTRATEGY_MEDIUM_CITY_POP_THRESHOLD := by omega
         have hL' : c.m_iPopulation ≥ gc.AI_CITYSTRATEGY_LARGE_CITY_POP_THRESHOLD := by omega
         simp [hS, hM, hL, hS', hM', hL'])

/-- Witness of C29: with the thresholds 2, 7 and 15 a city of population 7 is a medium
city and nothing else. -/
theorem C29_city_size_partition_witness :
    [CityStrategyAIHelpers.IsTestCityStrategy_TinyCity (Sample.globals Sample.smallCity)
        (Sample.city 10 7 []),
      CityStrategyAIHelpers.IsTestCityStrategy_SmallCity (Sample.globals Sample.smallCity)
        (Sample.city 10 7 []),
      CityStrategyAIHelpers.IsTestCityStrategy_MediumCity (Sample.globals Sample.smallCity)
        (Sample.city 10 7 []),
      CityStrategyAIHelpers.IsTestCityStrategy_LargeCity (Sample.globals Sample.smallCity)
        (Sample.city 10 7 [])].count true = 1 :=
  C29_city_size_partition (Sample.globals Sample.smallCity) (Sample.city 10 7 [])
    (by decide) (by decide)

/-- C30 (no recheck interval means no deactivation): for a strategy whose
`CheckTriggerTurnCount` is 0 or negative (permanent or not), once it is active no sequence
of `DoTurn` calls, in whatever situations, deactivates it or changes its turn-adopted
value: its end test is never due, whatever its predicate returns and even when its
obsoleting tech is known; the constructor leaves the interval at 0. -/
theorem C30_no_recheck_no_deactivation (gc : CvGlobals) (ai : CvCityStrategyAI) (e : Nat)
    (p : CvAICityStrategyEntry) (hentry : gc.GetEntry e = some p)
    (hK : p.GetCheckTriggerTurnCount ≤ 0) (hact : ai.IsUsingCityStrategy e = true)
    (cities : List CvCity) :
    (cities.foldl (fun s c => DoTurn gc c s) ai).IsUsingCityStrategy e = true ∧
    (cities.foldl (fun s c => DoTurn gc c s) ai).GetTurnCityStrategyAdopted e =
      ai.GetTurnCityStrategyAdopted e ∧
    (∀ (t a : Int) (bUsing : Bool), bTestCityStrategyEnd t p bUsing a = false) ∧
    CvAICityStrategyEntry.constructed.GetCheckTriggerTurnCount = 0 ∧
    CvAICityStrategyEntry.constructed.IsPermanent = false := by
  have key : ∀ (cities : List CvCity) (s : CvCityStrategyAI),
      s.IsUsingCityStrategy e = true →
      (cities.foldl (fun s c => DoTurn gc c s) s).IsUsingCityStrategy e = true ∧
      (cities.foldl (fun s c => DoTurn gc c s) s).GetTurnCityStrategyAdopted e =
        s.GetTurnCityStrategyAdopted e := by
    intro cities
    induction cities with
    | nil => intro s hs; exact ⟨hs, rfl⟩
    | cons c rest ih =>
      intro s hs
      obtain ⟨k1, k2⟩ := DoTurn_keeps_active gc c s e hs (fun q hq => by
        rw [hentry] at hq
        obtain rfl := Option.some.inj hq
        exact bTestCityStrategyEnd_noRecheck _ _ _ _ hK)
      obtain ⟨i1, i2⟩ := ih (DoTurn gc c s) k1
      exact ⟨i1, i2.trans k2⟩
  exact ⟨(key cities ai hact).1, (key cities ai hact).2,
    fun t a bUsing => bTestCityStrategyEnd_noRecheck t p bUsing a hK, rfl, rfl⟩

/-- Witness of C30: the small-city strategy without a recheck interval, adopted at turn
10, stays active through two `DoTurn` calls although its obsoleting tech 7 is known and
the population has left the small-city range. -/
theorem C30_no_recheck_no_deactivation_witness :
    ([Sample.city 12 3 [7], Sample.city 14 30 [7]].foldl
      (fun s c => DoTurn (Sample.globals Sample.smallCityNoRecheck) c s)
      Sample.active).IsUsingCityStrategy 0 = true :=
  (C30_no_recheck_no_deactivation (Sample.globals Sample.smallCityNoRecheck) Sample.active 0
    Sample.smallCityNoRecheck rfl (by decide) (by decide)
    [Sample.city 12 3 [7], Sample.city 14 30 [7]]).1

/-! ## Lemmas on the duration reweighting -/

theorem truncateToInt_of_nonneg (x : ℚ) (hx : 0 ≤ x) : truncateToInt x = ⌊x⌋ := by
  unfold truncateToInt
  rw [Int.tdiv_eq_ediv (Rat.num_nonneg.mpr hx) (Int.ofNat_nonneg _), Rat.floor_def]

theorem truncateToInt_neg (x : ℚ) : truncateToInt (-x) = -truncateToInt x := by
  unfold truncateToInt
  rw [Rat.neg_num, Rat.neg_den, Int.neg_tdiv]

theorem truncateToInt_zero : truncateToInt 0 = 0 := by
  rw [truncateToInt_of_nonneg 0 le_rfl]
  simp

theorem truncateToInt_mono_nonneg (x y : ℚ) (hx : 0 ≤ x) (hxy : x ≤ y) :
    0 ≤ truncateToInt x ∧ truncateToInt x ≤ truncateToInt y := by
  rw [truncateToInt_of_nonneg x hx, truncateToInt_of_nonneg y (le_trans hx hxy)]
  exact ⟨Int.floor_nonneg.mpr hx, Int.floor_mono hxy⟩

theorem truncateToInt_mono_nonpos (x y : ℚ) (hy : y ≤ 0) (hxy : x ≤ y) :
    truncateToInt x ≤ truncateToInt y ∧ truncateToInt y ≤ 0 := by
  have h := truncateToInt_mono_nonneg (-y) (-x) (by linarith) (by linarith)
  rw [truncateToInt_neg, truncateToInt_neg] at h
  omega

/-- The sample power function is positive and monotone in both arguments for a base of at
least one. -/
theorem Sample.pow_contract (x x' y y' : ℚ) (hx : 1 ≤ x) (hxx : x ≤ x') (hyy : y ≤ y') :
    0 < Sample.pow x y ∧ Sample.pow x y ≤ Sample.pow x' y' := by
  unfold Sample.pow
  have hn : ⌈y⌉.toNat ≤ ⌈y'⌉.toNat := Int.toNat_le_toNat (Int.ceil_mono hyy)
  refine ⟨pow_pos (by linarith) _, ?_⟩
  calc x ^ ⌈y⌉.toNat ≤ x' ^ ⌈y⌉.toNat := pow_le_pow_left₀ (by linarith) hxx _
    _ ≤ x' ^ ⌈y'⌉.toNat := pow_le_pow_right₀ (by linarith) hn

theorem Sample.pow_natCast (x : ℚ) (n : Nat) : Sample.pow x (n : ℚ) = x ^ n := by
  unfold Sample.pow
  simp

/-! ## The claim on the duration reweighting -/

/-- C10, as stated, fails: with the positive factors 1 and 1 (divisor `t ^ (1 + t)`) the
weight 100 is reweighted to 0 at 4 turns left and to 0 at 5 turns left, and the weight 0
is reweighted to 0 at 1 and at 2 turns left: the result does not strictly decrease. -/
theorem C10_counterexample :
    CityStrategyAIHelpers.ReweightByTurnsLeft Sample.pow 1 1 100 3 = 1 ∧
    CityStrategyAIHelpers.ReweightByTurnsLeft Sample.pow 1 1 100 4 = 0 ∧
    CityStrategyAIHelpers.ReweightByTurnsLeft Sample.pow 1 1 100 5 = 0 ∧
    CityStrategyAIHelpers.ReweightByTurnsLeft Sample.pow 1 1 0 1 = 0 ∧
    CityStrategyAIHelpers.ReweightByTurnsLeft Sample.pow 1 1 0 2 = 0 := by
  have e3 : ((1 : ℚ) + ((3 : Int) : ℚ) * 1) = ((4 : Nat) : ℚ) := by norm_num
  have e4 : ((1 : ℚ) + ((4 : Int) : ℚ) * 1) = ((5 : Nat) : ℚ) := by norm_num
  have e5 : ((1 : ℚ) + ((5 : Int) : ℚ) * 1) = ((6 : Nat) : ℚ) := by norm_num
  refine ⟨?_, ?_, ?_, ?_, ?_⟩
  · unfold CityStrategyAIHelpers.ReweightByTurnsLeft
    simp only [e3, Sample.pow_natCast]
    rw [truncateToInt_of_nonneg _ (by norm_num), Int.floor_eq_iff]
    norm_num
  · unfold CityStrategyAIHelpers.ReweightByTurnsLeft
    simp only [e4, Sample.pow_natCast]
    rw [truncateToInt_of_nonneg _ (by norm_num), Int.floor_eq_iff]
    norm_num
  · unfold CityStrategyAIHelpers.ReweightByTurnsLeft
    simp only [e5, Sample.pow_natCast]
    rw [truncateToInt_of_nonneg _ (by norm_num), Int.floor_eq_iff]
    norm_num
  · unfold CityStrategyAIHelpers.ReweightByTurnsLeft
    simp [truncateToInt_zero]
  · unfold CityStrategyAIHelpers.ReweightByTurnsLeft
    simp [truncateToInt_zero]

/-- C10, amended (duration reweighting is monotone, not strictly): with a power function
that is positive and monotone in both arguments for a base of at least one, and positive
base and per-turn factors, `ReweightByTurnsLeft(weight, turnsLeft)` does not increase as
`turnsLeft` grows from 1 on when the weight is at least zero (and stays at least zero),
and does not decrease when the weight is at most zero (and stays at most zero); the
decrease is not strict: the weight 0 is reweighted to 0 at every turn count, whatever the
power function and the factors are. -/
theorem C10_duration_reweighting (pow : ℚ → ℚ → ℚ) (fBase fPerTurn : ℚ)
    (iOriginalWeight iTurnsLeft iTurnsLeft2 : Int)
    (hpow : ∀ x x2 y y2 : ℚ, 1 ≤ x → x ≤ x2 → 0 < y → y ≤ y2 →
      0 < pow x y ∧ pow x y ≤ pow x2 y2)
    (hbase : 0 < fBase) (hper : 0 < fPerTurn)
    (h1 : 1 ≤ iTurnsLeft) (h12 : iTurnsLeft ≤ iTurnsLeft2) :
    (0 ≤ iOriginalWeight →
      0 ≤ CityStrategyAIHelpers.ReweightByTurnsLeft pow fBase fPerTurn iOriginalWeight
        iTurnsLeft2 ∧
      CityStrategyAIHelpers.ReweightByTurnsLeft pow fBase fPerTurn iOriginalWeight
          iTurnsLeft2 ≤
        CityStrategyAIHelpers.ReweightByTurnsLeft pow fBase fPerTurn iOriginalWeight
          iTurnsLeft) ∧
    (iOriginalWeight ≤ 0 →
      CityStrategyAIHelpers.ReweightByTurnsLeft pow fBase fPerTurn iOriginalWeight
          iTurnsLeft ≤
        CityStrategyAIHelpers.ReweightByTurnsLeft pow fBase fPerTurn iOriginalWeight
          iTurnsLeft2 ∧
      CityStrategyAIHelpers.ReweightByTurnsLeft pow fBase fPerTurn iOriginalWeight
        iTurnsLeft2 ≤ 0) ∧
    (∀ (pow2 : ℚ → ℚ → ℚ) (b p : ℚ) (t : Int),
      CityStrategyAIHelpers.ReweightByTurnsLeft pow2 b p 0 t = 0) := by
  have ht1 : (1 : ℚ) ≤ (iTurnsLeft : ℚ) := by exact_mod_cast h1
  have ht12 : (iTurnsLeft : ℚ) ≤ (iTurnsLeft2 : ℚ) := by exact_mod_cast h12
  have hy : 0 < fBase + (iTurnsLeft : ℚ) * fPerTurn := by positivity
  have hyy : fBase + (iTurnsLeft : ℚ) * fPerTurn ≤ fBase + (iTurnsLeft2 : ℚ) * fPerTurn := by
    have := mul_le_mul_of_nonneg_right ht12 (le_of_lt hper)
    linarith
  obtain ⟨hd, hdd⟩ := hpow _ _ _ _ ht1 ht12 hy hyy
  refine ⟨fun hw => ?_, fun hw => ?_, fun pow2 b p t => ?_⟩
  · have hwq : (0 : ℚ) ≤ (iOriginalWeight : ℚ) := by exact_mod_cast hw
    unfold CityStrategyAIHelpers.ReweightByTurnsLeft
    exact truncateToInt_mono_nonneg _ _ (div_nonneg hwq (le_trans (le_of_lt hd) hdd))
      (div_le_div_of_nonneg_left hwq hd hdd)
  · have hwq : (iOriginalWeight : ℚ) ≤ 0 := by exact_mod_cast hw
    unfold CityStrategyAIHelpers.ReweightByTurnsLeft
    apply truncateToInt_mono_nonpos
    · exact div_nonpos_of_nonpos_of_nonneg hwq (le_trans (le_of_lt hd) hdd)
    · have h := div_le_div_of_nonneg_left (by linarith : (0 : ℚ) ≤ -(iOriginalWeight : ℚ)) hd hdd
      rw [neg_div, neg_div] at h
      linarith
  · unfold CityStrategyAIHelpers.ReweightByTurnsLeft
    simp [truncateToInt_zero]

/-- Witness of C10 (amended): with the sample power function and the factors 1 and 1 the
weight 100 at 3 turns left is reweighted to no more than at 2 turns left. -/
theorem C10_duration_reweighting_witness :
    CityStrategyAIHelpers.ReweightByTurnsLeft Sample.pow 1 1 100 3 ≤
      CityStrategyAIHelpers.ReweightByTurnsLeft Sample.pow 1 1 100 2 :=
  ((C10_duration_reweighting Sample.pow 1 1 100 2 3
    (fun x x2 y y2 hx hxx _ hyy => Sample.pow_contract x x2 y y2 hx hxx hyy)
    (by norm_num) (by norm_num) (by decide) (by decide)).1 (by decide)).2

/-! ## Lemmas on the seeds of the weighted draw -/

namespace CvWeightedVector

/-- The percentile draw reads one number of the random source: the one for the total
weight of the items at or above the cutoff and for the seed. -/
theorem ChooseAbovePercentThreshold_congr {α σ : Type} (urand urand2 : Nat → σ → Nat)
    (v : CvWeightedVector α) (iPercent : Int) (seed seed2 : σ)
    (h : urand (GetTotalWeight
          (v.filter (fun x => decide ((maxWeight v * iPercent).tdiv 100 ≤ x.2)))).toNat seed =
      urand2 (GetTotalWeight
          (v.filter (fun x => decide ((maxWeight v * iPercent).tdiv 100 ≤ x.2)))).toNat seed2) :
    ChooseAbovePercentThreshold urand v iPercent seed =
      ChooseAbovePercentThreshold urand2 v iPercent seed2 := by
  simp only [ChooseAbovePercentThreshold, ChooseByWeight, h]

/-- The item that the percentile draw returns is in the list with a weight at or above
the cutoff. -/
theorem ChooseAbovePercentThreshold_mem_cutoff {α σ : Type} (urand : Nat → σ → Nat)
    (v : CvWeightedVector α) (iPercent : Int) (seed : σ) (x : α)
    (h : ChooseAbovePercentThreshold urand v iPercent seed = some x) :
    ∃ w, (x, w) ∈ v ∧ (maxWeight v * iPercent).tdiv 100 ≤ w := by
  unfold ChooseAbovePercentThreshold at h
  obtain ⟨w, hw⟩ := ChooseByWeight_mem urand _ seed x h
  obtain ⟨h1, h2⟩ := List.mem_filter.mp hw
  exact ⟨w, h1, by simpa using h2⟩

end CvWeightedVector

namespace CvCityStrategyAI

/-- `ChooseProduction` consults the random source only for the seed
`fromRaw(0x0e36d18b).mix(city id)`. -/
theorem ChooseProduction_seed_only {σ : Type} (S : CvSeederOps σ) (urand urand2 : Nat → σ → Nat)
    (ctx : CvProductionContext) (c1 c2 : CvCity) (eIgnoreBldg eIgnoreUnit : Int)
    (bInterruptBuildings bInterruptWonders : Bool) (st : CvProductionState)
    (h : ∀ n : Nat, urand2 n (S.mix (S.fromRaw 0x0e36d18b) c2.m_iID) =
      urand n (S.mix (S.fromRaw 0x0e36d18b) c1.m_iID)) :
    ChooseProduction S urand2 ctx c2 eIgnoreBldg eIgnoreUnit bInterruptBuildings
        bInterruptWonders st =
      ChooseProduction S urand ctx c1 eIgnoreBldg eIgnoreUnit bInterruptBuildings
        bInterruptWonders st := by
  have hdraw : ∀ l : CvWeightedVector CvCityBuildable,
      ChooseProduction_draw S urand2 ctx.getCityProductionChoiceCutoffThreshold c2 l =
        ChooseProduction_draw S urand ctx.getCityProductionChoiceCutoffThreshold c1 l := by
    intro l
    unfold ChooseProduction_draw ChooseProduction_seed
    exact CvWeightedVector.ChooseAbovePercentThreshold_congr urand2 urand l _ _ _ (h _)
  have hsel : ∀ l : CvWeightedVector CvCityBuildable,
      ChooseProduction_selection S urand2 ctx c2 bInterruptBuildings l =
        ChooseProduction_selection S urand ctx c1 bInterruptBuildings l := by
    intro l
    unfold ChooseProduction_selection ChooseProduction_pickNew
    rw [hdraw l]
  unfold ChooseProduction
  simp only [hsel]

/-- `ChooseHurry` consults the random source only for the seed
`fromRaw(0xe362f42a).mix(city id)`. -/
theorem ChooseHurry_seed_only {σ : Type} (S : CvSeederOps σ) (urand urand2 : Nat → σ → Nat)
    (ctx : CvProductionContext) (c1 c2 : CvCity) (bUnitOnly bFaithPurchase : Bool)
    (st : CvProductionState)
    (h : ∀ n : Nat, urand2 n (S.mix (S.fromRaw 0xe362f42a) c2.m_iID) =
      urand n (S.mix (S.fromRaw 0xe362f42a) c1.m_iID)) :
    ChooseHurry S urand2 ctx c2 bUnitOnly bFaithPurchase st =
      ChooseHurry S urand ctx c1 bUnitOnly bFaithPurchase st := by
  have hdraw : ∀ l : CvWeightedVector CvCityBuildable,
      ChooseHurry_draw S urand2 ctx.getCityProductionChoiceCutoffThreshold c2 l =
        ChooseHurry_draw S urand ctx.getCityProductionChoiceCutoffThreshold c1 l := by
    intro l
    unfold ChooseHurry_draw ChooseHurry_seed
    exact CvWeightedVector.ChooseAbovePercentThreshold_congr urand2 urand l _ _ _ (h _)
  unfold ChooseHurry
  simp only [hdraw]

end CvCityStrategyAI

/-! ## The claim on the deterministic selection -/

/-- C9 (deterministic selection): the percentile-threshold weighted draw is determined by
the list, the percent and the one number that the random source returns for the seed (two
random sources that agree on that number give the same item, so two calls with the same
list, percent and seed return the same item), and on a non-empty list of positive weights
it returns an item of the list at or above the cutoff; `ChooseProduction` consults the
random source only for the seed `fromRaw(0x0e36d18b).mix(city id)` and `ChooseHurry` only
for `fromRaw(0xe362f42a).mix(city id)`: random sources that agree on that seed give the
same result of the whole function, and so do two city situations with the same
identifier, whatever their turn, population or techs. -/
theorem C9_deterministic_selection {σ : Type} (S : CvSeederOps σ)
    (urand urand2 : Nat → σ → Nat) (ctx : CvProductionContext) (c1 c2 : CvCity)
    (v : CvWeightedVector CvCityBuildable) (iPercent : Int) (seed seed2 : σ)
    (eIgnoreBldg eIgnoreUnit : Int)
    (bInterruptBuildings bInterruptWonders bUnitOnly bFaithPurchase : Bool)
    (st : CvProductionState) :
    (urand (CvWeightedVector.GetTotalWeight (v.filter (fun x =>
          decide ((CvWeightedVector.maxWeight v * iPercent).tdiv 100 ≤ x.2)))).toNat seed =
        urand2 (CvWeightedVector.GetTotalWeight (v.filter (fun x =>
          decide ((CvWeightedVector.maxWeight v * iPercent).tdiv 100 ≤ x.2)))).toNat seed2 →
      CvWeightedVector.ChooseAbovePercentThreshold urand v iPercent seed =
        CvWeightedVector.ChooseAbovePercentThreshold urand2 v iPercent seed2) ∧
    ((∀ (n : Nat) (s : σ), 0 < n → urand n s < n) → iPercent ≤ 100 → v ≠ [] →
      (∀ x ∈ v, 0 < x.2) →
      ∃ x w, CvWeightedVector.ChooseAbovePercentThreshold urand v iPercent seed = some x ∧
        (x, w) ∈ v ∧ (CvWeightedVector.maxWeight v * iPercent).tdiv 100 ≤ w) ∧
    ((∀ n : Nat, urand2 n (S.mix (S.fromRaw 0x0e36d18b) c2.m_iID) =
        urand n (S.mix (S.fromRaw 0x0e36d18b) c1.m_iID)) →
      ChooseProduction S urand2 ctx c2 eIgnoreBldg eIgnoreUnit bInterruptBuildings
          bInterruptWonders st =
        ChooseProduction S urand ctx c1 eIgnoreBldg eIgnoreUnit bInterruptBuildings
          bInterruptWonders st) ∧
    ((∀ n : Nat, urand2 n (S.mix (S.fromRaw 0xe362f42a) c2.m_iID) =
        urand n (S.mix (S.fromRaw 0xe362f42a) c1.m_iID)) →
      ChooseHurry S urand2 ctx c2 bUnitOnly bFaithPurchase st =
        ChooseHurry S urand ctx c1 bUnitOnly bFaithPurchase st) ∧
    (c1.m_iID = c2.m_iID →
      ChooseProduction S urand ctx c2 eIgnoreBldg eIgnoreUnit bInterruptBuildings
          bInterruptWonders st =
        ChooseProduction S urand ctx c1 eIgnoreBldg eIgnoreUnit bInterruptBuildings
          bInterruptWonders st ∧
      ChooseHurry S urand ctx c2 bUnitOnly bFaithPurchase st =
        ChooseHurry S urand ctx c1 bUnitOnly bFaithPurchase st) := by
  refine ⟨CvWeightedVector.ChooseAbovePercentThreshold_congr urand urand2 v iPercent seed seed2,
    ?_, ChooseProduction_seed_only S urand urand2 ctx c1 c2 _ _ _ _ st,
    ChooseHurry_seed_only S urand urand2 ctx c1 c2 _ _ st, ?_⟩
  · intro hurand hpct hne hpos
    obtain ⟨x, hx⟩ := CvWeightedVector.ChooseAbovePercentThreshold_isSome urand v iPercent seed
      hurand hpct hne hpos
    obtain ⟨w, hw, hcut⟩ :=
      CvWeightedVector.ChooseAbovePercentThreshold_mem_cutoff urand v iPercent seed x hx
    exact ⟨x, w, hx, hw, hcut⟩
  · intro hid
    exact ⟨ChooseProduction_seed_only S urand urand ctx c1 c2 _ _ _ _ st
        (fun n => by rw [hid]),
      ChooseHurry_seed_only S urand urand ctx c1 c2 _ _ st (fun n => by rw [hid])⟩

/-- Witness of C9: the idle sample city with identifier 8192 gets the same order at turn
40 with population 12 as at turn 3 with population 5; the cities with identifiers 0 and 3
get different orders from the same candidates, and the city with identifier 5 gets a
different item from the purchase draw than from the production draw. -/
theorem C9_deterministic_selection_witness :
    ChooseProduction Sample.seeder Sample.urand Sample.contextIdle (Sample.city 40 12 [7])
        (-1) (-1) false true Sample.production =
      ChooseProduction Sample.seeder Sample.urand Sample.contextIdle (Sample.city 3 5 [])
        (-1) (-1) false true Sample.production ∧
    (ChooseProduction Sample.seeder Sample.urand Sample.contextIdle (Sample.cityWithID 0)
        (-1) (-1) false true Sample.production).pushOrderCalls =
      [⟨OrderTypes.ORDER_TRAIN, 1, 2, false, true, false, false⟩] ∧
    (ChooseProduction Sample.seeder Sample.urand Sample.contextIdle (Sample.cityWithID 3)
        (-1) (-1) false true Sample.production).pushOrderCalls =
      [⟨OrderTypes.ORDER_CONSTRUCT, 0, -1, false, true, false, false⟩] ∧
    (ChooseProduction Sample.seeder Sample.urand Sample.contextIdle (Sample.cityWithID 5)
        (-1) (-1) false true Sample.production).pushOrderCalls =
      [⟨OrderTypes.ORDER_CONSTRUCT, 0, -1, false, true, false, false⟩] ∧
    (ChooseHurry Sample.seeder Sample.urand Sample.contextIdle (Sample.cityWithID 5)
        false false Sample.production).1 = ⟨CITY_BUILDABLE_UNIT, 0, 5, 60⟩ :=
  ⟨((C9_deterministic_selection Sample.seeder Sample.urand Sample.urand Sample.contextIdle
      (Sample.city 3 5 []) (Sample.city 40 12 [7]) [] 50 0 0 (-1) (-1) false true false false
      Sample.production).2.2.2.2 (by decide)).1,
   by decide, by decide, by decide, by decide⟩

end CvGameCoreDLL
